import Mathlib

/-!
# Media Source actor (`src/media/src/media_source_actor.cpp`)

A shallow embedding of the message handlers of `MediaSourceActor`.

* The actor state (`base_`, `media_streams_`, `parent_uuid_`) is passed explicitly.
* A request to another actor followed by its `.then` continuation is modelled as one
  step whose reply is read from an environment `Env`; an error reply is an
  `Except.error`.
* Frame numbers are C++ `int`s, modelled by unbounded `Int`; frame counts and
  `flicks` counts are modelled by `Nat`.
* The value types of `xstudio::utility` and `xstudio::media` that the actor uses
  (`MediaReference`, `FrameRateDuration`, `AVFrameID`, ...) are declared outside this
  translation unit; they are modelled from the specification's data model.
-/

set_option autoImplicit false

namespace MediaSourceActor

/-! ## Value types -/

/-- Modelled from the spec: `utility::Uuid`; the value `0` is the nil uuid. -/
structure Uuid where
  val : Nat
  deriving DecidableEq, Repr

/-- The default constructed `utility::Uuid()`. -/
def Uuid.nil : Uuid := ⟨0⟩

/-- The test `Uuid::is_null()`. -/
def Uuid.is_null (u : Uuid) : Bool := u.val == 0

/-- Modelled from the spec: `utility::Uuid::generate()`, "a fresh UUID": a uuid that is
not nil and differs from every uuid of `in_use`; `draw` stands for the random draw. -/
def Uuid.generate (in_use : List Uuid) (draw : Nat) : Uuid :=
  ⟨(in_use.map Uuid.val).sum + draw + 1⟩

/-- Modelled from the spec: `MediaType`, "media_type ∈ {IMAGE, AUDIO}". -/
inductive MediaType where
  | MT_IMAGE
  | MT_AUDIO
  deriving DecidableEq, Repr

/-- Modelled from the spec: `MediaStatus`, "{ONLINE, MISSING, CORRUPT, UNREADABLE, ...}". -/
inductive MediaStatus where
  | MS_ONLINE
  | MS_MISSING
  | MS_CORRUPT
  | MS_UNREADABLE
  deriving DecidableEq, Repr

/-- Modelled from the spec: `utility::FrameRate`, "a rational duration per frame";
`count` is the signed number of flicks one frame lasts, `0` meaning an unknown rate. -/
structure FrameRate where
  count : Int
  deriving DecidableEq, Repr

/-- Modelled from the spec: `timebase::flicks`, a time length as a signed count. -/
structure Flicks where
  count : Int
  deriving DecidableEq, Repr

/-- Modelled from the spec: `utility::FrameRateDuration`, "(frames, rate) pair; frames =
total logical frames"; the handlers read the frame count into an `int`. The constructor
`FrameRateDuration(frames, rate)` is the structure constructor. -/
structure FrameRateDuration where
  frames : Int
  rate : FrameRate
  deriving DecidableEq, Repr

/-- Modelled from the spec: `FrameRateDuration::duration()`, the time length of
`frames` frames at `rate`. -/
def FrameRateDuration.duration (d : FrameRateDuration) : Flicks := ⟨d.frames * d.rate.count⟩

/-- Modelled from the spec: `FrameRateDuration::set_rate`, "override stream rate". -/
def FrameRateDuration.set_rate (d : FrameRateDuration) (r : FrameRate) : FrameRateDuration :=
  { d with rate := r }

/-- Modelled from the spec: `utility::Timecode`, identified by its value as a number of
frames ("timecode-as-frames"). -/
structure Timecode where
  total_frames : Int
  deriving DecidableEq, Repr

/-- Modelled from the spec: `utility::FrameList`, "ordered set of integer file-frame
numbers present on disk", listed in logical order. -/
structure FrameList where
  frames : List Int
  deriving DecidableEq, Repr

/-- Modelled from the spec: the constructor `FrameList(first, last)`, the contiguous
range of file-frames `first..last`. -/
def FrameList.range (first last : Int) : FrameList :=
  ⟨(List.range (last + 1 - first).toNat).map (fun (k : Nat) => first + (k : Int))⟩

/-- Modelled from the spec: `FrameList::start()`, "first file-frame" of the list
(`0` for an empty list). -/
def FrameList.start (fl : FrameList) : Int := fl.frames.headD 0

/-- Modelled from the spec: `caf::uri`. A concrete URI is either the base URI itself or
the template URI of a sequence instantiated at one file-frame. -/
structure Uri where
  path : String
  file_frame : Option Int
  deriving DecidableEq, Repr

/-- Modelled from the spec: `utility::JsonStore`; `none` is the empty JSON document
`JsonStore()`. -/
structure JsonStore where
  doc : Option String
  deriving DecidableEq, Repr

/-- The default constructed `utility::JsonStore()`. -/
def JsonStore.empty : JsonStore := ⟨none⟩

/-- Modelled from the spec: `MediaReference`, "the canonical description of the physical
asset". The rate of the reference is the rate of its duration. -/
structure MediaReference where
  container : Bool
  uri_ : Uri
  frame_list : FrameList
  duration : FrameRateDuration
  timecode : Timecode
  deriving DecidableEq, Repr

namespace MediaReference

/-- Modelled from the spec: `MediaReference::rate()`. -/
def rate (mr : MediaReference) : FrameRate := mr.duration.rate

/-- Modelled from the spec: `MediaReference::frame_count()`, "frames = total logical
frames". -/
def frame_count (mr : MediaReference) : Int := mr.duration.frames

/-- Modelled from the spec: `MediaReference::set_duration`. -/
def set_duration (mr : MediaReference) (d : FrameRateDuration) : MediaReference :=
  { mr with duration := d }

/-- Modelled from the spec: `MediaReference::set_rate`, "set duration = (frames,
fallback rate)". -/
def set_rate (mr : MediaReference) (r : FrameRate) : MediaReference :=
  { mr with duration := ⟨mr.duration.frames, r⟩ }

/-- Modelled from the spec: `MediaReference::set_frame_list`. -/
def set_frame_list (mr : MediaReference) (fl : FrameList) : MediaReference :=
  { mr with frame_list := fl }

/-- Modelled from the spec: `MediaReference::set_timecode`. -/
def set_timecode (mr : MediaReference) (tc : Timecode) : MediaReference :=
  { mr with timecode := tc }

/-- Modelled from the spec: `MediaReference::frame(logical_frame)`, the file-frame of a
logical frame. For a container "file_frame = k" for all `k`; for a sequence the frame
list is "indexed by logical order" and the lookup fails out of range. -/
def frame (mr : MediaReference) (logical_frame : Int) : Option Int :=
  if mr.container then some logical_frame
  else if logical_frame < 0 then none
  else mr.frame_list.frames[logical_frame.toNat]?

/-- Modelled from the spec: `MediaReference::uri(logical_frame, file_frame)`,
"maps logical_frame to a concrete URI and file-frame integer. Fails when out of range";
for a container it "returns the same base URI for all k, with file_frame = k". -/
def uri (mr : MediaReference) (logical_frame : Int) : Option (Uri × Int) :=
  match mr.frame logical_frame with
  | none => none
  | some f => some (if mr.container then mr.uri_ else ⟨mr.uri_.path, some f⟩, f)

/-- Modelled from the spec: `MediaReference::uris()`, "enumerates (uri, file_frame) over
all logical frames in order": the frames `0 .. frames-1` of a container (none when the
frame count is not positive), the frame list of a sequence. -/
def uris (mr : MediaReference) : List (Uri × Int) :=
  if mr.container then
    (List.range mr.duration.frames.toNat).map (fun (k : Nat) => (mr.uri_, (k : Int)))
  else
    mr.frame_list.frames.map (fun f => (⟨mr.uri_.path, some f⟩, f))

/-- Modelled from the spec: `MediaReference::set_timecode_from_frames()`, "sets timecode
so that timecode-as-frames equals frame(0)". -/
def set_timecode_from_frames (mr : MediaReference) : MediaReference :=
  match mr.frame 0 with
  | none => mr
  | some f => { mr with timecode := ⟨f⟩ }

end MediaReference

/-- Modelled from the spec: `StreamDetail`, "{ name, duration, media_type, key_format }";
also the `StreamInfo` entries of a probed `MediaDetail`. -/
structure StreamDetail where
  name_ : String
  duration_ : FrameRateDuration
  media_type_ : MediaType
  key_format_ : String
  deriving DecidableEq, Repr

/-- Modelled from the spec: `MediaDetail{ reader_tag, timecode, [StreamInfo...] }`. -/
structure MediaDetail where
  reader_ : String
  timecode_ : Timecode
  streams_ : List StreamDetail
  deriving DecidableEq, Repr

/-- Modelled from the spec: `MediaKey`, "(key_format, uri, file_frame, stream_name)". -/
structure MediaKey where
  key_format : String
  uri : Uri
  file_frame : Int
  stream_name : String
  deriving DecidableEq, Repr

/-- Modelled from the spec: the "default-constructed (empty) MediaKey" `MediaKey()`. -/
def MediaKey.empty : MediaKey := ⟨"", ⟨"", none⟩, 0, ""⟩

/-- Modelled from the spec: `AVFrameID`, the decode-ready descriptor; `key_` is the
`MediaKey` the constructor derives from its arguments. -/
structure AVFrameID where
  uri_ : Uri
  frame_ : Int
  first_frame_ : Int
  rate_ : FrameRate
  stream_name_ : String
  key_format_ : String
  reader_ : String
  source_address_ : Nat
  params_ : JsonStore
  source_uuid_ : Uuid
  parent_uuid_ : Uuid
  media_type_ : MediaType
  key_ : MediaKey
  deriving DecidableEq, Repr

/-- The twelve-argument constructor `media::AVFrameID(...)`. -/
def AVFrameID.make (uri : Uri) (frame first_frame : Int) (rate : FrameRate)
    (stream_name key_format reader : String) (source_address : Nat) (params : JsonStore)
    (source_uuid parent_uuid : Uuid) (media_type : MediaType) : AVFrameID :=
  { uri_ := uri, frame_ := frame, first_frame_ := first_frame, rate_ := rate,
    stream_name_ := stream_name, key_format_ := key_format, reader_ := reader,
    source_address_ := source_address, params_ := params, source_uuid_ := source_uuid,
    parent_uuid_ := parent_uuid, media_type_ := media_type,
    key_ := ⟨key_format, uri, frame, stream_name⟩ }

/-- Modelled from the spec: an element of `media::AVFrameIDs`. The "blank sentinel" is
"a distinguished AVFrameID signalling no frame here"; `make_blank_frame(media_type)`
is the constructor `blank`. -/
inductive FramePtr where
  | blank (media_type : MediaType)
  | frame (id : AVFrameID)
  deriving DecidableEq, Repr

/-- The helper `media::make_blank_frame(media_type)`. -/
def make_blank_frame (media_type : MediaType) : FramePtr := FramePtr.blank media_type

/-- An error as seen by the requester: `make_error(xstudio_error::error, msg)`, or an
exception that escapes a handler so that no reply is delivered. -/
inductive Error where
  | xstudio (msg : String)
  | unhandled (what : String)
  deriving DecidableEq, Repr

/-- The spec's error kind *NoStreams*. -/
def NoStreams : Error := Error.xstudio "No streams"

/-- The spec's error kind *InvalidFrameIndex*. -/
def InvalidFrameIndex : Error := Error.xstudio "Invalid frame index"

/-- The text `to_string(err)` / `err.what()` of an error. -/
def Error.to_string : Error → String
  | Error.xstudio msg => msg
  | Error.unhandled what => what

/-! ## Base state -/

/-- Modelled from the spec: the `MediaSource` base-state record, "media reference,
reader tag, status, error detail, per-media-type current-stream pointer, set of known
stream UUIDs per media-type". -/
structure MediaSource where
  name : String
  uuid : Uuid
  media_reference : MediaReference
  reader : String
  media_status : MediaStatus
  error_detail : String
  current_image : Uuid
  current_audio : Uuid
  image_streams : List Uuid
  audio_streams : List Uuid
  deriving DecidableEq, Repr

namespace MediaSource

/-- Modelled from the spec: `MediaSource::current(media_type)`. -/
def current (b : MediaSource) : MediaType → Uuid
  | MediaType.MT_IMAGE => b.current_image
  | MediaType.MT_AUDIO => b.current_audio

/-- Modelled from the spec: `MediaSource::streams(media_type)`. -/
def streams (b : MediaSource) : MediaType → List Uuid
  | MediaType.MT_IMAGE => b.image_streams
  | MediaType.MT_AUDIO => b.audio_streams

/-- Modelled from the spec: `MediaSource::online()`, "a source is online iff its
backing files are reachable". -/
def online (b : MediaSource) : Bool := b.media_status == MediaStatus.MS_ONLINE

/-- Modelled from the spec: `MediaSource::empty()`, no stream registered (the handlers
answer "No MediaStreams" for an empty source). -/
def empty (b : MediaSource) : Bool := b.image_streams.isEmpty && b.audio_streams.isEmpty

/-- Modelled from the spec: `MediaSource::clear()`, "clear base stream indices". -/
def clear (b : MediaSource) : MediaSource :=
  { b with current_image := Uuid.nil, current_audio := Uuid.nil,
           image_streams := [], audio_streams := [] }

/-- Modelled from the spec: `MediaSource::add_media_stream(type, uuid)`, "register
(type, uuid) in base"; the first stream registered for a type becomes its current
stream. -/
def add_media_stream (b : MediaSource) (mt : MediaType) (u : Uuid) : MediaSource :=
  match mt with
  | MediaType.MT_IMAGE =>
    { b with image_streams := b.image_streams ++ [u],
             current_image := if b.current_image.is_null then u else b.current_image }
  | MediaType.MT_AUDIO =>
    { b with audio_streams := b.audio_streams ++ [u],
             current_audio := if b.current_audio.is_null then u else b.current_audio }

/-- Modelled from the spec: `MediaSource::set_reader`. -/
def set_reader (b : MediaSource) (r : String) : MediaSource := { b with reader := r }

/-- Modelled from the spec: `MediaSource::set_error_detail`. -/
def set_error_detail (b : MediaSource) (e : String) : MediaSource := { b with error_detail := e }

/-- Update of the reference returned by `base_.media_reference()`. -/
def set_media_reference (b : MediaSource) (mr : MediaReference) : MediaSource :=
  { b with media_reference := mr }

end MediaSource

/-! ## Actor state and environment -/

/-- A spawned `MediaStreamActor`, recorded by its constructor arguments
`(name, duration, media_type, key_format, uuid)`. -/
structure MediaStreamActor where
  name_ : String
  duration_ : FrameRateDuration
  media_type_ : MediaType
  key_format_ : String
  uuid_ : Uuid
  deriving DecidableEq, Repr

/-- The member variables of `MediaSourceActor` the handlers read and write;
`self` stands for the actor's own address. -/
structure State where
  base_ : MediaSource
  media_streams_ : List (Uuid × MediaStreamActor)
  parent_uuid_ : Uuid
  self : Nat
  deriving DecidableEq, Repr

/-- The lookup `media_streams_.at(uuid)` (`none` when `at` throws `out_of_range`). -/
def stream_at (m : List (Uuid × MediaStreamActor)) (u : Uuid) : Option MediaStreamActor :=
  (m.find? (fun p => p.1 == u)).map (fun p => p.2)

/-- The assignment `media_streams_[uuid] = stream`. -/
def stream_insert (m : List (Uuid × MediaStreamActor)) (u : Uuid) (a : MediaStreamActor) :
    List (Uuid × MediaStreamActor) :=
  if m.any (fun p => p.1 == u) then m.map (fun p => if p.1 == u then (u, a) else p)
  else m ++ [(u, a)]

/-- The replies of the collaborators of the source during one handler run. -/
structure Env where
  -- the reader registry, when registered: its reply to `get_media_detail_atom`
  media_reader : Option (Uri → Except Error MediaDetail)
  -- the reply of `json_store_` to `get_json_atom` at `/colour_pipeline`
  colour_pipeline : Except Error JsonStore
  -- the reply of a stream actor to `get_stream_detail_atom`
  stream_detail : MediaStreamActor → Except Error StreamDetail
  -- the uuid produced by the `k`-th call of `Uuid::generate()` in the handler
  generate : Nat → Uuid
  -- the image cache, when registered: its reply to `erase_atom` with a key list
  image_cache : Option (List MediaKey → Except Error (List MediaKey))
  -- the audio cache, when registered: its reply to `erase_atom` with a key list
  audio_cache : Option (List MediaKey → Except Error (List MediaKey))

/-- Messages sent and actors spawned by a handler, in order. -/
inductive Effect where
  | shutdown_stream (u : Uuid)
  | get_media_detail (uri : Uri)
  | spawn_stream (a : MediaStreamActor)
  | event_add_media_stream (u : Uuid)
  | get_metadata
  | send_changed
  | event_change
  | event_name (name : String)
  deriving DecidableEq, Repr

/-- Dereference `*(opt)` of a `std::optional<int>`. -/
def deref (o : Option Int) : Int := o.getD 0

/-! ## Detail acquisition (`MediaSourceActor::acquire_detail`) -/

/-- The duration/rate reconciliation applied to one probed stream `i` (the body of
`if (i.media_type_ == MT_IMAGE)` in the reader continuation); returns the updated media
reference and the updated copy of `i`. -/
def reconcile (rate : FrameRate) (mr : MediaReference) (i : StreamDetail) :
    MediaReference × StreamDetail :=
  if i.media_type_ = MediaType.MT_IMAGE then
    if mr.duration.duration.count = 0 then
      if i.duration_.duration.count ≠ 0 then
        ((mr.set_duration i.duration_).set_frame_list
            (FrameList.range 0 ((i.duration_.frames : Int) - 1)), i)
      else
        if i.duration_.rate.count ≠ 0 then
          (((mr.set_duration ⟨1, i.duration_.rate⟩).set_frame_list (FrameList.range 0 0)),
            { i with duration_ := ⟨1, i.duration_.rate⟩ })
        else
          (((mr.set_duration ⟨1, rate⟩).set_frame_list (FrameList.range 0 0)),
            { i with duration_ := ⟨1, rate⟩ })
    else if i.duration_.rate.count ≠ 0 then
      let frames := mr.duration.frames
      let i1 : StreamDetail := { i with duration_ := ⟨frames, i.duration_.rate⟩ }
      (mr.set_duration ⟨frames, i1.duration_.rate⟩, i1)
    else
      let i1 : StreamDetail :=
        if ¬ mr.container then { i with duration_ := ⟨mr.duration.frames, rate⟩ }
        else { i with duration_ := i.duration_.set_rate rate }
      (mr.set_rate rate, i1)
  else (mr, i)

/-- One iteration of `for (auto i : md.streams_)`: reconcile, spawn the stream actor
under the freshly generated `uuid`, register it and emit `add_media_stream`. -/
def process_stream (rate : FrameRate) (uuid : Uuid) (acc : State × List Effect)
    (i : StreamDetail) : State × List Effect :=
  let r := reconcile rate acc.1.base_.media_reference i
  let stream : MediaStreamActor :=
    ⟨r.2.name_, r.2.duration_, r.2.media_type_, r.2.key_format_, uuid⟩
  ({ acc.1 with
      media_streams_ := stream_insert acc.1.media_streams_ uuid stream,
      base_ := (acc.1.base_.set_media_reference r.1).add_media_stream r.2.media_type_ uuid },
   acc.2 ++ [Effect.spawn_stream stream, Effect.event_add_media_stream uuid])

/-- The loop `for (auto i : md.streams_)`; `k` counts the uuids generated so far. -/
def stream_loop (env : Env) (rate : FrameRate) :
    Nat → List StreamDetail → State × List Effect → State × List Effect
  | _, [], acc => acc
  | k, i :: rest, acc =>
    stream_loop env rate (k + 1) rest (process_stream rate (env.generate k) acc i)

/-- The sequence timecode step after the loop: `set_timecode_from_frames()` when the
source is not a container and its timecode is zero or its frame list does not start
at 0. -/
def anchor_timecode (mr : MediaReference) : MediaReference :=
  if ¬ mr.container ∧ (mr.timecode.total_frames = 0 ∨ mr.frame_list.start ≠ 0) then
    mr.set_timecode_from_frames
  else mr

/-- The first statements of the success continuation: a zero timecode is overwritten
with the probed timecode, and the reader tag is set. -/
def adopt_probed (md : MediaDetail) (s : State) : State :=
  let mr0 := s.base_.media_reference
  let mr1 := if mr0.timecode.total_frames = 0 then mr0.set_timecode md.timecode_ else mr0
  { s with base_ := (s.base_.set_media_reference mr1).set_reader md.reader_ }

/-- The success continuation `[=](const MediaDetail &md)` of the reader request. -/
def on_media_detail (env : Env) (rate : FrameRate) (md : MediaDetail) (s : State) :
    State × List Effect :=
  let r := stream_loop env rate 0 md.streams_ (adopt_probed md s, [])
  ({ r.1 with base_ := r.1.base_.set_media_reference (anchor_timecode r.1.base_.media_reference) },
   r.2 ++ [Effect.get_metadata, Effect.send_changed, Effect.event_change])

/-- The statements "clear current settings" of `acquire_detail`: every stream actor is
unlinked and sent an exit, `media_streams_.clear()`, `base_.clear()`. -/
def clear_streams (s : State) : State × List Effect :=
  ({ s with media_streams_ := [], base_ := s.base_.clear },
   s.media_streams_.map (fun p => Effect.shutdown_stream p.1))

/-- The member function `MediaSourceActor::acquire_detail(rate, rp)` together with the
continuation of its reader request: the new state, the effects, and the boolean
delivered to the response promise. -/
def acquire_detail (env : Env) (rate : FrameRate) (s : State) : State × List Effect × Bool :=
  if s.media_streams_.length ≠ 0 then (s, [], true)
  else if ¬ s.base_.online then (s, [], false)
  else
    let c := clear_streams s
    match env.media_reader with
    | none => (c.1, c.2, false)
    | some reader =>
      match c.1.base_.media_reference.uri 0 with
      | none =>
        ({ c.1 with base_ := c.1.base_.set_error_detail "Invalid frame index" }, c.2, false)
      | some (u, _) =>
        match reader u with
        | Except.error err =>
          ({ c.1 with base_ := c.1.base_.set_error_detail err.to_string },
           c.2 ++ [Effect.get_media_detail u, Effect.send_changed, Effect.event_change], false)
        | Except.ok md =>
          let r := on_media_detail env rate md c.1
          (r.1, c.2 ++ [Effect.get_media_detail u] ++ r.2, true)

/-- The handler `[=](acquire_media_detail_atom, const utility::FrameRate &rate)`. -/
def acquire_media_detail_atom (env : Env) (rate : FrameRate) (s : State) :
    State × List Effect × Bool :=
  let r := acquire_detail env rate s
  (r.1, r.2.1 ++ [Effect.event_name s.base_.name], r.2.2)

/-! ## Frame pointer resolution -/

/-- The handler `[=](get_media_pointer_atom, const MediaType media_type,
const int logical_frame)`. -/
def get_media_pointer_atom (env : Env) (s : State) (media_type : MediaType)
    (logical_frame : Int) : Except Error AVFrameID :=
  if (s.base_.current media_type).is_null then Except.error (Error.xstudio "No streams")
  else
    match stream_at s.media_streams_ (s.base_.current media_type) with
    | none => Except.error (Error.unhandled "map::at")
    | some stream =>
      match env.stream_detail stream with
      | Except.error err => Except.error err
      | Except.ok detail =>
        match s.base_.media_reference.uri logical_frame with
        | none => Except.error (Error.xstudio "Invalid frame index")
        | some (u, frame) =>
          if media_type = MediaType.MT_IMAGE then
            match env.colour_pipeline with
            | Except.ok cp =>
              Except.ok (AVFrameID.make u frame (deref (s.base_.media_reference.frame 0))
                s.base_.media_reference.rate detail.name_ detail.key_format_ s.base_.reader
                s.self cp (s.base_.current media_type) s.parent_uuid_ media_type)
            | Except.error _ =>
              Except.ok (AVFrameID.make u frame (deref (s.base_.media_reference.frame 0))
                s.base_.media_reference.rate detail.name_ detail.key_format_ s.base_.reader
                s.self JsonStore.empty Uuid.nil s.parent_uuid_ media_type)
          else
            Except.ok (AVFrameID.make u frame (deref (s.base_.media_reference.frame 0))
              s.base_.media_reference.rate detail.name_ detail.key_format_ s.base_.reader
              s.self JsonStore.empty (s.base_.current media_type) s.parent_uuid_ media_type)

/-- The iteration space of `for (auto ii = i.first; ii <= i.second; ii++)`. -/
def range_frames (r : Int × Int) : List Int :=
  (List.range (r.2 + 1 - r.1).toNat).map (fun (k : Nat) => r.1 + (k : Int))

/-- The body of the inner loop of `get_media_pointers_for_frames`; the accumulator is
`result` together with the reused descriptor `mptr` (`none` while `mptr.is_nil()`). -/
def frame_body (s : State) (media_type : MediaType) (cp : JsonStore) (detail : StreamDetail)
    (acc : List FramePtr × Option AVFrameID) (logical_frame : Int) :
    List FramePtr × Option AVFrameID :=
  match s.base_.media_reference.uri logical_frame with
  | none => (acc.1 ++ [make_blank_frame media_type], acc.2)
  | some (u, frame) =>
    let mptr : AVFrameID :=
      match acc.2 with
      | none =>
        AVFrameID.make u frame (deref (s.base_.media_reference.frame 0))
          s.base_.media_reference.rate detail.name_ detail.key_format_ s.base_.reader
          s.self cp (s.base_.current media_type) s.parent_uuid_ media_type
      | some m =>
        { m with uri_ := u, frame_ := frame,
                 key_ := ⟨detail.key_format_, u, frame, detail.name_⟩ }
    (acc.1 ++ [FramePtr.frame mptr], some mptr)

/-- The member function `MediaSourceActor::get_media_pointers_for_frames`. -/
def get_media_pointers_for_frames (env : Env) (s : State) (media_type : MediaType)
    (ranges : List (Int × Int)) : Except Error (List FramePtr) :=
  if (s.base_.current media_type).is_null then
    Except.ok (ranges.foldl
      (fun result i => (range_frames i).foldl
        (fun result _ => result ++ [make_blank_frame media_type]) result) [])
  else
    match env.colour_pipeline with
    | Except.error err => Except.error err
    | Except.ok cp =>
      match stream_at s.media_streams_ (s.base_.current media_type) with
      | none => Except.error (Error.unhandled "map::at")
      | some stream =>
        match env.stream_detail stream with
        | Except.error err => Except.error err
        | Except.ok detail =>
          Except.ok (ranges.foldl
            (fun acc i => (range_frames i).foldl (frame_body s media_type cp detail) acc)
            ([], none)).1

/-- The handler `[=](get_media_pointers_atom, const MediaType media_type,
const LogicalFrameRanges &ranges)`. -/
def get_media_pointers_atom (env : Env) (s : State) (media_type : MediaType)
    (ranges : List (Int × Int)) : Except Error (List FramePtr) :=
  if s.base_.empty then
    if s.base_.error_detail.isEmpty then Except.error (Error.xstudio "No MediaStreams")
    else Except.error (Error.xstudio s.base_.error_detail)
  else get_media_pointers_for_frames env s media_type ranges

/-- The descriptors built by `for (const auto &i : base_.media_reference().uris())` in
the whole-source handler, with the colour parameters `params` and the stream uuid
`source_uuid` of the branch. -/
def batch_results (s : State) (media_type : MediaType) (detail : StreamDetail)
    (params : JsonStore) (source_uuid : Uuid) : List AVFrameID :=
  s.base_.media_reference.uris.foldl
    (fun results i => results ++
      [AVFrameID.make i.1 i.2 (deref (s.base_.media_reference.frame 0))
        s.base_.media_reference.rate detail.name_ detail.key_format_ s.base_.reader
        s.self params source_uuid s.parent_uuid_ media_type]) []

/-- The handler `[=](get_media_pointer_atom, const MediaType media_type)`, the
whole-source batch. -/
def get_media_pointer_atom_batch (env : Env) (s : State) (media_type : MediaType) :
    Except Error (List AVFrameID) :=
  if (s.base_.current media_type).is_null then Except.error (Error.xstudio "No streams")
  else
    match stream_at s.media_streams_ (s.base_.current media_type) with
    | none => Except.error (Error.unhandled "map::at")
    | some stream =>
      match env.stream_detail stream with
      | Except.error err => Except.error err
      | Except.ok detail =>
        if media_type = MediaType.MT_IMAGE then
          match env.colour_pipeline with
          | Except.ok cp =>
            Except.ok (batch_results s media_type detail cp
              (s.base_.current MediaType.MT_IMAGE))
          | Except.error _ =>
            Except.ok (batch_results s media_type detail JsonStore.empty Uuid.nil)
        else
          Except.ok (batch_results s media_type detail JsonStore.empty
            (s.base_.current media_type))

/-! ## Cache key service -/

/-- The member function `MediaSourceActor::deliver_frames_media_keys`. -/
def deliver_frames_media_keys (env : Env) (s : State) (media_type : MediaType)
    (logical_frames : List Int) : Except Error (List MediaKey) :=
  if s.base_.empty then
    if s.base_.error_detail.isEmpty then Except.error (Error.xstudio "No MediaStreams")
    else Except.error (Error.xstudio s.base_.error_detail)
  else if (s.base_.current media_type).is_null then
    Except.error (Error.xstudio "No Stream for MediaType")
  else
    match stream_at s.media_streams_ (s.base_.current media_type) with
    | none => Except.error (Error.unhandled "map::at")
    | some stream =>
      match env.stream_detail stream with
      | Except.error err => Except.error err
      | Except.ok detail =>
        if logical_frames.isEmpty then
          Except.ok (s.base_.media_reference.uris.foldl
            (fun result u => result ++
              [MediaKey.mk detail.key_format_ u.1 u.2 detail.name_]) [])
        else
          Except.ok (logical_frames.foldl
            (fun result logical_frame =>
              match s.base_.media_reference.uri logical_frame with
              | some (u, frame) =>
                result ++ [MediaKey.mk detail.key_format_ u frame detail.name_]
              | none => result ++ [MediaKey.empty]) [])

/-- The handler `[=](media_cache::keys_atom)`. -/
def keys_atom (env : Env) (s : State) : Except Error (List MediaKey) :=
  deliver_frames_media_keys env s MediaType.MT_IMAGE []

/-- The handler `[=](media_cache::keys_atom, const MediaType media_type)`. -/
def keys_atom_type (env : Env) (s : State) (media_type : MediaType) :
    Except Error (List MediaKey) :=
  deliver_frames_media_keys env s media_type []

/-- The handler `[=](media_cache::keys_atom, const MediaType media_type,
const std::vector<int> &logical_frames)`. -/
def keys_atom_frames (env : Env) (s : State) (media_type : MediaType)
    (logical_frames : List Int) : Except Error (List MediaKey) :=
  deliver_frames_media_keys env s media_type logical_frames

/-- The handler `[=](media_cache::keys_atom, const MediaType media_type,
const int logical_frame)`: the first element of the reply to the one-element list. -/
def keys_atom_frame (env : Env) (s : State) (media_type : MediaType) (logical_frame : Int) :
    Except Error MediaKey :=
  match keys_atom_frames env s media_type [logical_frame] with
  | Except.error err => Except.error err
  | Except.ok r =>
    match r with
    | k :: _ => Except.ok k
    | [] => Except.error (Error.xstudio "No keys for frames")

/-- The registered caches, in the order they are pushed onto `caches`. -/
def registered_caches (env : Env) : List (List MediaKey → Except Error (List MediaKey)) :=
  (match env.image_cache with | some c => [c] | none => []) ++
  (match env.audio_cache with | some c => [c] | none => [])

/-- The replies of `fan_out_request<policy::select_all>(caches, erase_atom, keys)`: all
the replies when every cache answers, else the first error. -/
def fan_out_erase (keys : List MediaKey) :
    List (List MediaKey → Except Error (List MediaKey)) → Except Error (List (List MediaKey))
  | [] => Except.ok []
  | c :: rest =>
    match c keys with
    | Except.error err => Except.error err
    | Except.ok erased =>
      match fan_out_erase keys rest with
      | Except.error err => Except.error err
      | Except.ok more => Except.ok (erased :: more)

/-- The handler `[=](media::invalidate_cache_atom)`: the key list sent to the caches
(when one is sent) and the reply. -/
def invalidate_cache_atom (env : Env) (s : State) :
    Option (List MediaKey) × Except Error (List MediaKey) :=
  match keys_atom env s with
  | Except.error err => (none, Except.error err)
  | Except.ok keys =>
    if (registered_caches env).isEmpty then (none, Except.ok [])
    else
      match fan_out_erase keys (registered_caches env) with
      | Except.error err => (some keys, Except.error err)
      | Except.ok erased_keys =>
        (some keys, Except.ok (erased_keys.foldl (fun result i => result ++ i) []))

/-! ## Thumbnails -/

/-- The frame computed by the thumbnail handler from `frame_count` and the integer
`rounded` that `(int)round(float(frame_count) * position)` yields:
`std::max(0, std::min(frame, frame_count - 1))`. -/
def thumbnail_frame (frame_count rounded : Int) : Int :=
  max 0 (min rounded (frame_count - 1))

/-- The message the thumbnail handler sends to the requester: a buffer (with the
requested position and the job uuid), or a null buffer with position `0.0f` and the
text of an error. -/
inductive ThumbnailMessage where
  | buffer (buf : Nat) (job_uuid : Uuid)
  | failed (job_uuid : Uuid) (err : String)
  deriving DecidableEq, Repr

/-- The handler `[=](media_reader::get_thumbnail_atom, float position,
const utility::Uuid job_uuid, caf::actor requester)`; `rounded` is the rounded product
of frame count and position, `thumbnail_manager` the reply of the thumbnail manager to a
descriptor. The result is the logical frame requested and the message sent to the
requester. -/
def get_thumbnail_atom (env : Env) (thumbnail_manager : AVFrameID → Except Error Nat)
    (s : State) (rounded : Int) (job_uuid : Uuid) : Int × ThumbnailMessage :=
  let frame := thumbnail_frame s.base_.media_reference.frame_count rounded
  match get_media_pointer_atom env s MediaType.MT_IMAGE frame with
  | Except.error err => (frame, ThumbnailMessage.failed job_uuid err.to_string)
  | Except.ok mp =>
    match thumbnail_manager mp with
    | Except.error err => (frame, ThumbnailMessage.failed job_uuid err.to_string)
    | Except.ok buf => (frame, ThumbnailMessage.buffer buf job_uuid)

/-! ## Metadata probing -/

/-- Modelled from the spec: `MediaReference::uri_from_frame`, the template URI
instantiated at a file-frame of the sequence; it fails for a file-frame that is not in
the frame list. -/
def MediaReference.uri_from_frame (mr : MediaReference) (file_frame : Int) : Option Uri :=
  if file_frame ∈ mr.frame_list.frames then some ⟨mr.uri_.path, some file_frame⟩ else none

/-- The collaborators of the metadata handlers. -/
structure MetadataEnv where
  -- the metadata plugin registry, when registered: its reply to `get_metadata_atom`
  media_metadata : Option (Uri → Except Error (JsonStore × Int))
  -- the reply of `json_store_` to `set_json_atom` with a document and a path
  set_json : JsonStore → String → Except Error Bool

/-- Requests sent by the metadata handlers. -/
inductive MetadataEffect where
  | get_metadata (uri : Uri)
  | set_json (doc : JsonStore) (path : String)
  deriving DecidableEq, Repr

/-- The handler `[=](media_metadata::get_metadata_atom, const int sequence_frame)`, the
single-frame probe: the state after the handler, the requests sent, and the reply;
`frame_text` renders `std::to_string(meta.second)`. -/
def get_metadata_atom_frame (menv : MetadataEnv) (frame_text : Int → String) (s : State)
    (sequence_frame : Int) : State × List MetadataEffect × Except Error Bool :=
  if s.base_.media_reference.container then
    (s, [], Except.error (Error.xstudio "Media has no frames"))
  else
    match s.base_.media_reference.uri_from_frame sequence_frame with
    | none => (s, [], Except.error (Error.xstudio "Invalid frame index"))
    | some u =>
      match menv.media_metadata with
      | none => (s, [], Except.error (Error.unhandled "invalid actor handle"))
      | some plugin =>
        match plugin u with
        | Except.error err => (s, [MetadataEffect.get_metadata u], Except.error err)
        | Except.ok m =>
          match menv.set_json m.1 ("/metadata/media/@" ++ frame_text m.2) with
          | Except.error err =>
            (s, [MetadataEffect.get_metadata u,
                 MetadataEffect.set_json m.1 ("/metadata/media/@" ++ frame_text m.2)],
             Except.error err)
          | Except.ok done =>
            (s, [MetadataEffect.get_metadata u,
                 MetadataEffect.set_json m.1 ("/metadata/media/@" ++ frame_text m.2)],
             Except.ok done)

/-! ## Stream registry -/

/-- The handler `[=](add_media_stream_atom, const utility::UuidActor &media_stream)`;
`media_type` is the reply of the stream to `get_media_type_atom`. -/
def add_media_stream_atom (media_type : Except Error MediaType) (s : State)
    (media_stream : Uuid × MediaStreamActor) :
    State × List Effect × Except Error (Uuid × MediaStreamActor) :=
  match media_type with
  | Except.ok mt =>
    ({ s with
        media_streams_ := stream_insert s.media_streams_ media_stream.1 media_stream.2,
        base_ := s.base_.add_media_stream mt media_stream.1 },
     [Effect.send_changed, Effect.event_add_media_stream media_stream.1],
     Except.ok media_stream)
  | Except.error err => (s, [], Except.error err)

/-- The handler `[=](add_media_stream_atom, caf::actor media_stream)`; `uuid` is the
reply of the stream to `uuid_atom`, after which the handler sends itself the
`UuidActor` form of the request. -/
def add_media_stream_atom_actor (uuid : Except Error Uuid)
    (media_type : Except Error MediaType) (s : State) (media_stream : MediaStreamActor) :
    State × List Effect × Except Error (Uuid × MediaStreamActor) :=
  match uuid with
  | Except.ok u => add_media_stream_atom media_type s (u, media_stream)
  | Except.error err => (s, [], Except.error err)

/-- The handler `[=](get_media_stream_atom, const MediaType media_type)`: the loop over
`base_.streams(media_type)` with the unchecked lookup `media_streams_.at(i)`. -/
def get_media_stream_atom (s : State) (media_type : MediaType) :
    Except Error (List (Uuid × MediaStreamActor)) :=
  (s.base_.streams media_type).foldl
    (fun sm i =>
      match sm with
      | Except.error err => Except.error err
      | Except.ok l =>
        match stream_at s.media_streams_ i with
        | none => Except.error (Error.unhandled "map::at")
        | some a => Except.ok (l ++ [(i, a)]))
    (Except.ok [])

/-- The operations that register streams. -/
inductive RegistryOp where
  | acquire (env : Env) (rate : FrameRate)
  | add_stream (media_type : Except Error MediaType) (media_stream : Uuid × MediaStreamActor)
  | add_stream_actor (uuid : Except Error Uuid) (media_type : Except Error MediaType)
      (media_stream : MediaStreamActor)

/-- The state after one registering operation. -/
def apply_op (s : State) : RegistryOp → State
  | RegistryOp.acquire env rate => (acquire_media_detail_atom env rate s).1
  | RegistryOp.add_stream media_type media_stream =>
    (add_media_stream_atom media_type s media_stream).1
  | RegistryOp.add_stream_actor uuid media_type media_stream =>
    (add_media_stream_atom_actor uuid media_type s media_stream).1

/-- The state after a sequence of registering operations. -/
def run_ops (s : State) (ops : List RegistryOp) : State := ops.foldl apply_op s

/-! ## Duplication -/

/-- Modelled from the spec: the base-state constructor `MediaSource(name,
media_reference)` of lifecycle (d): an online source without streams; `default_uuid` is
the uuid the constructor draws. -/
def MediaSource.make (name : String) (mr : MediaReference) (default_uuid : Uuid) :
    MediaSource :=
  { name := name, uuid := default_uuid, media_reference := mr, reader := "",
    media_status := MediaStatus.MS_ONLINE, error_detail := "",
    current_image := Uuid.nil, current_audio := Uuid.nil,
    image_streams := [], audio_streams := [] }

/-- Modelled from the spec: `MediaSource::set_uuid`. -/
def MediaSource.set_uuid (b : MediaSource) (u : Uuid) : MediaSource := { b with uuid := u }

/-- Modelled from the spec: `MediaSource::set_current(media_type, uuid)`, "updates base's
current pointer iff the UUID is a known stream of that type; returns whether the change
was accepted". -/
def MediaSource.set_current (b : MediaSource) (mt : MediaType) (u : Uuid) :
    MediaSource × Bool :=
  if u ∈ b.streams mt then
    (match mt with
      | MediaType.MT_IMAGE => { b with current_image := u }
      | MediaType.MT_AUDIO => { b with current_audio := u }, true)
  else (b, false)

/-- The constructor `MediaSourceActor(cfg, name, reader, media_reference, uuid)`: the
state of the new actor, whose address is `self`. -/
def construct_preconfigured (name reader : String) (media_reference : MediaReference)
    (uuid default_uuid : Uuid) (self : Nat) : State :=
  let b0 := MediaSource.make name media_reference default_uuid
  let b1 := if ¬ uuid.is_null then b0.set_uuid uuid else b0
  let b2 := b1.set_reader reader
  { base_ := b2.set_media_reference b2.media_reference.set_timecode_from_frames,
    media_streams_ := [], parent_uuid_ := Uuid.nil, self := self }

/-- The collaborators of the duplicate handler. -/
structure DuplicateEnv where
  -- the random draw of the call `Uuid::generate()` for the duplicate
  draw : Nat
  -- the uuid the base constructor of the duplicate draws before `set_uuid`
  default_uuid : Uuid
  -- the address of the spawned duplicate
  address : Nat
  -- the reply of a stream actor to `duplicate_atom`
  duplicate_stream : MediaStreamActor → Except Error (Uuid × MediaStreamActor)
  -- the reply of a stream copy to `get_media_type_atom`, asked by the duplicate
  media_type_of : MediaStreamActor → Except Error MediaType
  -- the reply of `json_store_` to `get_json_atom`
  get_json : Except Error JsonStore
  -- the reply of the duplicate to `set_json_atom`
  set_json : JsonStore → Except Error Bool

/-- The statement `auto uuid = utility::Uuid::generate();` of the duplicate handler: a
uuid that is fresh with respect to the uuids the original holds, its own and those of
its streams. -/
def generated_uuid (env : DuplicateEnv) (s : State) : Uuid :=
  Uuid.generate (s.base_.uuid :: s.media_streams_.map (fun p => p.1)) env.draw

/-- The steps of a duplication, in the order they happen. -/
inductive DuplicateEffect where
  | stream_duplicated (original : Uuid)
  | stream_added (copy : Uuid)
  | copy_metadata
  deriving DecidableEq, Repr

/-- The progress of a duplication: the state of the duplicate, the shared counter
`*source_count`, the steps so far, and what the response promise holds. -/
structure Duplication where
  duplicate : State
  source_count : Int
  steps : List DuplicateEffect
  reply : Option (Except Error (Uuid × Nat))

/-- The call `rp.deliver(...)`: a promise that was fulfilled keeps its first value. -/
def deliver (reply : Option (Except Error (Uuid × Nat))) (r : Except Error (Uuid × Nat)) :
    Option (Except Error (Uuid × Nat)) :=
  match reply with
  | none => some r
  | some first => some first

/-- The lambda `copy_metadata(destination, rp)`. -/
def copy_metadata (env : DuplicateEnv) (destination : Uuid × Nat) (d : Duplication) :
    Duplication :=
  { d with
    steps := d.steps ++ [DuplicateEffect.copy_metadata],
    reply := deliver d.reply
      (match env.get_json with
        | Except.error err => Except.error err
        | Except.ok doc =>
          match env.set_json doc with
          | Except.error err => Except.error err
          | Except.ok _ => Except.ok destination) }

/-- The handling of the replies for one stream `p` of the original: the reply to
`duplicate_atom`, then the reply of the duplicate to `add_media_stream_atom`, the
selection of the current stream, the countdown and, at zero, the metadata copy. -/
def duplicate_step (env : DuplicateEnv) (s : State) (d : Duplication)
    (p : Uuid × MediaStreamActor) : Duplication :=
  match env.duplicate_stream p.2 with
  | Except.error err => { d with reply := deliver d.reply (Except.error err) }
  | Except.ok stream =>
    let d1 : Duplication :=
      { d with steps := d.steps ++ [DuplicateEffect.stream_duplicated p.1] }
    match add_media_stream_atom (env.media_type_of stream.2) d1.duplicate stream with
    | (_, _, Except.error err) => { d1 with reply := deliver d1.reply (Except.error err) }
    | (added, _, Except.ok _) =>
      let selected : State :=
        if p.1 = s.base_.current MediaType.MT_IMAGE then
          { added with base_ := (added.base_.set_current MediaType.MT_IMAGE stream.1).1 }
        else if p.1 = s.base_.current MediaType.MT_AUDIO then
          { added with base_ := (added.base_.set_current MediaType.MT_AUDIO stream.1).1 }
        else added
      let d2 : Duplication :=
        { d1 with duplicate := selected,
                  steps := d1.steps ++ [DuplicateEffect.stream_added stream.1],
                  source_count := d1.source_count - 1 }
      if d2.source_count = 0 then copy_metadata env (generated_uuid env s, env.address) d2
      else d2

/-- The handler `[=](utility::duplicate_atom)`; `order` lists the streams of the
original in the order in which their awaited replies are handled. -/
def duplicate_atom (env : DuplicateEnv) (s : State) (order : List (Uuid × MediaStreamActor)) :
    Duplication :=
  let d0 : Duplication :=
    { duplicate := construct_preconfigured s.base_.name s.base_.reader
        s.base_.media_reference (generated_uuid env s) env.default_uuid env.address,
      source_count := 0, steps := [], reply := none }
  if s.media_streams_.length ≠ 0 then
    order.foldl (duplicate_step env s) { d0 with source_count := s.media_streams_.length }
  else copy_metadata env (generated_uuid env s, env.address) d0

/-! ## UI detail projection: the fps string -/

/-- The member `std::string::find_last_not_of(c)`: the index of the last character that
differs from `c`, `none` standing for `npos`. -/
def find_last_not_of (s : List Char) (c : Char) : Option Nat :=
  match (s.reverse.dropWhile (fun x => x == c)).length with
  | 0 => none
  | n + 1 => some n

/-- The sum `index + 1` on `size_t`, where `npos + 1` wraps around to 0. -/
def index_succ : Option Nat → Nat
  | none => 0
  | some i => i + 1

/-- The member `std::string::substr(pos, n)`. -/
def substr (s : List Char) (pos n : Nat) : List Char := (s.drop pos).take n

/-- The member `std::string::find` for a one-character pattern: the index of the first
occurrence, `none` standing for `npos`. -/
def find_char : List Char → Char → Option Nat
  | [], _ => none
  | x :: xs, c => if x = c then some 0 else (find_char xs c).map (fun i => i + 1)

/-- The value `length() - 1` on `size_t`: for the empty string it wraps around to
`npos`. -/
def last_index (s : List Char) : Option Nat :=
  match s.length with
  | 0 => none
  | n + 1 => some n

/-- The two statements of `send_stream_details_to_ui` that follow the rendering
`fmt::format` of the rate to three decimals (the argument `rendered`): trailing zeros
are cut, and a "0" is appended when the first "." is the last character. -/
def fps_string (rendered : List Char) : List Char :=
  let cut := substr rendered 0 (index_succ (find_last_not_of rendered '0'))
  if find_char cut '.' = last_index cut then cut ++ ['0'] else cut

/-! ## UI detail projection: the display filename -/

/-- The opening brace character. -/
def lbrace : Char := Char.ofNat 123

/-- The closing brace character. -/
def rbrace : Char := Char.ofNat 125

/-- A match of the pattern `as_hash_pad` at the head of the text: an opening brace, ":0",
one or more digits (the capture), "d" and a closing brace. The digits are matched
greedily; as "d" is no digit, only the maximal run can be followed by it. -/
def match_hash_pad (s : List Char) : Option (List Char) :=
  match s with
  | b :: c :: z :: rest =>
    if b = lbrace ∧ c = ':' ∧ z = '0' then
      match rest.dropWhile Char.isDigit with
      | d :: e :: _ =>
        if rest.takeWhile Char.isDigit ≠ [] ∧ d = 'd' ∧ e = rbrace then
          some (rest.takeWhile Char.isDigit)
        else none
      | _ => none
    else none
  | _ => none

/-- The scan of `std::regex_replace` with the pattern `as_hash_pad`: text outside the
matches is copied, every match is replaced by `sub` of its capture, and the scan goes on
behind the match. The counter is the number of characters of the current match that are
still to be skipped. -/
def regex_replace_from (sub : List Char → List Char) : Nat → List Char → List Char
  | _, [] => []
  | n + 1, _ :: xs => regex_replace_from sub n xs
  | 0, x :: xs =>
    match match_hash_pad (x :: xs) with
    | some ds => sub ds ++ regex_replace_from sub (ds.length + 4) xs
    | none => x :: regex_replace_from sub 0 xs

/-- The call `std::regex_replace(text, as_hash_pad, format)`, the format being given as
a function of the capture `$1`. -/
def regex_replace (text : List Char) (sub : List Char → List Char) : List Char :=
  regex_replace_from sub 0 text

/-- The argument indexing of one `fmt::format` call: not yet decided, automatic with the
next index, or manual. -/
inductive Indexing where
  | unset
  | automatic (next : Nat)
  | manual
  deriving DecidableEq, Repr

/-- The decimal value of a run of digits. -/
def digits_value (ds : List Char) : Nat :=
  ds.foldl (fun n d => 10 * n + (d.toNat - 48)) 0

/-- The argument of a replacement field, for a call with exactly one argument: an empty
id takes the next automatic index, the id "0" is the manual index 0, the two kinds may
not be mixed, and any other index or name finds no argument. -/
def arg_index (idx : Indexing) (id : List Char) : Option Indexing :=
  if id = [] then
    match idx with
    | Indexing.unset => some (Indexing.automatic 1)
    | Indexing.automatic _ => none
    | Indexing.manual => none
  else if id = ['0'] then
    match idx with
    | Indexing.automatic _ => none
    | _ => some Indexing.manual
  else none

/-- The width of a format spec for a string argument: absent, or a run of digits that
does not start with "0" (a leading "0" is the zero flag, which needs a numeric argument)
and fits an `int`. -/
def parse_width (ds : List Char) : Option Nat :=
  if ds = [] then some 0
  else if ds.all Char.isDigit ∧ ds.head? ≠ some '0' ∧ digits_value ds ≤ 2147483647 then
    some (digits_value ds)
  else none

/-- Whether the character is one of the alignment marks of a format spec. -/
def is_align (c : Char) : Bool := c = '<' || c = '>' || c = '^'

/-- The output of one replacement field for the empty string argument: `[[fill]align]`
and `[width]` are read, the output is `width` fill characters (a blank when no fill is
given). Sign, "#", the zero flag, precision and presentation types are reported as format
errors. -/
def format_spec (spec : List Char) : Option (List Char) :=
  match spec with
  | f :: a :: rest =>
    if is_align a then
      if f = lbrace then none else (parse_width rest).map (fun w => List.replicate w f)
    else if is_align f then (parse_width (a :: rest)).map (fun w => List.replicate w ' ')
    else (parse_width spec).map (fun w => List.replicate w ' ')
  | [a] =>
    if is_align a then some [] else (parse_width spec).map (fun w => List.replicate w ' ')
  | [] => some []

/-- One replacement field: the text between the braces is an argument id, optionally
followed by ":" and a format spec. -/
def format_field (idx : Indexing) (content : List Char) : Option (Indexing × List Char) :=
  match arg_index idx (content.takeWhile (fun ch => ch ≠ ':')) with
  | none => none
  | some idx2 =>
    (format_spec ((content.dropWhile (fun ch => ch ≠ ':')).drop 1)).map (fun out => (idx2, out))

/-- The position of the `fmt::format` scan: in plain text, right behind an opening brace,
inside a replacement field (the text of the field so far, reversed), or right behind a
closing brace of the plain text. -/
inductive Scan where
  | text
  | opened
  | field (acc : List Char)
  | closed
  deriving DecidableEq, Repr

/-- The end of a replacement field: its output is followed by the output of the rest. -/
def close_field (idx : Indexing) (content : List Char)
    (rest : Indexing → Option (List Char)) : Option (List Char) :=
  match format_field idx content with
  | none => none
  | some (idx2, out) => (rest idx2).map (fun r => out ++ r)

/-- The scan of `fmt::format(text, "")`: one argument, the empty string. Doubled braces
are escapes, a single opening brace starts a replacement field that runs to the next
closing brace, a single closing brace is a format error; `none` is a thrown
`fmt::format_error`. -/
def format_from : Indexing → Scan → List Char → Option (List Char)
  | _, Scan.text, [] => some []
  | _, _, [] => none
  | idx, Scan.text, x :: xs =>
    if x = lbrace then format_from idx Scan.opened xs
    else if x = rbrace then format_from idx Scan.closed xs
    else (format_from idx Scan.text xs).map (fun r => x :: r)
  | idx, Scan.opened, x :: xs =>
    if x = lbrace then (format_from idx Scan.text xs).map (fun r => lbrace :: r)
    else if x = rbrace then
      close_field idx [] (fun idx2 => format_from idx2 Scan.text xs)
    else format_from idx (Scan.field [x]) xs
  | idx, Scan.field acc, x :: xs =>
    if x = rbrace then
      close_field idx acc.reverse (fun idx2 => format_from idx2 Scan.text xs)
    else format_from idx (Scan.field (x :: acc)) xs
  | idx, Scan.closed, x :: xs =>
    if x = rbrace then (format_from idx Scan.text xs).map (fun r => rbrace :: r)
    else none

/-- The call `fmt::format(text, "")`. -/
def fmt_format (text : List Char) : Option (List Char) :=
  format_from Indexing.unset Scan.text text

/-- The first format handed to `std::regex_replace`: a field that pads the empty string
to the captured width with "#", left aligned. -/
def hash_field (ds : List Char) : List Char := [lbrace, ':', '#', '<'] ++ ds ++ [rbrace]

/-- The filename statements of `send_stream_details_to_ui`: a container keeps its
filename; for a sequence the pad tokens become padding fields and the result is
formatted, and when that throws every token becomes a single "#" and the result is
formatted again. `none` is an exception that leaves the function. -/
def display_filename (container : Bool) (filename : List Char) : Option (List Char) :=
  if container then some filename
  else
    match fmt_format (regex_replace filename hash_field) with
    | some out => some out
    | none => fmt_format (regex_replace filename (fun _ => ['#']))

/-! ## Serialisation and rehydration -/

/-- Modelled from the spec: the content of the Metadata Store child, "key-path → JSON
document", as the list of its documents by path; the tree without documents is the null
document `JsonStore()`. -/
structure MetadataTree where
  documents : List (String × JsonStore)
  deriving DecidableEq, Repr

namespace MetadataTree

/-- The null document `utility::JsonStore()`. -/
def empty : MetadataTree := ⟨[]⟩

/-- The test `is_null()` on the tree. -/
def is_null (t : MetadataTree) : Bool := t.documents.isEmpty

/-- Modelled from the spec: the reply of the store to `get_json_atom` at a path: the
document at the path, an error when there is none (`init`: "we'll get this error if
there is no dict already"). -/
def get_json (t : MetadataTree) (path : String) : Except Error JsonStore :=
  match t.documents.find? (fun p => p.1 == path) with
  | some p => Except.ok p.2
  | none => Except.error (Error.xstudio path)

/-- Modelled from the spec: the effect of `set_json_atom` with a document and a path:
the document at the path is replaced, or added when there is none. -/
def set_json (t : MetadataTree) (doc : JsonStore) (path : String) : MetadataTree :=
  if t.documents.any (fun p => p.1 == path) then
    ⟨t.documents.map (fun p => if p.1 == path then (path, doc) else p)⟩
  else ⟨t.documents ++ [(path, doc)]⟩

end MetadataTree

/-- Modelled from the spec: the value of `base_.serialise()`, "base": the base state. -/
structure BaseJson where
  state : MediaSource
  deriving DecidableEq, Repr

/-- Modelled from the spec: `MediaSource::serialise()`. -/
def MediaSource.serialise (b : MediaSource) : BaseJson := ⟨b⟩

/-- Modelled from the spec: the constructor `MediaSource(const JsonStore &)`, which
reads the base state back. -/
def MediaSource.of_json (j : BaseJson) : MediaSource := j.state

/-- The serialisation of a stream as the source reads it: the values at
`["base"]["container"]["type"]` and `["base"]["container"]["uuid"]`, and the document
itself. -/
structure StreamJson where
  container_type : String
  container_uuid : Uuid
  document : JsonStore
  deriving DecidableEq, Repr

/-- The values stored in the JSON object of a serialised source. -/
inductive JsonValue where
  | base (b : BaseJson)
  | store (t : MetadataTree)
  | actors (a : List (Uuid × StreamJson))
  deriving DecidableEq, Repr

/-- The assignment `object[key] = value` on a JSON object. -/
def json_set {κ α : Type} [DecidableEq κ] (o : List (κ × α)) (k : κ) (v : α) :
    List (κ × α) :=
  if o.any (fun p => p.1 = k) then o.map (fun p => if p.1 = k then (k, v) else p)
  else o ++ [(k, v)]

/-- The read `object[key]` of a JSON object (`none` when the key is absent). -/
def json_get {κ α : Type} [DecidableEq κ] (o : List (κ × α)) (k : κ) : Option α :=
  (o.find? (fun p => p.1 = k)).map (fun p => p.2)

/-- The JSON object of a serialised source. -/
abbrev SourceJson := List (String × JsonValue)

/-- The collaborators of the serialise handler. -/
structure SerialiseEnv where
  -- the reply of `json_store_` to `get_json_atom` at the root path
  get_json : Except Error MetadataTree
  -- the reply of a stream actor to `serialise_atom`
  serialise_stream : MediaStreamActor → Except Error StreamJson

/-- The replies of `fan_out_request<policy::select_all>(clients, serialise_atom)`: all
the replies when every stream answers, else the first error. -/
def fan_out_serialise (env : SerialiseEnv) :
    List MediaStreamActor → Except Error (List StreamJson)
  | [] => Except.ok []
  | c :: rest =>
    match env.serialise_stream c with
    | Except.error err => Except.error err
    | Except.ok j =>
      match fan_out_serialise env rest with
      | Except.error err => Except.error err
      | Except.ok more => Except.ok (j :: more)

/-- The assignment `jsn["actors"][uuid of j] = j`. -/
def set_actor (jsn : SourceJson) (j : StreamJson) : SourceJson :=
  match json_get jsn "actors" with
  | some (JsonValue.actors a) =>
    json_set jsn "actors" (JsonValue.actors (json_set a j.container_uuid j))
  | _ => json_set jsn "actors" (JsonValue.actors [(j.container_uuid, j)])

/-- The handler `[=](utility::serialise_atom)`. -/
def serialise_atom (env : SerialiseEnv) (s : State) : Except Error SourceJson :=
  match env.get_json with
  | Except.error err => Except.error err
  | Except.ok tree =>
    let clients := s.media_streams_.map (fun i => i.2)
    if ¬ clients.isEmpty then
      match fan_out_serialise env clients with
      | Except.error err => Except.error err
      | Except.ok json =>
        Except.ok (json.foldl set_actor
          (json_set (json_set (json_set [] "base" (JsonValue.base s.base_.serialise))
            "store" (JsonValue.store tree)) "actors" (JsonValue.actors [])))
    else
      Except.ok (json_set (json_set (json_set [] "store" (JsonValue.store tree))
        "base" (JsonValue.base s.base_.serialise)) "actors" (JsonValue.actors []))

/-- A `MediaSourceActor` together with the content of its `json_store_` child. -/
structure SourceActor where
  state : State
  json_store_ : MetadataTree
  deriving DecidableEq, Repr

/-- The content the JSON constructor spawns `json_store_` with: the empty document when
"store" is absent or null, else the value of "store". -/
def store_content (jsn : SourceJson) : MetadataTree :=
  match json_get jsn "store" with
  | some (JsonValue.store t) => if t.is_null then MetadataTree.empty else t
  | _ => MetadataTree.empty

/-- The loop of the JSON constructor over `jsn["actors"].items()`: an entry of type
"MediaStream" is spawned and registered under its key; an entry whose constructor throws
(`spawn` gives `none`) is skipped by the `catch`. -/
def spawn_streams (spawn : StreamJson → Option MediaStreamActor) :
    List (Uuid × StreamJson) → List (Uuid × MediaStreamActor) →
    List (Uuid × MediaStreamActor)
  | [], m => m
  | (key, value) :: rest, m =>
    if value.container_type = "MediaStream" then
      match spawn value with
      | some a => spawn_streams spawn rest (stream_insert m key a)
      | none => spawn_streams spawn rest m
    else spawn_streams spawn rest m

/-- The request of `init()` for `/colour_pipeline` with its continuation: when the
store answers with an error, an empty document is set at that path. -/
def init_store (t : MetadataTree) : MetadataTree :=
  match t.get_json "/colour_pipeline" with
  | Except.ok _ => t
  | Except.error _ => t.set_json JsonStore.empty "/colour_pipeline"

/-- The constructor `MediaSourceActor(caf::actor_config &, const JsonStore &)`, `init()`
included; `none` when "base" or "actors" cannot be read. -/
def construct_from_json (spawn : StreamJson → Option MediaStreamActor) (self : Nat)
    (jsn : SourceJson) : Option SourceActor :=
  match json_get jsn "base", json_get jsn "actors" with
  | some (JsonValue.base b), some (JsonValue.actors a) =>
    some { state := { base_ := MediaSource.of_json b,
                      media_streams_ := spawn_streams spawn a [],
                      parent_uuid_ := Uuid.nil, self := self },
           json_store_ := init_store (store_content jsn) }
  | _, _ => none

/-! ## Scenario data -/

/-- The media reference of scenario S2: the sequence `file:///s.%04d.exr` with frame
list 1001..1005 at 24 fps (29400000 flicks per frame). -/
def s2_reference : MediaReference :=
  { container := false, uri_ := ⟨"file:///s.%04d.exr", none⟩,
    frame_list := FrameList.range 1001 1005,
    duration := ⟨5, ⟨29400000⟩⟩, timecode := ⟨0⟩ }

/-- The image stream registered for scenario S2. -/
def s2_stream : MediaStreamActor :=
  ⟨"stream 0", ⟨5, ⟨29400000⟩⟩, MediaType.MT_IMAGE, "key", ⟨7⟩⟩

/-- The source of scenario S2 after detail acquisition: one current image stream. -/
def s2_state : State :=
  { base_ :=
      { name := "seq", uuid := ⟨1⟩, media_reference := s2_reference.set_timecode_from_frames,
        reader := "OpenEXR", media_status := MediaStatus.MS_ONLINE, error_detail := "",
        current_image := ⟨7⟩, current_audio := Uuid.nil,
        image_streams := [⟨7⟩], audio_streams := [] },
    media_streams_ := [(⟨7⟩, s2_stream)], parent_uuid_ := Uuid.nil, self := 1 }

/-- A healthy environment: every stream answers with its own detail, the colour
pipeline entry is an empty dictionary, no reader is needed. -/
def s2_env : Env :=
  { media_reader := none,
    colour_pipeline := Except.ok ⟨some ""⟩,
    stream_detail := fun a => Except.ok ⟨a.name_, a.duration_, a.media_type_, a.key_format_⟩,
    generate := fun k => ⟨100 + k⟩,
    image_cache := none,
    audio_cache := none }

/-! ## Specification-side functions -/

/-- The logical frames of a range request, in request order. -/
def requested_frames (ranges : List (Int × Int)) : List Int :=
  ranges.flatMap range_frames

/-- The entry a range request delivers for one logical frame when the media type has a
current stream: a blank frame when the frame does not resolve, else a descriptor built
from the resolved uri and file-frame. -/
def describe (s : State) (media_type : MediaType) (cp : JsonStore) (detail : StreamDetail)
    (logical_frame : Int) : FramePtr :=
  match s.base_.media_reference.uri logical_frame with
  | none => FramePtr.blank media_type
  | some (u, frame) =>
    FramePtr.frame (AVFrameID.make u frame (deref (s.base_.media_reference.frame 0))
      s.base_.media_reference.rate detail.name_ detail.key_format_ s.base_.reader
      s.self cp (s.base_.current media_type) s.parent_uuid_ media_type)

/-- The reused descriptor `mptr` is nil or was built by the constructor call of the
loop body. -/
def mptr_ok (s : State) (media_type : MediaType) (cp : JsonStore) (detail : StreamDetail)
    (m : Option AVFrameID) : Prop :=
  m = none ∨ ∃ u frame, m = some (AVFrameID.make u frame (deref (s.base_.media_reference.frame 0))
      s.base_.media_reference.rate detail.name_ detail.key_format_ s.base_.reader
      s.self cp (s.base_.current media_type) s.parent_uuid_ media_type)

/-- The source of scenario S1 at construction: the container `file:///m.mov`, no
duration known yet, declared at 24 fps. -/
def s1_state : State :=
  { base_ :=
      { name := "clip", uuid := ⟨2⟩,
        media_reference :=
          { container := true, uri_ := ⟨"file:///m.mov", none⟩, frame_list := ⟨[]⟩,
            duration := ⟨0, ⟨29400000⟩⟩, timecode := ⟨0⟩ },
        reader := "", media_status := MediaStatus.MS_ONLINE, error_detail := "",
        current_image := Uuid.nil, current_audio := Uuid.nil,
        image_streams := [], audio_streams := [] },
    media_streams_ := [], parent_uuid_ := Uuid.nil, self := 2 }

/-- The source of scenario S2 at construction: the sequence before any stream exists. -/
def s2_fresh : State :=
  { base_ :=
      { name := "seq", uuid := ⟨1⟩, media_reference := s2_reference,
        reader := "", media_status := MediaStatus.MS_ONLINE, error_detail := "",
        current_image := Uuid.nil, current_audio := Uuid.nil,
        image_streams := [], audio_streams := [] },
    media_streams_ := [], parent_uuid_ := Uuid.nil, self := 1 }

/-- A container of ten frames at 24 fps (a reference whose duration is known). -/
def known_container : State :=
  { s1_state with
    base_ := { s1_state.base_ with
      media_reference := { s1_state.base_.media_reference with
        duration := ⟨10, ⟨29400000⟩⟩ } } }

/-- A probed image stream of `frames` frames lasting `rate` flicks each. -/
def image_stream (frames rate : Int) : StreamDetail :=
  ⟨"video", ⟨frames, ⟨rate⟩⟩, MediaType.MT_IMAGE, "fmt"⟩

/-- A probed audio stream. -/
def audio_stream : StreamDetail :=
  ⟨"audio", ⟨0, ⟨0⟩⟩, MediaType.MT_AUDIO, "fmt"⟩

/-- An environment whose reader registry answers every uri with `md`. -/
def probe_env (md : MediaDetail) : Env :=
  { s2_env with media_reader := some (fun _ => Except.ok md) }

/-- The spec's invariant on a media reference after detail acquisition: at least one
frame and a nonzero rate. -/
def valid_duration (mr : MediaReference) : Prop :=
  1 ≤ mr.duration.frames ∧ 0 < mr.rate.count

/-- What the tests of the stream loop establish on a media reference: a frame count and
a rate count that are not zero. -/
def nonzero_duration (mr : MediaReference) : Prop :=
  mr.duration.frames ≠ 0 ∧ mr.rate.count ≠ 0

/-- A probed detail whose image stream reports -2 frames at a negative rate: the count of
its duration is positive. -/
def reversed_detail : MediaDetail :=
  ⟨"FFMPEG", ⟨0⟩, [image_stream (-2) (-29400000)]⟩

/-- A probed movie: one image stream of 48 frames at 24 fps and one audio stream. -/
def movie_detail : MediaDetail :=
  ⟨"FFMPEG", ⟨86400⟩, [image_stream 48 29400000, audio_stream]⟩

/-- A probed audio file: no image stream. -/
def audio_detail : MediaDetail :=
  ⟨"FFMPEG", ⟨0⟩, [audio_stream]⟩

/-- A probed still image: one image stream with neither duration nor rate. -/
def still_detail : MediaDetail :=
  ⟨"OpenEXR", ⟨0⟩, [image_stream 0 0]⟩

/-- A probed frame of an EXR sequence, carrying an embedded timecode. -/
def exr_detail : MediaDetail :=
  ⟨"OpenEXR", ⟨86400⟩, [image_stream 1 29400000]⟩

/-- The timecode of a media reference "after any overwrite by the probed timecode": the
probed timecode when the reference had a zero timecode, else its previous timecode. -/
def probed_timecode (md : MediaDetail) (mr : MediaReference) : Timecode :=
  if mr.timecode.total_frames = 0 then md.timecode_ else mr.timecode

/-- An environment whose reader registry answers every uri with the error `err`. -/
def failing_env (err : Error) : Env :=
  { s2_env with media_reader := some (fun _ => Except.error err) }

/-- An environment in which no stream actor answers `get_stream_detail_atom`. -/
def dead_stream_env : Env :=
  { s2_env with stream_detail := fun _ => Except.error (Error.xstudio "stream down") }

/-- An environment whose `/colour_pipeline` entry cannot be fetched. -/
def no_colour_env : Env :=
  { s2_env with colour_pipeline := Except.error (Error.xstudio "no such path") }

/-- An environment whose `/colour_pipeline` entry holds a configuration. -/
def graded_env : Env :=
  { s2_env with colour_pipeline := Except.ok ⟨some "view=Rec709"⟩ }

/-- The sequence of S2 at construction with the stream of S2 registered through
add-stream before any acquisition: frame list 1001..1005, timecode 0, one stream. -/
def s2_unanchored : State :=
  (add_media_stream_atom (Except.ok MediaType.MT_IMAGE) s2_fresh (⟨7⟩, s2_stream)).1

/-- A sequence without file-frames: online, no stream, logical frame 0 does not
resolve. -/
def empty_sequence : State :=
  { s2_fresh with
    base_ := { s2_fresh.base_ with
      media_reference := { s2_reference with frame_list := ⟨[]⟩ } } }

/-- The container of S1, zero frames, with the image stream of S2 registered through
add-stream before any acquisition. -/
def zero_frame_movie : State :=
  (add_media_stream_atom (Except.ok MediaType.MT_IMAGE) s1_state (⟨7⟩, s2_stream)).1

/-- A probed movie of two frames at 24 fps with an image and an audio stream. -/
def short_movie_detail : MediaDetail :=
  ⟨"FFMPEG", ⟨0⟩, [⟨"video", ⟨2, ⟨29400000⟩⟩, MediaType.MT_IMAGE, "img"⟩,
    ⟨"audio", ⟨2, ⟨29400000⟩⟩, MediaType.MT_AUDIO, "aud"⟩]⟩

/-- The container of S1 after acquiring `short_movie_detail`: two frames, a current
image stream and a current audio stream. -/
def av_state : State :=
  (acquire_detail (probe_env short_movie_detail) ⟨29400000⟩ s1_state).1

/-- The container of S1 after acquiring an audio-only detail: zero frames, a current
audio stream and no image stream. -/
def audio_only_state : State :=
  (acquire_detail (probe_env audio_detail) ⟨29400000⟩ s1_state).1

/-- The sequence of S2 after its reader answered "Unsupported format". -/
def s2_failed : State :=
  (acquire_detail (failing_env (Error.xstudio "Unsupported format")) ⟨29400000⟩ s2_fresh).1

/-- The base state after `base_.clear()` has no current stream and no stream index. -/
def base_cleared (b : MediaSource) : Prop :=
  b.current_image = Uuid.nil ∧ b.current_audio = Uuid.nil ∧
  b.image_streams = [] ∧ b.audio_streams = []

/-- The relation between the descriptor `d` delivered when the colour-pipeline fetch
failed and the descriptor `d_ok` delivered when it succeeded: `d` carries an empty JSON
document and a nil stream uuid, every other argument of the constructor is the same. -/
def same_but_colour (d d_ok : AVFrameID) : Prop :=
  d.params_ = JsonStore.empty ∧ d.source_uuid_ = Uuid.nil ∧
  d.uri_ = d_ok.uri_ ∧ d.frame_ = d_ok.frame_ ∧ d.first_frame_ = d_ok.first_frame_ ∧
  d.rate_ = d_ok.rate_ ∧ d.stream_name_ = d_ok.stream_name_ ∧
  d.key_format_ = d_ok.key_format_ ∧ d.reader_ = d_ok.reader_ ∧
  d.parent_uuid_ = d_ok.parent_uuid_ ∧ d.media_type_ = d_ok.media_type_

/-- The key the positional lookup holds for one logical frame: the `MediaKey` of the
resolved uri and file-frame, or the empty key when the frame does not resolve. -/
def key_for (s : State) (detail : StreamDetail) (logical_frame : Int) : MediaKey :=
  match s.base_.media_reference.uri logical_frame with
  | some (u, frame) => MediaKey.mk detail.key_format_ u frame detail.name_
  | none => MediaKey.empty

/-- An environment with both caches registered: the image cache holds and erases the
keys of the stream "video", the audio cache those of the stream "audio". -/
def cache_env : Env :=
  { s2_env with
    image_cache := some (fun keys => Except.ok (keys.filter (fun k => k.stream_name == "video"))),
    audio_cache := some (fun keys => Except.ok (keys.filter (fun k => k.stream_name == "audio"))) }

/-- The spec's error kind *NoFrames*. -/
def NoFrames : Error := Error.xstudio "Media has no frames"

/-- A thumbnail manager that renders every descriptor into buffer 1. -/
def s2_thumbnails : AVFrameID → Except Error Nat := fun _ => Except.ok 1

/-- A metadata environment with a plugin that answers every uri with an empty document
for frame 1001 and a store that accepts every write. -/
def s2_metadata : MetadataEnv :=
  { media_metadata := some (fun _ => Except.ok (JsonStore.empty, 1001)),
    set_json := fun _ _ => Except.ok true }

/-- The registry invariant: every uuid the base lists as a stream of some media type,
and every non-nil current stream, is a key of the stream map. -/
def registry_consistent (s : State) : Prop :=
  (∀ mt u, u ∈ s.base_.streams mt → (stream_at s.media_streams_ u).isSome = true) ∧
  (∀ mt, (s.base_.current mt).is_null = false →
    (stream_at s.media_streams_ (s.base_.current mt)).isSome = true)

/-- A sequence of registering operations on S1: acquire the movie detail, then add an
extra audio stream by uuid and address. -/
def s1_ops : List RegistryOp :=
  [RegistryOp.acquire (probe_env movie_detail) ⟨29400000⟩,
   RegistryOp.add_stream (Except.ok MediaType.MT_AUDIO)
     (⟨55⟩, ⟨"commentary", ⟨48, ⟨29400000⟩⟩, MediaType.MT_AUDIO, "fmt", ⟨55⟩⟩)]

/-- Two base states describe the same asset under the same identity: equal name, uuid,
reader tag and media reference. -/
def same_identity (a b : MediaSource) : Prop :=
  a.name = b.name ∧ a.uuid = b.uuid ∧ a.reader = b.reader ∧
  a.media_reference = b.media_reference

/-- A sequence `file:///t.%04d.exr` with frame list 0..4 at 24 fps, before any stream
exists. -/
def zero_based_fresh : State :=
  { s2_fresh with
    base_ := { s2_fresh.base_ with
      name := "zero",
      media_reference :=
        { container := false, uri_ := ⟨"file:///t.%04d.exr", none⟩,
          frame_list := FrameList.range 0 4,
          duration := ⟨5, ⟨29400000⟩⟩, timecode := ⟨0⟩ } } }

/-- The zero-based sequence after acquiring a detail with the embedded timecode 86400:
the frame list starts at 0, so the embedded timecode is kept. -/
def zero_based_state : State :=
  (acquire_detail (probe_env exr_detail) ⟨29400000⟩ zero_based_fresh).1

/-- A healthy duplication environment: every stream answers with a copy under the uuid
shifted by 1000, every copy reports its media type, the metadata is read and written. -/
def healthy_duplication : DuplicateEnv :=
  { draw := 500, default_uuid := ⟨499⟩, address := 50,
    duplicate_stream := fun a => Except.ok (⟨a.uuid_.val + 1000⟩,
      { a with uuid_ := ⟨a.uuid_.val + 1000⟩ }),
    media_type_of := fun a => Except.ok a.media_type_,
    get_json := Except.ok JsonStore.empty,
    set_json := fun _ => Except.ok true }

/-- A duplication environment in which the audio streams fail to duplicate. -/
def failing_duplication : DuplicateEnv :=
  { healthy_duplication with
    duplicate_stream := fun a =>
      if a.media_type_ = MediaType.MT_AUDIO then Except.error (Error.xstudio "audio down")
      else Except.ok (⟨a.uuid_.val + 1000⟩, { a with uuid_ := ⟨a.uuid_.val + 1000⟩ }) }

/-- Whether both replies for the stream `p` are successes: its duplication and the
registration of the copy with the duplicate. -/
def stream_copied (env : DuplicateEnv) (p : Uuid × MediaStreamActor) : Bool :=
  match env.duplicate_stream p.2 with
  | Except.error _ => false
  | Except.ok stream =>
    match env.media_type_of stream.2 with
    | Except.error _ => false
    | Except.ok _ => true

/-- The error of the failing reply for the stream `p`, when one of its two replies is
an error. -/
def stream_error (env : DuplicateEnv) (p : Uuid × MediaStreamActor) : Option Error :=
  match env.duplicate_stream p.2 with
  | Except.error err => some err
  | Except.ok stream =>
    match env.media_type_of stream.2 with
    | Except.error err => some err
    | Except.ok _ => none

/-- The error of the first stream, in handling order, one of whose replies is an
error. -/
def first_error (env : DuplicateEnv) (l : List (Uuid × MediaStreamActor)) : Option Error :=
  l.findSome? (stream_error env)

/-- The progress record with which the loop of the duplicate handler starts: the freshly
constructed duplicate and the counter set to the number of streams. -/
def duplicate_start (env : DuplicateEnv) (s : State) : Duplication :=
  { duplicate := construct_preconfigured s.base_.name s.base_.reader
      s.base_.media_reference (generated_uuid env s) env.default_uuid env.address,
    source_count := s.media_streams_.length, steps := [], reply := none }

/-- The fraction digits the fps string shows for the three rendered digits `a b c`:
trailing zeros removed, a single "0" when nothing is left. -/
def shown_fraction (a b c : Char) : List Char :=
  if c ≠ '0' then [a, b, c]
  else if b ≠ '0' then [a, b]
  else if a ≠ '0' then [a]
  else ['0']

/-- The pad token of width `ds`: an opening brace, ":0", the digits, "d", a closing
brace. -/
def pad_token (ds : List Char) : List Char := [lbrace, ':', '0'] ++ ds ++ ['d', rbrace]

/-- A filename body made of pad tokens: every segment is the digits of a token and the
text that follows the token; `sub` gives the text each token is written as. -/
def segments_text (sub : List Char → List Char) :
    List (List Char × List Char) → List Char
  | [] => []
  | sg :: rest => sub sg.1 ++ sg.2 ++ segments_text sub rest

/-- What a pad token of width `ds` is shown as: a run of as many "#" as the width says
when the token is the only one of the filename and its width has no leading zero and is
not above the largest `int`, a single "#" otherwise. -/
def shown_token (tokens : Nat) (ds : List Char) : List Char :=
  if tokens = 1 ∧ ds.head? ≠ some '0' ∧ digits_value ds ≤ 2147483647 then
    List.replicate (digits_value ds) '#'
  else ['#']

/-- The stream serialisation used in the scenarios: type "MediaStream", the stream's own
uuid, and its name as document. -/
def stream_json (a : MediaStreamActor) : StreamJson :=
  ⟨"MediaStream", a.uuid_, ⟨some a.name_⟩⟩

/-- A store that answers with `tree`, and streams that answer with `stream_json`. -/
def serialise_env (tree : MetadataTree) : SerialiseEnv :=
  ⟨Except.ok tree, fun a => Except.ok (stream_json a)⟩

/-- The stream constructor of the scenarios: it rebuilds the stream of `known` that
carries the serialised uuid, and throws for any other document. -/
def spawn_known (known : List (Uuid × MediaStreamActor)) (j : StreamJson) :
    Option MediaStreamActor :=
  stream_at known j.container_uuid

/-- A metadata tree with a colour pipeline document and a metadata document. -/
def graded_tree : MetadataTree :=
  ⟨[("/colour_pipeline", ⟨some "view=Rec709"⟩), ("/metadata/media/@", ⟨some "probe"⟩)]⟩

/-- The serialisation of a source followed by the construction of a source from the
result. -/
def round_trip (env : SerialiseEnv) (spawn : StreamJson → Option MediaStreamActor)
    (self : Nat) (s : State) : Option SourceActor :=
  match serialise_atom env s with
  | Except.ok jsn => construct_from_json spawn self jsn
  | Except.error _ => none

/-! ## Frame pointer resolution: properties -/

theorem frame_body_spec (s : State) (mt : MediaType) (cp : JsonStore) (detail : StreamDetail)
    (acc : List FramePtr × Option AVFrameID) (f : Int) (h : mptr_ok s mt cp detail acc.2) :
    (frame_body s mt cp detail acc f).1 = acc.1 ++ [describe s mt cp detail f] ∧
    mptr_ok s mt cp detail (frame_body s mt cp detail acc f).2 := by
  cases hu : s.base_.media_reference.uri f with
  | none =>
    simp only [frame_body, describe, hu, make_blank_frame]
    exact ⟨trivial, h⟩
  | some p =>
    obtain ⟨u, fr⟩ := p
    rcases h with h | ⟨u0, f0, h⟩
    · simp only [frame_body, describe, hu, h]
      exact ⟨trivial, Or.inr ⟨u, fr, rfl⟩⟩
    · simp only [frame_body, describe, hu, h]
      exact ⟨rfl, Or.inr ⟨u, fr, rfl⟩⟩

theorem inner_loop_spec (s : State) (mt : MediaType) (cp : JsonStore) (detail : StreamDetail)
    (l : List Int) (acc : List FramePtr × Option AVFrameID)
    (h : mptr_ok s mt cp detail acc.2) :
    (l.foldl (frame_body s mt cp detail) acc).1 = acc.1 ++ l.map (describe s mt cp detail) ∧
    mptr_ok s mt cp detail (l.foldl (frame_body s mt cp detail) acc).2 := by
  induction l generalizing acc with
  | nil => simpa using h
  | cons f rest ih =>
    obtain ⟨h1, h2⟩ := frame_body_spec s mt cp detail acc f h
    obtain ⟨h3, h4⟩ := ih (frame_body s mt cp detail acc f) h2
    refine ⟨?_, h4⟩
    rw [List.foldl_cons, h3, h1]
    simp

theorem outer_loop_spec (s : State) (mt : MediaType) (cp : JsonStore) (detail : StreamDetail)
    (ranges : List (Int × Int)) (acc : List FramePtr × Option AVFrameID)
    (h : mptr_ok s mt cp detail acc.2) :
    (ranges.foldl (fun acc i => (range_frames i).foldl (frame_body s mt cp detail) acc) acc).1
      = acc.1 ++ (requested_frames ranges).map (describe s mt cp detail) ∧
    mptr_ok s mt cp detail
      (ranges.foldl (fun acc i => (range_frames i).foldl (frame_body s mt cp detail) acc) acc).2 := by
  induction ranges generalizing acc with
  | nil => simpa [requested_frames] using h
  | cons r rest ih =>
    obtain ⟨h1, h2⟩ := inner_loop_spec s mt cp detail (range_frames r) acc h
    obtain ⟨h3, h4⟩ := ih ((range_frames r).foldl (frame_body s mt cp detail) acc) h2
    refine ⟨?_, h4⟩
    rw [List.foldl_cons, h3, h1]
    simp [requested_frames]

theorem blank_loop_spec (mt : MediaType) (ranges : List (Int × Int)) (acc : List FramePtr) :
    ranges.foldl (fun result i => (range_frames i).foldl
        (fun result _ => result ++ [make_blank_frame mt]) result) acc
      = acc ++ (requested_frames ranges).map (fun _ => FramePtr.blank mt) := by
  have inner : ∀ (l : List Int) (a : List FramePtr),
      l.foldl (fun result _ => result ++ [make_blank_frame mt]) a
        = a ++ l.map (fun _ => FramePtr.blank mt) := by
    intro l
    induction l with
    | nil => intro a; simp
    | cons f rest ih => intro a; rw [List.foldl_cons, ih]; simp [make_blank_frame]
  induction ranges generalizing acc with
  | nil => simp [requested_frames]
  | cons r rest ih =>
    rw [List.foldl_cons, ih, inner]
    simp [requested_frames]

theorem range_frames_length (r : Int × Int) :
    (range_frames r).length = (r.2 - r.1 + 1).toNat := by
  simp only [range_frames, List.length_map, List.length_range]
  congr 1
  omega

theorem requested_frames_length (ranges : List (Int × Int)) :
    (requested_frames ranges).length = (ranges.map (fun r => (r.2 - r.1 + 1).toNat)).sum := by
  induction ranges with
  | nil => rfl
  | cons r rest ih =>
    simp only [requested_frames, List.flatMap_cons, List.length_append, List.map_cons,
      List.sum_cons] at ih ⊢
    rw [ih, range_frames_length]

theorem requested_frames_width (ranges : List (Int × Int))
    (h : ∀ r ∈ ranges, r.1 ≤ r.2) :
    ((requested_frames ranges).length : Int) = (ranges.map (fun r => r.2 - r.1 + 1)).sum := by
  induction ranges with
  | nil => rfl
  | cons r rest ih =>
    have h1 : r.1 ≤ r.2 := h r (List.mem_cons_self _ _)
    have h2 := ih (fun q hq => h q (List.mem_cons_of_mem _ hq))
    simp only [requested_frames, List.flatMap_cons, List.length_append, List.map_cons,
      List.sum_cons, Nat.cast_add] at h2 ⊢
    rw [h2, range_frames_length]
    omega

theorem requested_frames_getElem (pre post : List (Int × Int)) (r : Int × Int) (k : Nat)
    (hk : (k : Int) ≤ r.2 - r.1) :
    (requested_frames (pre ++ r :: post))[
        (pre.map (fun q => (q.2 - q.1 + 1).toNat)).sum + k]? = some (r.1 + (k : Int)) := by
  have hlen : k < (range_frames r).length := by
    rw [range_frames_length]; omega
  rw [← requested_frames_length]
  simp only [requested_frames, List.flatMap_append, List.flatMap_cons]
  rw [List.getElem?_append_right (Nat.le_add_right _ _), Nat.add_sub_cancel_left,
    List.getElem?_append_left hlen]
  simp only [range_frames, List.length_map, List.length_range] at hlen
  simp [range_frames, List.getElem?_range hlen]

theorem describe_blank_iff (s : State) (mt : MediaType) (cp : JsonStore)
    (detail : StreamDetail) (f : Int) :
    describe s mt cp detail f = FramePtr.blank mt ↔ s.base_.media_reference.uri f = none := by
  unfold describe
  cases hu : s.base_.media_reference.uri f with
  | none => simp
  | some p => simp

theorem describe_frame (s : State) (mt : MediaType) (cp : JsonStore)
    (detail : StreamDetail) (f : Int) (u : Uri) (ff : Int)
    (hu : s.base_.media_reference.uri f = some (u, ff)) :
    ∃ d, describe s mt cp detail f = FramePtr.frame d ∧ d.uri_ = u ∧ d.frame_ = ff := by
  unfold describe
  rw [hu]
  exact ⟨_, rfl, rfl, rfl⟩

/-- Every delivered reply of the range handler is the pointwise image of the requested
frames under a function that is blank exactly on unresolved frames (or everywhere when
the media type has no current stream). -/
theorem get_media_pointers_atom_ok (env : Env) (s : State) (mt : MediaType)
    (ranges : List (Int × Int)) (res : List FramePtr)
    (hres : get_media_pointers_atom env s mt ranges = Except.ok res) :
    ∃ g : Int → FramePtr, res = (requested_frames ranges).map g ∧
      (∀ f, g f = FramePtr.blank mt ↔
        ((s.base_.current mt).is_null = true ∨ s.base_.media_reference.uri f = none)) ∧
      (∀ f u ff, (s.base_.current mt).is_null = false →
        s.base_.media_reference.uri f = some (u, ff) →
        ∃ d, g f = FramePtr.frame d ∧ d.uri_ = u ∧ d.frame_ = ff) := by
  unfold get_media_pointers_atom at hres
  split at hres
  · split at hres <;> cases hres
  · unfold get_media_pointers_for_frames at hres
    split at hres
    · rename_i hnull
      rw [blank_loop_spec] at hres
      injection hres with hres
      refine ⟨fun _ => FramePtr.blank mt, by simpa using hres.symm, ?_, ?_⟩
      · intro f; simp [hnull]
      · intro f u ff h; simp [hnull] at h
    · rename_i hnull
      have hnull2 : (s.base_.current mt).is_null = false := by simpa using hnull
      split at hres
      · cases hres
      · rename_i cp _
        split at hres
        · cases hres
        · split at hres
          · cases hres
          · rename_i detail _
            injection hres with hres
            have hloop := (outer_loop_spec s mt cp detail ranges ([], none) (Or.inl rfl)).1
            rw [hloop] at hres
            refine ⟨describe s mt cp detail, by simpa using hres.symm, ?_, ?_⟩
            · intro f
              rw [describe_blank_iff]
              simp [hnull2]
            · intro f u ff _ hu
              exact describe_frame s mt cp detail f u ff hu

/-- C1: a range request delivers a reply only on a non-empty source, and the reply has
as many entries as the ranges are wide in total; the entry at offset `k` of a range `[first,last]`,
counted after all entries of the earlier ranges, belongs to logical frame `first + k`;
it is the blank sentinel exactly when the media type has no current stream or
`media_reference.uri` fails for that frame, and otherwise it is a descriptor carrying
the uri and file-frame `media_reference.uri` returns. -/
theorem C1_range_request_positions (env : Env) (s : State) (mt : MediaType)
    (ranges : List (Int × Int)) (res : List FramePtr)
    (hranges : ∀ r ∈ ranges, r.1 ≤ r.2)
    (hres : get_media_pointers_atom env s mt ranges = Except.ok res) :
    s.base_.empty = false ∧
    (res.length : Int) = (ranges.map (fun r => r.2 - r.1 + 1)).sum ∧
    ∀ (pre post : List (Int × Int)) (r : Int × Int) (k : Nat),
      ranges = pre ++ r :: post → (k : Int) ≤ r.2 - r.1 →
      (res[(pre.map (fun q => (q.2 - q.1 + 1).toNat)).sum + k]? = some (FramePtr.blank mt) ↔
        ((s.base_.current mt).is_null = true ∨
          s.base_.media_reference.uri (r.1 + (k : Int)) = none)) ∧
      (∀ u ff, (s.base_.current mt).is_null = false →
        s.base_.media_reference.uri (r.1 + (k : Int)) = some (u, ff) →
        ∃ d, res[(pre.map (fun q => (q.2 - q.1 + 1).toNat)).sum + k]? = some (FramePtr.frame d) ∧
          d.uri_ = u ∧ d.frame_ = ff) := by
  obtain ⟨g, hg, hblank, hframe⟩ := get_media_pointers_atom_ok env s mt ranges res hres
  refine ⟨?_, ?_, ?_⟩
  · unfold get_media_pointers_atom at hres
    split at hres
    · split at hres <;> cases hres
    · rename_i h; simpa using h
  · rw [hg, List.length_map]
    exact requested_frames_width ranges hranges
  · intro pre post r k hsplit hk
    have hidx := requested_frames_getElem pre post r k hk
    rw [← hsplit] at hidx
    have hget : res[(pre.map (fun q => (q.2 - q.1 + 1).toNat)).sum + k]?
        = some (g (r.1 + (k : Int))) := by
      rw [hg, List.getElem?_map, hidx]
      rfl
    refine ⟨?_, ?_⟩
    · rw [hget, ← hblank]
      simp
    · intro u ff hnull hu
      obtain ⟨d, hd, h1, h2⟩ := hframe _ u ff hnull hu
      exact ⟨d, by rw [hget, hd], h1, h2⟩

/-- C1 at scenario S4: ranges `[[3,7]]` on the five-frame sequence 1001..1005 give five
entries, the first two real with file-frames 1004 and 1005, the last three blank. -/
theorem C1_range_request_positions_witness :
    get_media_pointers_atom s2_env s2_state MediaType.MT_IMAGE [(3, 7)]
      = Except.ok ((get_media_pointers_atom s2_env s2_state MediaType.MT_IMAGE
          [(3, 7)]).toOption.getD []) ∧
    (((get_media_pointers_atom s2_env s2_state MediaType.MT_IMAGE
          [(3, 7)]).toOption.getD []).length : Int) = 5 ∧
    ((get_media_pointers_atom s2_env s2_state MediaType.MT_IMAGE [(3, 7)]).toOption.getD []).map
        (fun p => match p with
          | FramePtr.blank _ => none
          | FramePtr.frame d => some d.frame_)
      = [some 1004, some 1005, none, none, none] := by
  have h := C1_range_request_positions s2_env s2_state MediaType.MT_IMAGE [(3, 7)]
    ((get_media_pointers_atom s2_env s2_state MediaType.MT_IMAGE [(3, 7)]).toOption.getD [])
    (by intro r hr; simp at hr; subst hr; decide) (by rfl)
  exact ⟨by rfl, h.2.1, by rfl⟩

theorem frame_zero_of_uri (mr : MediaReference) (f : Int) (p : Uri × Int)
    (h : mr.uri f = some p) : ∃ f0, mr.frame 0 = some f0 := by
  unfold MediaReference.uri at h
  cases hf : mr.frame f with
  | none => simp [hf] at h
  | some ff =>
    unfold MediaReference.frame at hf ⊢
    by_cases hc : mr.container = true
    · exact ⟨0, by simp [hc]⟩
    · simp only [hc, Bool.false_eq_true, if_false] at hf ⊢
      by_cases hneg : f < 0
      · simp [hneg] at hf
      · simp only [hneg, if_false] at hf
        have hlen : f.toNat < mr.frame_list.frames.length := by
          by_contra hcon
          rw [List.getElem?_eq_none (Nat.le_of_not_lt hcon)] at hf
          cases hf
        have h0 : 0 < mr.frame_list.frames.length := by omega
        exact ⟨mr.frame_list.frames[0], by simp [h0]⟩

theorem find_map_replace (m : List (Uuid × MediaStreamActor)) (u : Uuid) (a : MediaStreamActor)
    (h : m.any (fun p => p.1 == u) = true) :
    (m.map (fun p => if p.1 == u then (u, a) else p)).find? (fun p => p.1 == u) = some (u, a) := by
  induction m with
  | nil => simp at h
  | cons q rest ih =>
    by_cases hq : q.1 = u
    · simp [hq]
    · have hrest : rest.any (fun p => p.1 == u) = true := by
        simpa [hq] using h
      have hq2 : (q.1 == u) = false := by simpa using hq
      simp only [List.map_cons, hq2, Bool.false_eq_true, if_false, List.find?_cons]
      exact ih hrest

theorem stream_at_insert (m : List (Uuid × MediaStreamActor)) (u : Uuid) (a : MediaStreamActor) :
    stream_at (stream_insert m u a) u = some a := by
  unfold stream_at stream_insert
  by_cases h : m.any (fun p => p.1 == u) = true
  · rw [if_pos h, find_map_replace m u a h]
    rfl
  · rw [if_neg h]
    have hnone : m.find? (fun p => p.1 == u) = none := by
      rw [List.find?_eq_none]
      intro x hx hxu
      exact h (List.any_eq_true.mpr ⟨x, hx, hxu⟩)
    simp [List.find?_append, hnone]

theorem add_media_stream_reference (b : MediaSource) (mt : MediaType) (u : Uuid) :
    (b.add_media_stream mt u).media_reference = b.media_reference := by
  cases mt <;> rfl

theorem process_stream_reference (rate : FrameRate) (uuid : Uuid) (acc : State × List Effect)
    (i : StreamDetail) :
    (process_stream rate uuid acc i).1.base_.media_reference
      = (reconcile rate acc.1.base_.media_reference i).1 := by
  simp [process_stream, add_media_stream_reference, MediaSource.set_media_reference]

theorem process_stream_spawned (rate : FrameRate) (uuid : Uuid) (acc : State × List Effect)
    (i : StreamDetail) :
    stream_at (process_stream rate uuid acc i).1.media_streams_ uuid
      = some ⟨(reconcile rate acc.1.base_.media_reference i).2.name_,
          (reconcile rate acc.1.base_.media_reference i).2.duration_,
          (reconcile rate acc.1.base_.media_reference i).2.media_type_,
          (reconcile rate acc.1.base_.media_reference i).2.key_format_, uuid⟩ := by
  simp [process_stream, stream_at_insert]

/-- C3: when an image stream `i` is processed while the duration of the media reference
is zero and the probed duration of `i` is nonzero, the media reference takes the probed
duration, its frame list becomes the contiguous range of file-frames
`0 .. i.duration.frames - 1`, and the stream actor is spawned with the probed
duration. -/
theorem C3_copy_probed_duration (rate : FrameRate) (uuid : Uuid) (acc : State × List Effect)
    (i : StreamDetail)
    (himg : i.media_type_ = MediaType.MT_IMAGE)
    (hzero : acc.1.base_.media_reference.duration.duration.count = 0)
    (hprobed : i.duration_.duration.count ≠ 0) :
    (process_stream rate uuid acc i).1.base_.media_reference.duration = i.duration_ ∧
    (process_stream rate uuid acc i).1.base_.media_reference.frame_list
      = FrameList.range 0 ((i.duration_.frames : Int) - 1) ∧
    (process_stream rate uuid acc i).1.base_.media_reference.frame_list.frames
      = (List.range i.duration_.frames.toNat).map (fun (k : Nat) => (k : Int)) ∧
    stream_at (process_stream rate uuid acc i).1.media_streams_ uuid
      = some ⟨i.name_, i.duration_, MediaType.MT_IMAGE, i.key_format_, uuid⟩ := by
  have hr : reconcile rate acc.1.base_.media_reference i
      = ((acc.1.base_.media_reference.set_duration i.duration_).set_frame_list
          (FrameList.range 0 ((i.duration_.frames : Int) - 1)), i) := by
    simp [reconcile, himg, hzero, hprobed]
  rw [process_stream_reference, process_stream_spawned, hr]
  refine ⟨rfl, rfl, ?_, by rw [himg]⟩
  simp [MediaReference.set_frame_list, FrameList.range]

/-- C3 on the fresh container of S1 with a probed stream of 48 frames at 24 fps. -/
theorem C3_copy_probed_duration_witness :
    (process_stream ⟨29400000⟩ ⟨100⟩ (s1_state, []) (image_stream 48 29400000)).1.base_.media_reference.duration
      = ⟨48, ⟨29400000⟩⟩ ∧
    (process_stream ⟨29400000⟩ ⟨100⟩ (s1_state, []) (image_stream 48 29400000)).1.base_.media_reference.frame_list
      = FrameList.range 0 47 :=
  ⟨(C3_copy_probed_duration ⟨29400000⟩ ⟨100⟩ (s1_state, []) (image_stream 48 29400000)
      (by rfl) (by rfl) (by decide)).1,
   (C3_copy_probed_duration ⟨29400000⟩ ⟨100⟩ (s1_state, []) (image_stream 48 29400000)
      (by rfl) (by rfl) (by decide)).2.1⟩

/-- C4: when an image stream `i` is processed while the duration of the media reference
is zero and the probed duration of `i` is zero too, the duration of the media reference
and the duration of the spawned stream both become one frame at the probed rate when
that rate is nonzero and at the fallback rate otherwise, and the frame list becomes the
single file-frame 0. -/
theorem C4_single_frame_duration (rate : FrameRate) (uuid : Uuid) (acc : State × List Effect)
    (i : StreamDetail)
    (himg : i.media_type_ = MediaType.MT_IMAGE)
    (hzero : acc.1.base_.media_reference.duration.duration.count = 0)
    (hprobed : i.duration_.duration.count = 0) :
    (process_stream rate uuid acc i).1.base_.media_reference.duration
      = ⟨1, if i.duration_.rate.count ≠ 0 then i.duration_.rate else rate⟩ ∧
    (process_stream rate uuid acc i).1.base_.media_reference.frame_list = FrameList.range 0 0 ∧
    (process_stream rate uuid acc i).1.base_.media_reference.frame_list.frames = [0] ∧
    stream_at (process_stream rate uuid acc i).1.media_streams_ uuid
      = some ⟨i.name_, ⟨1, if i.duration_.rate.count ≠ 0 then i.duration_.rate else rate⟩,
          MediaType.MT_IMAGE, i.key_format_, uuid⟩ := by
  rw [process_stream_reference, process_stream_spawned]
  by_cases hrate : i.duration_.rate.count = 0
  · have hr : reconcile rate acc.1.base_.media_reference i
        = (((acc.1.base_.media_reference.set_duration ⟨1, rate⟩).set_frame_list
            (FrameList.range 0 0)), { i with duration_ := ⟨1, rate⟩ }) := by
      simp [reconcile, himg, hzero, hprobed, hrate]
    rw [hr]
    simp only [hrate, ne_eq, not_true_eq_false, if_false]
    exact ⟨rfl, rfl, rfl, by rw [himg]⟩
  · have hr : reconcile rate acc.1.base_.media_reference i
        = (((acc.1.base_.media_reference.set_duration ⟨1, i.duration_.rate⟩).set_frame_list
            (FrameList.range 0 0)), { i with duration_ := ⟨1, i.duration_.rate⟩ }) := by
      simp [reconcile, himg, hzero, hprobed, hrate]
    rw [hr]
    simp only [hrate, ne_eq, not_false_eq_true, if_true]
    exact ⟨rfl, rfl, rfl, by rw [himg]⟩

/-- C4 on the fresh container of S1: a probed still image with neither duration nor rate
takes one frame at the fallback rate of 25 fps. -/
theorem C4_single_frame_duration_witness :
    (process_stream ⟨28224000⟩ ⟨100⟩ (s1_state, []) (image_stream 0 0)).1.base_.media_reference.duration
      = ⟨1, ⟨28224000⟩⟩ ∧
    (process_stream ⟨28224000⟩ ⟨100⟩ (s1_state, []) (image_stream 0 0)).1.base_.media_reference.frame_list.frames
      = [0] :=
  ⟨(C4_single_frame_duration ⟨28224000⟩ ⟨100⟩ (s1_state, []) (image_stream 0 0)
      (by rfl) (by rfl) (by rfl)).1,
   (C4_single_frame_duration ⟨28224000⟩ ⟨100⟩ (s1_state, []) (image_stream 0 0)
      (by rfl) (by rfl) (by rfl)).2.2.1⟩

/-- C5: when an image stream `i` with a nonzero probed rate is processed while the
duration of the media reference is nonzero, the media reference keeps its frame count
and takes the probed rate, its frame list is unchanged, and the stream is spawned with
that same duration. -/
theorem C5_adopt_probed_rate (rate : FrameRate) (uuid : Uuid) (acc : State × List Effect)
    (i : StreamDetail)
    (himg : i.media_type_ = MediaType.MT_IMAGE)
    (hknown : acc.1.base_.media_reference.duration.duration.count ≠ 0)
    (hrate : i.duration_.rate.count ≠ 0) :
    (process_stream rate uuid acc i).1.base_.media_reference.duration
      = ⟨acc.1.base_.media_reference.duration.frames, i.duration_.rate⟩ ∧
    (process_stream rate uuid acc i).1.base_.media_reference.frame_list
      = acc.1.base_.media_reference.frame_list ∧
    stream_at (process_stream rate uuid acc i).1.media_streams_ uuid
      = some ⟨i.name_, ⟨acc.1.base_.media_reference.duration.frames, i.duration_.rate⟩,
          MediaType.MT_IMAGE, i.key_format_, uuid⟩ := by
  have hr : reconcile rate acc.1.base_.media_reference i
      = (acc.1.base_.media_reference.set_duration
            ⟨acc.1.base_.media_reference.duration.frames, i.duration_.rate⟩,
          { i with duration_ := ⟨acc.1.base_.media_reference.duration.frames,
              i.duration_.rate⟩ }) := by
    simp [reconcile, himg, hknown, hrate]
  rw [process_stream_reference, process_stream_spawned, hr]
  exact ⟨rfl, rfl, by rw [himg]⟩

/-- C5 on the sequence of S2 declared at 24 fps: a stream probed at 25 fps leaves five
frames at 25 fps. -/
theorem C5_adopt_probed_rate_witness :
    (process_stream ⟨29400000⟩ ⟨100⟩ (s2_fresh, []) (image_stream 1 28224000)).1.base_.media_reference.duration
      = ⟨5, ⟨28224000⟩⟩ :=
  (C5_adopt_probed_rate ⟨29400000⟩ ⟨100⟩ (s2_fresh, []) (image_stream 1 28224000)
    (by rfl) (by decide) (by decide)).1

/-- C6 (as stated) fails: on a container of ten frames at 24 fps, a probed image stream
without a rate and a fallback rate of 25 fps, the rate of the media reference does not
stay 24 fps, it becomes the fallback rate. -/
theorem C6_container_rate_not_kept :
    known_container.base_.media_reference.container = true ∧
    known_container.base_.media_reference.duration.duration.count ≠ 0 ∧
    (image_stream 10 0).duration_.rate.count = 0 ∧
    (process_stream ⟨28224000⟩ ⟨100⟩ (known_container, []) (image_stream 10 0)).1.base_.media_reference.rate
      ≠ known_container.base_.media_reference.rate ∧
    (process_stream ⟨28224000⟩ ⟨100⟩ (known_container, []) (image_stream 10 0)).1.base_.media_reference.duration
      ≠ known_container.base_.media_reference.duration := by
  decide

/-- C6 (amended): when an image stream `i` without a probed rate is processed on a
container whose duration is nonzero, the media reference keeps its frame count and its
frame list and its rate becomes the fallback rate; the stream is spawned with its probed
frame count at the fallback rate. -/
theorem C6_container_fallback_rate (rate : FrameRate) (uuid : Uuid) (acc : State × List Effect)
    (i : StreamDetail)
    (himg : i.media_type_ = MediaType.MT_IMAGE)
    (hcontainer : acc.1.base_.media_reference.container = true)
    (hknown : acc.1.base_.media_reference.duration.duration.count ≠ 0)
    (hrate : i.duration_.rate.count = 0) :
    (process_stream rate uuid acc i).1.base_.media_reference.duration
      = ⟨acc.1.base_.media_reference.duration.frames, rate⟩ ∧
    (process_stream rate uuid acc i).1.base_.media_reference.rate = rate ∧
    (process_stream rate uuid acc i).1.base_.media_reference.frame_list
      = acc.1.base_.media_reference.frame_list ∧
    stream_at (process_stream rate uuid acc i).1.media_streams_ uuid
      = some ⟨i.name_, ⟨i.duration_.frames, rate⟩, MediaType.MT_IMAGE, i.key_format_, uuid⟩ := by
  have hr : reconcile rate acc.1.base_.media_reference i
      = (acc.1.base_.media_reference.set_rate rate,
          { i with duration_ := i.duration_.set_rate rate }) := by
    simp [reconcile, himg, hcontainer, hknown, hrate]
  rw [process_stream_reference, process_stream_spawned, hr]
  exact ⟨rfl, rfl, rfl, by rw [himg]; rfl⟩

/-- C6 (amended) on the ten-frame container with a fallback rate of 25 fps. -/
theorem C6_container_fallback_rate_witness :
    (process_stream ⟨28224000⟩ ⟨100⟩ (known_container, []) (image_stream 10 0)).1.base_.media_reference.duration
      = ⟨10, ⟨28224000⟩⟩ :=
  (C6_container_fallback_rate ⟨28224000⟩ ⟨100⟩ (known_container, []) (image_stream 10 0)
    (by rfl) (by rfl) (by decide) (by rfl)).1

/-- C7: when an image stream `i` without a probed rate is processed on a sequence whose
duration is nonzero, the duration of the media reference becomes its previous frame
count at the fallback rate, and the stream is spawned with that same duration. -/
theorem C7_sequence_fallback_rate (rate : FrameRate) (uuid : Uuid) (acc : State × List Effect)
    (i : StreamDetail)
    (himg : i.media_type_ = MediaType.MT_IMAGE)
    (hsequence : acc.1.base_.media_reference.container = false)
    (hknown : acc.1.base_.media_reference.duration.duration.count ≠ 0)
    (hrate : i.duration_.rate.count = 0) :
    (process_stream rate uuid acc i).1.base_.media_reference.duration
      = ⟨acc.1.base_.media_reference.duration.frames, rate⟩ ∧
    stream_at (process_stream rate uuid acc i).1.media_streams_ uuid
      = some ⟨i.name_, ⟨acc.1.base_.media_reference.duration.frames, rate⟩,
          MediaType.MT_IMAGE, i.key_format_, uuid⟩ := by
  have hr : reconcile rate acc.1.base_.media_reference i
      = (acc.1.base_.media_reference.set_rate rate,
          { i with duration_ := ⟨acc.1.base_.media_reference.duration.frames, rate⟩ }) := by
    simp [reconcile, himg, hsequence, hknown, hrate]
  rw [process_stream_reference, process_stream_spawned, hr]
  exact ⟨rfl, by rw [himg]⟩

/-- C7 on the sequence of S2: a probed stream of one frame without a rate and a fallback
rate of 25 fps leave five frames at 25 fps, on the reference and on the stream. -/
theorem C7_sequence_fallback_rate_witness :
    (process_stream ⟨28224000⟩ ⟨100⟩ (s2_fresh, []) (image_stream 1 0)).1.base_.media_reference.duration
      = ⟨5, ⟨28224000⟩⟩ ∧
    stream_at (process_stream ⟨28224000⟩ ⟨100⟩ (s2_fresh, []) (image_stream 1 0)).1.media_streams_ ⟨100⟩
      = some ⟨"video", ⟨5, ⟨28224000⟩⟩, MediaType.MT_IMAGE, "fmt", ⟨100⟩⟩ :=
  C7_sequence_fallback_rate ⟨28224000⟩ ⟨100⟩ (s2_fresh, []) (image_stream 1 0)
    (by rfl) (by rfl) (by decide) (by rfl)

theorem stream_insert_ne_nil (m : List (Uuid × MediaStreamActor)) (u : Uuid)
    (a : MediaStreamActor) : (stream_insert m u a).length ≠ 0 := by
  unfold stream_insert
  by_cases h : m.any (fun p => p.1 == u) = true
  · rw [if_pos h, List.length_map]
    intro hlen
    rw [List.length_eq_zero] at hlen
    rw [hlen] at h
    simp at h
  · rw [if_neg h]
    simp

theorem stream_loop_streams_ne_nil (env : Env) (rate : FrameRate) (l : List StreamDetail) :
    ∀ (k : Nat) (acc : State × List Effect),
      (acc.1.media_streams_.length ≠ 0 ∨ l ≠ []) →
      (stream_loop env rate k l acc).1.media_streams_.length ≠ 0 := by
  induction l with
  | nil =>
    intro k acc h
    rcases h with h | h
    · simpa [stream_loop] using h
    · exact absurd rfl h
  | cons i rest ih =>
    intro k acc _
    rw [stream_loop]
    apply ih
    left
    simp only [process_stream]
    exact stream_insert_ne_nil _ _ _

theorem stream_loop_nil_effects (env : Env) (rate : FrameRate) (k : Nat)
    (acc : State × List Effect) : (stream_loop env rate k [] acc).2 = acc.2 := by
  rw [stream_loop]

theorem acquire_detail_probe (env : Env) (rate : FrameRate) (s : State)
    (reader : Uri → Except Error MediaDetail) (u : Uri) (f0 : Int) (md : MediaDetail)
    (hnone : s.media_streams_.length = 0) (honline : s.base_.online = true)
    (hreader : env.media_reader = some reader)
    (huri : s.base_.media_reference.uri 0 = some (u, f0))
    (hmd : reader u = Except.ok md) :
    acquire_detail env rate s
      = ((on_media_detail env rate md (clear_streams s).1).1,
         Effect.get_media_detail u :: (on_media_detail env rate md (clear_streams s).1).2,
         true) := by
  have h1n : s.media_streams_ = [] := List.length_eq_zero.mp hnone
  have hfx : (clear_streams s).2 = [] := by simp [clear_streams, h1n]
  have hmr : (clear_streams s).1.base_.media_reference = s.base_.media_reference := rfl
  simp only [acquire_detail, hnone, honline, hreader, hfx, hmr, huri, hmd]
  simp

/-- The outcomes of `acquire_detail`: the short circuit on registered streams, a
failure that spawns nothing, or a probe answered with a `MediaDetail`. -/
theorem acquire_detail_cases (env : Env) (rate : FrameRate) (s : State) :
    (s.media_streams_.length ≠ 0 ∧ acquire_detail env rate s = (s, [], true)) ∨
    (s.media_streams_.length = 0 ∧ ∃ s1 fx, acquire_detail env rate s = (s1, fx, false) ∧
      ∀ a, Effect.spawn_stream a ∉ fx) ∨
    (s.media_streams_.length = 0 ∧ s.base_.online = true ∧ ∃ reader u f0 md,
      env.media_reader = some reader ∧ s.base_.media_reference.uri 0 = some (u, f0) ∧
      reader u = Except.ok md ∧
      acquire_detail env rate s
        = ((on_media_detail env rate md (clear_streams s).1).1,
           Effect.get_media_detail u :: (on_media_detail env rate md (clear_streams s).1).2,
           true)) := by
  by_cases h1 : s.media_streams_.length ≠ 0
  · left
    exact ⟨h1, by simp [acquire_detail, h1]⟩
  · right
    have h1z : s.media_streams_.length = 0 := by simpa using h1
    have h1n : s.media_streams_ = [] := List.length_eq_zero.mp h1z
    have hfx : (clear_streams s).2 = [] := by simp [clear_streams, h1n]
    have hmr : (clear_streams s).1.base_.media_reference = s.base_.media_reference := rfl
    by_cases h2 : s.base_.online = true
    · cases hreader : env.media_reader with
      | none =>
        left
        refine ⟨h1z, (clear_streams s).1, [], ?_, by simp⟩
        simp [acquire_detail, h1z, h2, hreader, hfx]
      | some reader =>
        cases huri : s.base_.media_reference.uri 0 with
        | none =>
          left
          refine ⟨h1z, { (clear_streams s).1 with
            base_ := (clear_streams s).1.base_.set_error_detail "Invalid frame index" },
            [], ?_, by simp⟩
          simp only [acquire_detail, h1z, h2, hreader, hfx, hmr, huri]
          simp
        | some p =>
          obtain ⟨u, f0⟩ := p
          cases hmd : reader u with
          | error err =>
            left
            refine ⟨h1z, { (clear_streams s).1 with
              base_ := (clear_streams s).1.base_.set_error_detail err.to_string },
              [Effect.get_media_detail u, Effect.send_changed, Effect.event_change], ?_,
              by simp⟩
            simp only [acquire_detail, h1z, h2, hreader, hfx, hmr, huri, hmd]
            simp
          | ok md =>
            right
            refine ⟨h1z, h2, reader, u, f0, md, rfl, rfl, hmd, ?_⟩
            simp only [acquire_detail, h1z, h2, hreader, hfx, hmr, huri, hmd]
            simp
    · left
      refine ⟨h1z, s, [], ?_, by simp⟩
      simp [acquire_detail, h1z, h2]

/-- A successful call that spawned a stream leaves a non-empty stream map. -/
theorem acquire_detail_spawned_ne_nil (env : Env) (rate : FrameRate) (s : State)
    (a : MediaStreamActor)
    (hok : (acquire_detail env rate s).2.2 = true)
    (hspawn : Effect.spawn_stream a ∈ (acquire_detail env rate s).2.1) :
    (acquire_detail env rate s).1.media_streams_.length ≠ 0 := by
  rcases acquire_detail_cases env rate s with ⟨h1, h⟩ | ⟨_, s1, fx, h, hno⟩ |
    ⟨_, _, reader, u, f0, md, _, _, _, h⟩
  · rw [h]; exact h1
  · rw [h] at hok; cases hok
  · rw [h] at hspawn ⊢
    simp only [on_media_detail]
    apply stream_loop_streams_ne_nil
    right
    intro hnil
    simp [on_media_detail, hnil, stream_loop_nil_effects] at hspawn

/-- C8: with at least one stream registered, acquire-detail delivers true; with no
stream registered and the source offline it delivers false; in both cases nothing is
sent (no probe, no spawn) and the state is returned unchanged, the handler adding only
its name event. Hence a call that follows a successful call which spawned a stream
returns the state unchanged, delivers true and spawns nothing. -/
theorem C8_acquire_detail_short_circuit (env : Env) (rate : FrameRate) (s : State) :
    (s.media_streams_.length ≠ 0 →
      acquire_detail env rate s = (s, [], true) ∧
      acquire_media_detail_atom env rate s = (s, [Effect.event_name s.base_.name], true)) ∧
    (s.media_streams_.length = 0 → s.base_.online = false →
      acquire_detail env rate s = (s, [], false) ∧
      acquire_media_detail_atom env rate s = (s, [Effect.event_name s.base_.name], false)) ∧
    (∀ (env0 : Env) (rate0 : FrameRate) (s0 : State) (a : MediaStreamActor),
      (acquire_detail env0 rate0 s0).2.2 = true →
      Effect.spawn_stream a ∈ (acquire_detail env0 rate0 s0).2.1 →
      acquire_detail env rate (acquire_detail env0 rate0 s0).1
        = ((acquire_detail env0 rate0 s0).1, [], true)) := by
  have hshort : ∀ t : State, t.media_streams_.length ≠ 0 →
      acquire_detail env rate t = (t, [], true) := by
    intro t ht
    simp [acquire_detail, ht]
  refine ⟨?_, ?_, ?_⟩
  · intro h
    exact ⟨hshort s h, by simp [acquire_media_detail_atom, hshort s h]⟩
  · intro h hoff
    have h2 : acquire_detail env rate s = (s, [], false) := by
      simp [acquire_detail, h, hoff]
    exact ⟨h2, by simp [acquire_media_detail_atom, h2]⟩
  · intro env0 rate0 s0 a hok hspawn
    exact hshort _ (acquire_detail_spawned_ne_nil env0 rate0 s0 a hok hspawn)

/-- C8 on S1 and S2: the source of S2 with its stream registered short-circuits to true;
the container of S1 acquires the movie detail, and a second call changes nothing. -/
theorem C8_acquire_detail_short_circuit_witness :
    acquire_detail s2_env ⟨29400000⟩ s2_state = (s2_state, [], true) ∧
    acquire_detail s2_env ⟨29400000⟩
        (acquire_detail (probe_env movie_detail) ⟨29400000⟩ s1_state).1
      = ((acquire_detail (probe_env movie_detail) ⟨29400000⟩ s1_state).1, [], true) :=
  ⟨((C8_acquire_detail_short_circuit s2_env ⟨29400000⟩ s2_state).1 (by decide)).1,
   (C8_acquire_detail_short_circuit s2_env ⟨29400000⟩ s2_state).2.2
      (probe_env movie_detail) ⟨29400000⟩ s1_state
      ⟨"video", ⟨48, ⟨29400000⟩⟩, MediaType.MT_IMAGE, "fmt", ⟨100⟩⟩ (by rfl) (by decide)⟩

/-! ### Invariants of the stream loop -/

theorem reconcile_media_type (rate : FrameRate) (mr : MediaReference) (i : StreamDetail) :
    (reconcile rate mr i).2.media_type_ = i.media_type_ := by
  unfold reconcile
  split_ifs <;> rfl

theorem reconcile_fst (rate : FrameRate) (mr : MediaReference) (i : StreamDetail) :
    (reconcile rate mr i).1 =
      if i.media_type_ = MediaType.MT_IMAGE then
        if mr.duration.duration.count = 0 then
          if i.duration_.duration.count ≠ 0 then
            (mr.set_duration i.duration_).set_frame_list
              (FrameList.range 0 ((i.duration_.frames : Int) - 1))
          else if i.duration_.rate.count ≠ 0 then
            (mr.set_duration ⟨1, i.duration_.rate⟩).set_frame_list (FrameList.range 0 0)
          else (mr.set_duration ⟨1, rate⟩).set_frame_list (FrameList.range 0 0)
        else if i.duration_.rate.count ≠ 0 then
          mr.set_duration ⟨mr.duration.frames, i.duration_.rate⟩
        else mr.set_rate rate
      else mr := by
  unfold reconcile
  split_ifs <;> rfl

theorem reconcile_timecode (rate : FrameRate) (mr : MediaReference) (i : StreamDetail) :
    (reconcile rate mr i).1.timecode = mr.timecode := by
  rw [reconcile_fst]
  split_ifs <;> rfl

theorem reconcile_container (rate : FrameRate) (mr : MediaReference) (i : StreamDetail) :
    (reconcile rate mr i).1.container = mr.container := by
  rw [reconcile_fst]
  split_ifs <;> rfl

theorem frame_list_range_ne_nil (n : Int) (h : 0 < n) :
    (FrameList.range 0 (n - 1)).frames ≠ [] := by
  have hpos : 0 < (n - 1 + 1 - 0).toNat := by omega
  intro hnil
  have hlen := congrArg List.length hnil
  simp only [FrameList.range, List.length_map, List.length_range, List.length_nil] at hlen
  omega

theorem count_ne_zero_frames (d : FrameRateDuration) (h : d.duration.count ≠ 0) :
    d.frames ≠ 0 ∧ d.rate.count ≠ 0 := by
  simp only [FrameRateDuration.duration] at h
  exact ⟨fun hz => h (by simp [hz]), fun hz => h (by simp [hz])⟩

theorem reconcile_frame_list_ne_nil (rate : FrameRate) (mr : MediaReference) (i : StreamDetail)
    (hi : 0 ≤ i.duration_.frames)
    (h : mr.frame_list.frames ≠ []) : (reconcile rate mr i).1.frame_list.frames ≠ [] := by
  rw [reconcile_fst]
  split_ifs with h1 h2 h3 h4 h5
  · have hn : i.duration_.frames ≠ 0 := (count_ne_zero_frames _ h3).1
    exact frame_list_range_ne_nil _ (by omega)
  · simp [MediaReference.set_frame_list, FrameList.range]
  · simp [MediaReference.set_frame_list, FrameList.range]
  · exact h
  · exact h
  · exact h

theorem reconcile_nonzero_image (rate : FrameRate) (mr : MediaReference) (i : StreamDetail)
    (hrate : rate.count ≠ 0) (himg : i.media_type_ = MediaType.MT_IMAGE) :
    nonzero_duration (reconcile rate mr i).1 := by
  rw [reconcile_fst, if_pos himg]
  split_ifs with h2 h3 h4 h5
  · exact count_ne_zero_frames _ h3
  · exact ⟨one_ne_zero, h4⟩
  · exact ⟨one_ne_zero, hrate⟩
  · exact ⟨(count_ne_zero_frames _ h2).1, h5⟩
  · exact ⟨(count_ne_zero_frames _ h2).1, hrate⟩

theorem reconcile_nonzero (rate : FrameRate) (mr : MediaReference) (i : StreamDetail)
    (hrate : rate.count ≠ 0) (h : nonzero_duration mr) :
    nonzero_duration (reconcile rate mr i).1 := by
  by_cases himg : i.media_type_ = MediaType.MT_IMAGE
  · exact reconcile_nonzero_image rate mr i hrate himg
  · rw [reconcile_fst, if_neg himg]
    exact h

theorem reconcile_frames_nonneg (rate : FrameRate) (mr : MediaReference) (i : StreamDetail)
    (hi : 0 ≤ i.duration_.frames) (h : 0 ≤ mr.duration.frames) :
    0 ≤ (reconcile rate mr i).1.duration.frames := by
  rw [reconcile_fst]
  split_ifs
  · exact hi
  · exact Int.le_of_lt Int.zero_lt_one
  · exact Int.le_of_lt Int.zero_lt_one
  · exact h
  · exact h
  · exact h

theorem reconcile_valid_image (rate : FrameRate) (mr : MediaReference) (i : StreamDetail)
    (hrate : 0 < rate.count) (himg : i.media_type_ = MediaType.MT_IMAGE)
    (hi : 0 ≤ i.duration_.frames ∧ 0 ≤ i.duration_.rate.count)
    (hmr : 0 ≤ mr.duration.frames) :
    valid_duration (reconcile rate mr i).1 := by
  obtain ⟨hn1, hn2⟩ := reconcile_nonzero_image rate mr i (by omega) himg
  have hf := reconcile_frames_nonneg rate mr i hi.1 hmr
  have hr : 0 ≤ (reconcile rate mr i).1.rate.count := by
    rw [reconcile_fst, if_pos himg]
    split_ifs
    · exact hi.2
    · exact hi.2
    · exact Int.le_of_lt hrate
    · exact hi.2
    · exact Int.le_of_lt hrate
  constructor
  · omega
  · omega

theorem reconcile_valid (rate : FrameRate) (mr : MediaReference) (i : StreamDetail)
    (hrate : 0 < rate.count)
    (hi : 0 ≤ i.duration_.frames ∧ 0 ≤ i.duration_.rate.count)
    (h : valid_duration mr) :
    valid_duration (reconcile rate mr i).1 := by
  by_cases himg : i.media_type_ = MediaType.MT_IMAGE
  · exact reconcile_valid_image rate mr i hrate himg hi (by have := h.1; omega)
  · rw [reconcile_fst, if_neg himg]
    exact h

theorem stream_loop_inv (env : Env) (rate : FrameRate) (P : MediaReference → Prop)
    (hP : ∀ mr i, P mr → P (reconcile rate mr i).1) (l : List StreamDetail) :
    ∀ (k : Nat) (acc : State × List Effect), P acc.1.base_.media_reference →
      P (stream_loop env rate k l acc).1.base_.media_reference := by
  induction l with
  | nil => intro k acc h; simpa [stream_loop] using h
  | cons i rest ih =>
    intro k acc h
    rw [stream_loop]
    apply ih
    rw [process_stream_reference]
    exact hP _ _ h

theorem stream_loop_inv_mem (env : Env) (rate : FrameRate) (P : MediaReference → Prop)
    (l : List StreamDetail) (hP : ∀ mr, ∀ i ∈ l, P mr → P (reconcile rate mr i).1) :
    ∀ (k : Nat) (acc : State × List Effect), P acc.1.base_.media_reference →
      P (stream_loop env rate k l acc).1.base_.media_reference := by
  induction l with
  | nil => intro k acc h; simpa [stream_loop] using h
  | cons i rest ih =>
    intro k acc h
    rw [stream_loop]
    apply ih (fun mr j hj => hP mr j (List.mem_cons_of_mem _ hj))
    rw [process_stream_reference]
    exact hP _ i (List.mem_cons_self _ _) h

theorem stream_loop_nonzero (env : Env) (rate : FrameRate) (hrate : rate.count ≠ 0)
    (l : List StreamDetail) :
    ∀ (k : Nat) (acc : State × List Effect),
      (nonzero_duration acc.1.base_.media_reference ∨
        ∃ i ∈ l, i.media_type_ = MediaType.MT_IMAGE) →
      nonzero_duration (stream_loop env rate k l acc).1.base_.media_reference := by
  induction l with
  | nil =>
    intro k acc h
    rcases h with h | ⟨i, hi, _⟩
    · simpa [stream_loop] using h
    · simp at hi
  | cons i rest ih =>
    intro k acc h
    rw [stream_loop]
    apply ih
    rw [process_stream_reference]
    rcases h with h | ⟨j, hj, himg⟩
    · exact Or.inl (reconcile_nonzero rate _ i hrate h)
    · rcases List.mem_cons.mp hj with hji | hjr
      · subst hji
        exact Or.inl (reconcile_nonzero_image rate _ j hrate himg)
      · exact Or.inr ⟨j, hjr, himg⟩

theorem stream_loop_valid (env : Env) (rate : FrameRate) (hrate : 0 < rate.count)
    (l : List StreamDetail)
    (hl : ∀ i ∈ l, 0 ≤ i.duration_.frames ∧ 0 ≤ i.duration_.rate.count) :
    ∀ (k : Nat) (acc : State × List Effect),
      0 ≤ acc.1.base_.media_reference.duration.frames →
      (valid_duration acc.1.base_.media_reference ∨
        ∃ i ∈ l, i.media_type_ = MediaType.MT_IMAGE) →
      valid_duration (stream_loop env rate k l acc).1.base_.media_reference := by
  induction l with
  | nil =>
    intro k acc _ h
    rcases h with h | ⟨i, hi, _⟩
    · simpa [stream_loop] using h
    · simp at hi
  | cons i rest ih =>
    intro k acc hnn h
    have hi := hl i (List.mem_cons_self _ _)
    rw [stream_loop]
    apply ih (fun j hj => hl j (List.mem_cons_of_mem _ hj))
    · rw [process_stream_reference]
      exact reconcile_frames_nonneg rate _ i hi.1 hnn
    · rw [process_stream_reference]
      rcases h with h | ⟨j, hj, himg⟩
      · exact Or.inl (reconcile_valid rate _ i hrate hi h)
      · rcases List.mem_cons.mp hj with hji | hjr
        · subst hji
          exact Or.inl (reconcile_valid_image rate _ j hrate himg hi hnn)
        · exact Or.inr ⟨j, hjr, himg⟩

theorem stream_loop_spawn_mem (env : Env) (rate : FrameRate) (a : MediaStreamActor)
    (l : List StreamDetail) :
    ∀ (k : Nat) (acc : State × List Effect),
      Effect.spawn_stream a ∈ (stream_loop env rate k l acc).2 →
      Effect.spawn_stream a ∈ acc.2 ∨ ∃ i ∈ l, i.media_type_ = a.media_type_ := by
  induction l with
  | nil => intro k acc h; left; simpa [stream_loop] using h
  | cons i rest ih =>
    intro k acc h
    rw [stream_loop] at h
    rcases ih _ _ h with h1 | ⟨j, hj, hjt⟩
    · simp only [process_stream, List.mem_append, List.mem_cons, List.mem_singleton,
        Effect.spawn_stream.injEq, List.mem_nil_iff, or_false] at h1
      rcases h1 with h1 | h1 | h1
      · exact Or.inl h1
      · right
        refine ⟨i, List.mem_cons_self _ _, ?_⟩
        rw [h1]
        exact (reconcile_media_type rate _ i).symm
      · cases h1
    · exact Or.inr ⟨j, List.mem_cons_of_mem _ hj, hjt⟩

theorem anchor_timecode_duration (mr : MediaReference) :
    (anchor_timecode mr).duration = mr.duration := by
  unfold anchor_timecode MediaReference.set_timecode_from_frames
  split_ifs
  · cases mr.frame 0 <;> rfl
  · rfl

theorem on_media_detail_reference (env : Env) (rate : FrameRate) (md : MediaDetail) (s : State) :
    (on_media_detail env rate md s).1.base_.media_reference
      = anchor_timecode (stream_loop env rate 0 md.streams_
          (adopt_probed md s, [])).1.base_.media_reference := by
  rfl

theorem on_media_detail_effects (env : Env) (rate : FrameRate) (md : MediaDetail) (s : State) :
    (on_media_detail env rate md s).2
      = (stream_loop env rate 0 md.streams_
          (adopt_probed md s, [])).2
        ++ [Effect.get_metadata, Effect.send_changed, Effect.event_change] := by
  rfl

theorem adopt_probed_duration (md : MediaDetail) (s : State) :
    (adopt_probed md s).base_.media_reference.duration
      = s.base_.media_reference.duration := by
  unfold adopt_probed
  by_cases h : s.base_.media_reference.timecode.total_frames = 0
  · simp [h, MediaSource.set_media_reference, MediaSource.set_reader,
      MediaReference.set_timecode]
  · simp [h, MediaSource.set_media_reference, MediaSource.set_reader]

/-- C9 (as stated) fails: on the fresh container of S1, acquire-detail succeeds on an
audio-only probe and leaves zero frames; with a fallback rate of zero it succeeds on a
still image without a probed rate and leaves a zero rate; and on a probed image stream
of -2 frames at a negative rate, whose duration count is nonzero, it succeeds and leaves
-2 frames. -/
theorem C9_success_without_valid_duration :
    (acquire_detail (probe_env audio_detail) ⟨29400000⟩ s1_state).2.2 = true ∧
    (acquire_detail (probe_env audio_detail) ⟨29400000⟩ s1_state).1.base_.media_reference.duration.frames
      = 0 ∧
    (acquire_detail (probe_env still_detail) ⟨0⟩ s1_state).2.2 = true ∧
    (acquire_detail (probe_env still_detail) ⟨0⟩ s1_state).1.base_.media_reference.rate.count
      = 0 ∧
    (acquire_detail (probe_env reversed_detail) ⟨29400000⟩ s1_state).2.2 = true ∧
    (acquire_detail (probe_env reversed_detail) ⟨29400000⟩ s1_state).1.base_.media_reference.duration.frames
      = -2 := by
  decide

/-- C9 (amended): after an acquire-detail call with a nonzero fallback rate has
succeeded and has spawned at least one image stream, the media reference has a nonzero
frame count and a nonzero rate count. When moreover the fallback rate is positive, the
frame count of the reference before the call is not negative and no stream of a probed
detail reports a negative frame count or a negative rate, the media reference has at
least one frame and a positive rate count. -/
theorem C9_duration_after_image_stream (env : Env) (rate : FrameRate) (s : State)
    (a : MediaStreamActor)
    (hok : (acquire_detail env rate s).2.2 = true)
    (hrate : rate.count ≠ 0)
    (hspawn : Effect.spawn_stream a ∈ (acquire_detail env rate s).2.1)
    (himg : a.media_type_ = MediaType.MT_IMAGE) :
    (acquire_detail env rate s).1.base_.media_reference.duration.frames ≠ 0 ∧
    (acquire_detail env rate s).1.base_.media_reference.rate.count ≠ 0 ∧
    (0 < rate.count → 0 ≤ s.base_.media_reference.duration.frames →
      (∀ reader u md, env.media_reader = some reader → reader u = Except.ok md →
        ∀ i ∈ md.streams_, 0 ≤ i.duration_.frames ∧ 0 ≤ i.duration_.rate.count) →
      1 ≤ (acquire_detail env rate s).1.base_.media_reference.duration.frames ∧
      0 < (acquire_detail env rate s).1.base_.media_reference.rate.count) := by
  rcases acquire_detail_cases env rate s with ⟨_, h⟩ | ⟨_, s1, fx, h, hno⟩ |
    ⟨_, _, reader, u, f0, md, hreader, _, hmd, h⟩
  · rw [h] at hspawn
    simp at hspawn
  · rw [h] at hok
    cases hok
  · rw [h] at hspawn ⊢
    rw [on_media_detail_effects] at hspawn
    have hloop : Effect.spawn_stream a ∈ (stream_loop env rate 0 md.streams_
        (adopt_probed md (clear_streams s).1, [])).2 := by
      rcases List.mem_cons.mp hspawn with hhead | htail
      · cases hhead
      · rcases List.mem_append.mp htail with hl | hr
        · exact hl
        · simp at hr
    rcases stream_loop_spawn_mem env rate a md.streams_ _ _ hloop with hnil | ⟨i, hi, hit⟩
    · simp at hnil
    · have hnz := stream_loop_nonzero env rate hrate md.streams_ 0
        (adopt_probed md (clear_streams s).1, [])
        (Or.inr ⟨i, hi, by rw [hit, himg]⟩)
      rw [on_media_detail_reference]
      simp only [MediaReference.rate, anchor_timecode_duration]
      refine ⟨hnz.1, hnz.2, ?_⟩
      intro hpos hbefore hprobe
      exact stream_loop_valid env rate hpos md.streams_ (hprobe reader u md hreader hmd) 0
        (adopt_probed md (clear_streams s).1, [])
        (by rw [adopt_probed_duration]; exact hbefore)
        (Or.inr ⟨i, hi, by rw [hit, himg]⟩)

/-- C9 (amended) on S1: the container probed as a movie at a fallback rate of 24 fps
ends with 48 frames at 24 fps. -/
theorem C9_duration_after_image_stream_witness :
    (acquire_detail (probe_env movie_detail) ⟨29400000⟩ s1_state).1.base_.media_reference.duration.frames
      = 48 ∧
    1 ≤ (acquire_detail (probe_env movie_detail) ⟨29400000⟩ s1_state).1.base_.media_reference.duration.frames ∧
    0 < (acquire_detail (probe_env movie_detail) ⟨29400000⟩ s1_state).1.base_.media_reference.rate.count :=
  ⟨by decide,
   (C9_duration_after_image_stream (probe_env movie_detail) ⟨29400000⟩ s1_state
      ⟨"video", ⟨48, ⟨29400000⟩⟩, MediaType.MT_IMAGE, "fmt", ⟨100⟩⟩
      (by rfl) (by decide) (by decide) (by rfl)).2.2 (by decide) (by decide)
      (by
        intro reader u md hreader hmd i hi
        have hr : reader = fun _ => Except.ok movie_detail := by
          have h0 : (probe_env movie_detail).media_reader
              = some (fun _ => Except.ok movie_detail) := rfl
          rw [h0] at hreader
          exact (Option.some.inj hreader).symm
        rw [hr] at hmd
        have hmd2 : md = movie_detail := by
          injection hmd with hmd
          exact hmd.symm
        rw [hmd2] at hi
        have hi2 : i = image_stream 48 29400000 ∨ i = audio_stream := by
          simpa [movie_detail] using hi
        rcases hi2 with rfl | rfl
        · exact ⟨by decide, by decide⟩
        · exact ⟨by decide, by decide⟩)⟩

/-! ### Timecode anchoring -/

theorem anchor_timecode_frame_list (mr : MediaReference) :
    (anchor_timecode mr).frame_list = mr.frame_list := by
  unfold anchor_timecode MediaReference.set_timecode_from_frames
  split_ifs
  · cases mr.frame 0 <;> rfl
  · rfl

theorem anchor_timecode_container (mr : MediaReference) :
    (anchor_timecode mr).container = mr.container := by
  unfold anchor_timecode MediaReference.set_timecode_from_frames
  split_ifs
  · cases mr.frame 0 <;> rfl
  · rfl

theorem anchor_timecode_frame (mr : MediaReference) (k : Int) :
    (anchor_timecode mr).frame k = mr.frame k := by
  unfold MediaReference.frame
  rw [anchor_timecode_frame_list, anchor_timecode_container]

theorem sequence_frame_zero (mr : MediaReference) (hseq : mr.container = false)
    (hne : mr.frame_list.frames ≠ []) : ∃ f, mr.frame 0 = some f := by
  cases hfl : mr.frame_list.frames with
  | nil => exact absurd hfl hne
  | cons f rest => exact ⟨f, by simp [MediaReference.frame, hseq, hfl]⟩

theorem sequence_frame_list_ne_nil (mr : MediaReference) (hseq : mr.container = false)
    (p : Uri × Int) (huri : mr.uri 0 = some p) : mr.frame_list.frames ≠ [] := by
  intro hnil
  simp [MediaReference.uri, MediaReference.frame, hseq, hnil] at huri

theorem anchor_timecode_sequence (mr : MediaReference) (hseq : mr.container = false)
    (hne : mr.frame_list.frames ≠ [])
    (hcond : mr.timecode.total_frames = 0 ∨ mr.frame_list.start ≠ 0) :
    (anchor_timecode mr).frame 0 = some (anchor_timecode mr).timecode.total_frames := by
  obtain ⟨f, hf⟩ := sequence_frame_zero mr hseq hne
  rw [anchor_timecode_frame, hf]
  have hc : ¬ mr.container = true ∧
      (mr.timecode.total_frames = 0 ∨ mr.frame_list.start ≠ 0) := ⟨by simp [hseq], hcond⟩
  simp only [anchor_timecode, if_pos hc, MediaReference.set_timecode_from_frames, hf]

theorem anchor_timecode_unchanged (mr : MediaReference)
    (h : ¬ (¬ mr.container = true ∧
      (mr.timecode.total_frames = 0 ∨ mr.frame_list.start ≠ 0))) :
    anchor_timecode mr = mr := by
  simp only [anchor_timecode, if_neg h]

theorem adopt_probed_timecode (md : MediaDetail) (s : State) :
    (adopt_probed md s).base_.media_reference.timecode
      = probed_timecode md s.base_.media_reference := by
  unfold adopt_probed probed_timecode
  by_cases h : s.base_.media_reference.timecode.total_frames = 0
  · simp [h, MediaSource.set_media_reference, MediaSource.set_reader,
      MediaReference.set_timecode]
  · simp [h, MediaSource.set_media_reference, MediaSource.set_reader]

theorem adopt_probed_container (md : MediaDetail) (s : State) :
    (adopt_probed md s).base_.media_reference.container
      = s.base_.media_reference.container := by
  unfold adopt_probed
  by_cases h : s.base_.media_reference.timecode.total_frames = 0
  · simp [h, MediaSource.set_media_reference, MediaSource.set_reader,
      MediaReference.set_timecode]
  · simp [h, MediaSource.set_media_reference, MediaSource.set_reader]

theorem adopt_probed_frame_list (md : MediaDetail) (s : State) :
    (adopt_probed md s).base_.media_reference.frame_list
      = s.base_.media_reference.frame_list := by
  unfold adopt_probed
  by_cases h : s.base_.media_reference.timecode.total_frames = 0
  · simp [h, MediaSource.set_media_reference, MediaSource.set_reader,
      MediaReference.set_timecode]
  · simp [h, MediaSource.set_media_reference, MediaSource.set_reader]

/-- C10 (as stated) fails: the sequence of S2, frame list 1001..1005 and timecode 0, on
which a stream was registered through add-stream before any acquisition. Acquire-detail
short-circuits on the registered stream, delivers true and leaves the timecode at 0,
while the file-frame of logical frame 0 is 1001. -/
theorem C10_short_circuit_keeps_timecode :
    s2_unanchored.base_.media_reference.container = false ∧
    s2_unanchored.base_.media_reference.frame_list.start = 1001 ∧
    (acquire_detail (probe_env exr_detail) ⟨29400000⟩ s2_unanchored).2.2 = true ∧
    (acquire_detail (probe_env exr_detail) ⟨29400000⟩
      s2_unanchored).1.base_.media_reference.timecode = ⟨0⟩ ∧
    (acquire_detail (probe_env exr_detail) ⟨29400000⟩
      s2_unanchored).1.base_.media_reference.frame 0 = some 1001 := by
  decide

/-- C10 (amended): when acquire-detail probes the reader (the source is online and has
no stream, logical frame 0 resolves) and is answered with a `MediaDetail`, it delivers
true and keeps the container flag. On a sequence, if the timecode after the overwrite by
the probed timecode is zero or the frame list does not start at 0, and no probed stream
reports a negative frame count, the timecode-as-frames of the result equals the
file-frame of logical frame 0; if neither condition holds the timecode is the one after
the overwrite. On a container the timecode is the probed timecode if it was zero before
and its previous value otherwise. -/
theorem C10_timecode_anchoring (env : Env) (rate : FrameRate) (s : State)
    (reader : Uri → Except Error MediaDetail) (u : Uri) (f0 : Int) (md : MediaDetail)
    (hnone : s.media_streams_.length = 0) (honline : s.base_.online = true)
    (hreader : env.media_reader = some reader)
    (huri : s.base_.media_reference.uri 0 = some (u, f0))
    (hmd : reader u = Except.ok md) :
    (acquire_detail env rate s).2.2 = true ∧
    (acquire_detail env rate s).1.base_.media_reference.container
      = s.base_.media_reference.container ∧
    (s.base_.media_reference.container = false →
      ((probed_timecode md s.base_.media_reference).total_frames = 0 ∨
        (acquire_detail env rate s).1.base_.media_reference.frame_list.start ≠ 0) →
      (∀ i ∈ md.streams_, 0 ≤ i.duration_.frames) →
      (acquire_detail env rate s).1.base_.media_reference.frame 0
        = some (acquire_detail env rate s).1.base_.media_reference.timecode.total_frames) ∧
    (s.base_.media_reference.container = false →
      ¬ ((probed_timecode md s.base_.media_reference).total_frames = 0 ∨
        (acquire_detail env rate s).1.base_.media_reference.frame_list.start ≠ 0) →
      (acquire_detail env rate s).1.base_.media_reference.timecode
        = probed_timecode md s.base_.media_reference) ∧
    (s.base_.media_reference.container = true →
      (acquire_detail env rate s).1.base_.media_reference.timecode
        = probed_timecode md s.base_.media_reference) := by
  rw [acquire_detail_probe env rate s reader u f0 md hnone honline hreader huri hmd]
  simp only [on_media_detail_reference]
  have htc : (stream_loop env rate 0 md.streams_
      (adopt_probed md (clear_streams s).1, [])).1.base_.media_reference.timecode
      = probed_timecode md s.base_.media_reference :=
    stream_loop_inv env rate
      (fun mr => mr.timecode = probed_timecode md s.base_.media_reference)
      (fun mr i h => by beta_reduce at h ⊢; rw [reconcile_timecode]; exact h) md.streams_ 0
      (adopt_probed md (clear_streams s).1, []) (adopt_probed_timecode md _)
  have hcont : (stream_loop env rate 0 md.streams_
      (adopt_probed md (clear_streams s).1, [])).1.base_.media_reference.container
      = s.base_.media_reference.container :=
    stream_loop_inv env rate
      (fun mr => mr.container = s.base_.media_reference.container)
      (fun mr i h => by beta_reduce at h ⊢; rw [reconcile_container]; exact h) md.streams_ 0
      (adopt_probed md (clear_streams s).1, []) (adopt_probed_container md _)
  refine ⟨trivial, ?_, ?_, ?_, ?_⟩
  · rw [anchor_timecode_container]
    exact hcont
  · intro hseq hcond hframes
    have hne : (stream_loop env rate 0 md.streams_
        (adopt_probed md (clear_streams s).1, [])).1.base_.media_reference.frame_list.frames
        ≠ [] :=
      stream_loop_inv_mem env rate (fun mr => mr.frame_list.frames ≠ []) md.streams_
        (fun mr i hi h => reconcile_frame_list_ne_nil rate mr i (hframes i hi) h) 0
        (adopt_probed md (clear_streams s).1, [])
        (by
          beta_reduce
          rw [adopt_probed_frame_list]
          exact sequence_frame_list_ne_nil s.base_.media_reference hseq _ huri)
    rw [anchor_timecode_frame_list] at hcond
    apply anchor_timecode_sequence _ (by rw [hcont]; exact hseq) hne
    rw [htc]
    exact hcond
  · intro hseq hcond
    rw [anchor_timecode_frame_list] at hcond
    rw [anchor_timecode_unchanged, htc]
    rw [htc]
    exact fun h => hcond h.2
  · intro hc
    rw [anchor_timecode_unchanged, htc]
    rw [hcont]
    exact fun h => h.1 hc

/-- C10 (amended) on S2: the sequence with frame list 1001..1005, probed with an embedded
timecode, ends with timecode-as-frames 1001, the file-frame of logical frame 0. -/
theorem C10_timecode_anchoring_witness :
    (acquire_detail (probe_env exr_detail) ⟨29400000⟩ s2_fresh).1.base_.media_reference.frame 0
      = some (acquire_detail (probe_env exr_detail) ⟨29400000⟩ s2_fresh).1.base_.media_reference.timecode.total_frames ∧
    (acquire_detail (probe_env exr_detail) ⟨29400000⟩ s2_fresh).1.base_.media_reference.timecode.total_frames
      = 1001 :=
  ⟨(C10_timecode_anchoring (probe_env exr_detail) ⟨29400000⟩ s2_fresh (fun _ => Except.ok exr_detail)
      ⟨"file:///s.%04d.exr", some 1001⟩ 1001 exr_detail (by rfl) (by rfl) (by rfl) (by rfl)
      (by rfl)).2.2.1 (by rfl) (by decide) (by decide),
   by rfl⟩

/-! ## Failure of detail acquisition -/

theorem base_cleared_clear (b : MediaSource) : base_cleared b.clear :=
  ⟨rfl, rfl, rfl, rfl⟩

theorem base_cleared_empty (b : MediaSource) (h : base_cleared b) : b.empty = true := by
  obtain ⟨_, _, h3, h4⟩ := h
  simp [MediaSource.empty, h3, h4]

theorem base_cleared_current (b : MediaSource) (h : base_cleared b) (mt : MediaType) :
    (b.current mt).is_null = true := by
  obtain ⟨h1, h2, _, _⟩ := h
  cases mt
  · simp only [MediaSource.current, h1]; rfl
  · simp only [MediaSource.current, h2]; rfl

/-- A failed call on an online source leaves no stream in the map, a cleared base and
the media reference and status it found. -/
theorem acquire_detail_failed (env : Env) (rate : FrameRate) (s : State)
    (honline : s.base_.online = true)
    (hfalse : (acquire_detail env rate s).2.2 = false) :
    (acquire_detail env rate s).1.media_streams_ = [] ∧
    base_cleared (acquire_detail env rate s).1.base_ ∧
    (acquire_detail env rate s).1.base_.media_reference = s.base_.media_reference ∧
    (acquire_detail env rate s).1.base_.media_status = s.base_.media_status := by
  by_cases h1 : s.media_streams_.length ≠ 0
  · simp [acquire_detail, h1] at hfalse
  · have h1z : s.media_streams_.length = 0 := by simpa using h1
    cases hreader : env.media_reader with
    | none =>
      have h : acquire_detail env rate s = ((clear_streams s).1, (clear_streams s).2, false) := by
        simp [acquire_detail, h1z, honline, hreader]
      rw [h]
      exact ⟨rfl, ⟨rfl, rfl, rfl, rfl⟩, rfl, rfl⟩
    | some reader =>
      cases huri : s.base_.media_reference.uri 0 with
      | none =>
        have hmr : (clear_streams s).1.base_.media_reference.uri 0 = none := huri
        have h : acquire_detail env rate s
            = ({ (clear_streams s).1 with
                  base_ := (clear_streams s).1.base_.set_error_detail "Invalid frame index" },
                (clear_streams s).2, false) := by
          simp only [acquire_detail, h1z, honline, hreader, hmr]
          simp
        rw [h]
        exact ⟨rfl, ⟨rfl, rfl, rfl, rfl⟩, rfl, rfl⟩
      | some p =>
        obtain ⟨u, f0⟩ := p
        have hmr : (clear_streams s).1.base_.media_reference.uri 0 = some (u, f0) := huri
        cases hmd : reader u with
        | error err =>
          have h : acquire_detail env rate s
              = ({ (clear_streams s).1 with
                    base_ := (clear_streams s).1.base_.set_error_detail err.to_string },
                  (clear_streams s).2 ++ [Effect.get_media_detail u, Effect.send_changed,
                    Effect.event_change], false) := by
            simp only [acquire_detail, h1z, honline, hreader, hmr, hmd]
            simp
          rw [h]
          exact ⟨rfl, ⟨rfl, rfl, rfl, rfl⟩, rfl, rfl⟩
        | ok md =>
          rw [acquire_detail_probe env rate s reader u f0 md h1z honline hreader huri hmd]
            at hfalse
          cases hfalse

theorem acquire_detail_bad_frame (env : Env) (rate : FrameRate) (s : State)
    (reader : Uri → Except Error MediaDetail)
    (hnone : s.media_streams_.length = 0) (honline : s.base_.online = true)
    (hreader : env.media_reader = some reader)
    (huri : s.base_.media_reference.uri 0 = none) :
    acquire_detail env rate s
      = ({ (clear_streams s).1 with
            base_ := (clear_streams s).1.base_.set_error_detail "Invalid frame index" },
          [], false) := by
  have hmr : (clear_streams s).1.base_.media_reference.uri 0 = none := huri
  have h1n : s.media_streams_ = [] := List.length_eq_zero.mp hnone
  have hfx : (clear_streams s).2 = [] := by simp [clear_streams, h1n]
  simp only [acquire_detail, hnone, honline, hreader, hmr, hfx]
  simp

theorem acquire_detail_reader_error (env : Env) (rate : FrameRate) (s : State)
    (reader : Uri → Except Error MediaDetail) (u : Uri) (f0 : Int) (err : Error)
    (hnone : s.media_streams_.length = 0) (honline : s.base_.online = true)
    (hreader : env.media_reader = some reader)
    (huri : s.base_.media_reference.uri 0 = some (u, f0))
    (hmd : reader u = Except.error err) :
    acquire_detail env rate s
      = ({ (clear_streams s).1 with
            base_ := (clear_streams s).1.base_.set_error_detail err.to_string },
          [Effect.get_media_detail u, Effect.send_changed, Effect.event_change], false) := by
  have hmr : (clear_streams s).1.base_.media_reference.uri 0 = some (u, f0) := huri
  have h1n : s.media_streams_ = [] := List.length_eq_zero.mp hnone
  have hfx : (clear_streams s).2 = [] := by simp [clear_streams, h1n]
  simp only [acquire_detail, hnone, honline, hreader, hmr, hmd, hfx]
  simp

theorem acquire_detail_probes (env : Env) (rate : FrameRate) (s : State)
    (reader : Uri → Except Error MediaDetail) (u : Uri) (f0 : Int)
    (hnone : s.media_streams_.length = 0) (honline : s.base_.online = true)
    (hreader : env.media_reader = some reader)
    (huri : s.base_.media_reference.uri 0 = some (u, f0)) :
    Effect.get_media_detail u ∈ (acquire_detail env rate s).2.1 ∧
    (∀ md, reader u = Except.ok md → (acquire_detail env rate s).2.2 = true) := by
  cases hmd : reader u with
  | error err =>
    rw [acquire_detail_reader_error env rate s reader u f0 err hnone honline hreader huri hmd]
    exact ⟨by simp, fun md h => by cases h⟩
  | ok md =>
    rw [acquire_detail_probe env rate s reader u f0 md hnone honline hreader huri hmd]
    exact ⟨by simp, fun _ _ => rfl⟩

/-- C11 (as stated) fails: a sequence without file-frames, online and without streams.
Logical frame 0 does not resolve, the call delivers false and records "Invalid frame
index"; a later call with a working reader does not probe again: it sends no reader
request and delivers false. -/
theorem C11_unresolved_frame_not_probed_again :
    empty_sequence.base_.media_reference.uri 0 = none ∧
    (acquire_detail (probe_env exr_detail) ⟨29400000⟩ empty_sequence).2.2 = false ∧
    (acquire_detail (probe_env exr_detail) ⟨29400000⟩ empty_sequence).1.base_.error_detail
      = "Invalid frame index" ∧
    (acquire_detail (probe_env exr_detail) ⟨29400000⟩
      (acquire_detail (probe_env exr_detail) ⟨29400000⟩ empty_sequence).1).2.1 = [] ∧
    (acquire_detail (probe_env exr_detail) ⟨29400000⟩
      (acquire_detail (probe_env exr_detail) ⟨29400000⟩ empty_sequence).1).2.2 = false := by
  decide

/-- C11 (amended): on an online source with no streams and a registered reader, when
logical frame 0 does not resolve, or when the reader answers with an error (an exception
thrown by the probe arrives as such an error), acquire-detail delivers false and records
the text of that error in `error_detail`; after every failed call the stream map and the
stream indices of the base are empty and the source is still online, so a later call
takes neither early return. After a reader error the later call sends the reader request
again, and delivers true when it is answered with a detail; after a failed resolution of
logical frame 0 the later call fails at that resolution again and sends no reader
request. -/
theorem C11_reader_failure_all_or_nothing (env : Env) (rate : FrameRate) (s : State)
    (reader : Uri → Except Error MediaDetail)
    (hnone : s.media_streams_.length = 0) (honline : s.base_.online = true)
    (hreader : env.media_reader = some reader) :
    (s.base_.media_reference.uri 0 = none →
      (acquire_detail env rate s).2.2 = false ∧
      (acquire_detail env rate s).1.base_.error_detail = InvalidFrameIndex.to_string ∧
      (∀ (env2 : Env) (rate2 : FrameRate) (reader2 : Uri → Except Error MediaDetail),
        env2.media_reader = some reader2 →
        (acquire_detail env2 rate2 (acquire_detail env rate s).1).2.1 = [] ∧
        (acquire_detail env2 rate2 (acquire_detail env rate s).1).2.2 = false ∧
        (acquire_detail env2 rate2 (acquire_detail env rate s).1).1.base_.error_detail
          = InvalidFrameIndex.to_string)) ∧
    (∀ u f0 err, s.base_.media_reference.uri 0 = some (u, f0) →
      reader u = Except.error err →
      (acquire_detail env rate s).2.2 = false ∧
      (acquire_detail env rate s).1.base_.error_detail = err.to_string ∧
      (∀ (env2 : Env) (rate2 : FrameRate) (reader2 : Uri → Except Error MediaDetail),
        env2.media_reader = some reader2 →
        Effect.get_media_detail u
          ∈ (acquire_detail env2 rate2 (acquire_detail env rate s).1).2.1 ∧
        (∀ md, reader2 u = Except.ok md →
          (acquire_detail env2 rate2 (acquire_detail env rate s).1).2.2 = true))) ∧
    ((acquire_detail env rate s).2.2 = false →
      (acquire_detail env rate s).1.media_streams_ = [] ∧
      (acquire_detail env rate s).1.base_.image_streams = [] ∧
      (acquire_detail env rate s).1.base_.audio_streams = [] ∧
      (acquire_detail env rate s).1.base_.current_image = Uuid.nil ∧
      (acquire_detail env rate s).1.base_.current_audio = Uuid.nil ∧
      (acquire_detail env rate s).1.base_.online = true) := by
  have hafter : (acquire_detail env rate s).2.2 = false →
      (acquire_detail env rate s).1.media_streams_ = [] ∧
      (acquire_detail env rate s).1.base_.image_streams = [] ∧
      (acquire_detail env rate s).1.base_.audio_streams = [] ∧
      (acquire_detail env rate s).1.base_.current_image = Uuid.nil ∧
      (acquire_detail env rate s).1.base_.current_audio = Uuid.nil ∧
      (acquire_detail env rate s).1.base_.online = true := by
    intro hfalse
    obtain ⟨h1, ⟨h2, h3, h4, h5⟩, _, h7⟩ := acquire_detail_failed env rate s honline hfalse
    refine ⟨h1, h4, h5, h2, h3, ?_⟩
    simp only [MediaSource.online] at honline ⊢
    rw [h7]
    exact honline
  refine ⟨?_, ?_, hafter⟩
  · intro huri
    have hfalse : (acquire_detail env rate s).2.2 = false := by
      rw [acquire_detail_bad_frame env rate s reader hnone honline hreader huri]
    refine ⟨hfalse, ?_, ?_⟩
    · rw [acquire_detail_bad_frame env rate s reader hnone honline hreader huri]
      rfl
    · intro env2 rate2 reader2 hreader2
      obtain ⟨h1, _, _, _, _, h6⟩ := hafter hfalse
      obtain ⟨_, _, hmr, _⟩ := acquire_detail_failed env rate s honline hfalse
      rw [acquire_detail_bad_frame env2 rate2 _ reader2 (by rw [h1]; rfl) h6 hreader2
        (by rw [hmr]; exact huri)]
      exact ⟨rfl, rfl, rfl⟩
  · intro u f0 err huri hmd
    have hfalse : (acquire_detail env rate s).2.2 = false := by
      rw [acquire_detail_reader_error env rate s reader u f0 err hnone honline hreader huri hmd]
    refine ⟨hfalse, ?_, ?_⟩
    · rw [acquire_detail_reader_error env rate s reader u f0 err hnone honline hreader huri hmd]
      rfl
    · intro env2 rate2 reader2 hreader2
      obtain ⟨h1, _, _, _, _, h6⟩ := hafter hfalse
      obtain ⟨_, _, hmr, _⟩ := acquire_detail_failed env rate s honline hfalse
      exact acquire_detail_probes env2 rate2 _ reader2 u f0
        (by rw [h1]; rfl) h6 hreader2 (by rw [hmr]; exact huri)

/-- C11 (amended) on S2: the reader answers "Unsupported format"; the call delivers false and
records that text, and a later call with a working reader delivers true. -/
theorem C11_reader_failure_all_or_nothing_witness :
    (acquire_detail (failing_env (Error.xstudio "Unsupported format")) ⟨29400000⟩ s2_fresh).2.2
      = false ∧
    (acquire_detail (failing_env (Error.xstudio "Unsupported format")) ⟨29400000⟩
      s2_fresh).1.base_.error_detail = "Unsupported format" ∧
    (acquire_detail (probe_env exr_detail) ⟨29400000⟩
      (acquire_detail (failing_env (Error.xstudio "Unsupported format")) ⟨29400000⟩
        s2_fresh).1).2.2 = true :=
  ⟨((C11_reader_failure_all_or_nothing (failing_env (Error.xstudio "Unsupported format"))
      ⟨29400000⟩ s2_fresh (fun _ => Except.error (Error.xstudio "Unsupported format"))
      (by rfl) (by rfl) (by rfl)).2.1 ⟨"file:///s.%04d.exr", some 1001⟩ 1001
      (Error.xstudio "Unsupported format") (by rfl) (by rfl)).1,
   ((C11_reader_failure_all_or_nothing (failing_env (Error.xstudio "Unsupported format"))
      ⟨29400000⟩ s2_fresh (fun _ => Except.error (Error.xstudio "Unsupported format"))
      (by rfl) (by rfl) (by rfl)).2.1 ⟨"file:///s.%04d.exr", some 1001⟩ 1001
      (Error.xstudio "Unsupported format") (by rfl) (by rfl)).2.1,
   (((C11_reader_failure_all_or_nothing (failing_env (Error.xstudio "Unsupported format"))
      ⟨29400000⟩ s2_fresh (fun _ => Except.error (Error.xstudio "Unsupported format"))
      (by rfl) (by rfl) (by rfl)).2.1 ⟨"file:///s.%04d.exr", some 1001⟩ 1001
      (Error.xstudio "Unsupported format") (by rfl) (by rfl)).2.2
      (probe_env exr_detail) ⟨29400000⟩ (fun _ => Except.ok exr_detail) (by rfl)).2
      exr_detail (by rfl)⟩

/-! ## Rejected frame requests -/

theorem get_media_pointers_atom_empty (env : Env) (s : State) (mt : MediaType)
    (ranges : List (Int × Int)) (h : s.base_.empty = true) :
    get_media_pointers_atom env s mt ranges
      = Except.error (Error.xstudio
          (if s.base_.error_detail.isEmpty then "No MediaStreams" else s.base_.error_detail)) := by
  unfold get_media_pointers_atom
  rw [if_pos h]
  split_ifs <;> rfl

theorem get_media_pointer_atom_no_current (env : Env) (s : State) (mt : MediaType)
    (logical_frame : Int) (h : (s.base_.current mt).is_null = true) :
    get_media_pointer_atom env s mt logical_frame = Except.error NoStreams := by
  simp [get_media_pointer_atom, h, NoStreams]

theorem get_media_pointer_atom_batch_no_current (env : Env) (s : State) (mt : MediaType)
    (h : (s.base_.current mt).is_null = true) :
    get_media_pointer_atom_batch env s mt = Except.error NoStreams := by
  simp [get_media_pointer_atom_batch, h, NoStreams]

/-- C12 (as stated) fails: after the reader error "Unsupported format" was recorded on
S2, the single-frame request and the whole-source batch fail with "No streams", which
is not the recorded `error_detail`. -/
theorem C12_single_and_batch_report_no_streams :
    (acquire_detail (failing_env (Error.xstudio "Unsupported format")) ⟨29400000⟩ s2_fresh).2.2
      = false ∧
    s2_failed.base_.error_detail = "Unsupported format" ∧
    get_media_pointer_atom s2_env s2_failed MediaType.MT_IMAGE 0
      = Except.error (Error.xstudio "No streams") ∧
    get_media_pointer_atom_batch s2_env s2_failed MediaType.MT_IMAGE
      = Except.error (Error.xstudio "No streams") ∧
    Error.xstudio "No streams" ≠ Error.xstudio s2_failed.base_.error_detail := by
  refine ⟨by rfl, by rfl, by rfl, by rfl, ?_⟩
  decide

/-- C12 (amended): after acquire-detail has failed on an online source and left a
non-empty `error_detail`, every range-list request fails with an error whose message is
that `error_detail`, while every single-frame request and every whole-source batch
fail with NoStreams. -/
theorem C12_error_detail_on_range_request (env : Env) (rate : FrameRate) (s : State)
    (honline : s.base_.online = true)
    (hfalse : (acquire_detail env rate s).2.2 = false)
    (hdetail : (acquire_detail env rate s).1.base_.error_detail.isEmpty = false) :
    ∀ (env2 : Env) (mt : MediaType),
      (∀ ranges, get_media_pointers_atom env2 (acquire_detail env rate s).1 mt ranges
        = Except.error (Error.xstudio (acquire_detail env rate s).1.base_.error_detail)) ∧
      (∀ logical_frame,
        get_media_pointer_atom env2 (acquire_detail env rate s).1 mt logical_frame
          = Except.error NoStreams) ∧
      get_media_pointer_atom_batch env2 (acquire_detail env rate s).1 mt
        = Except.error NoStreams := by
  intro env2 mt
  obtain ⟨_, hclr, _, _⟩ := acquire_detail_failed env rate s honline hfalse
  refine ⟨?_, ?_, ?_⟩
  · intro ranges
    rw [get_media_pointers_atom_empty env2 _ mt ranges (base_cleared_empty _ hclr), hdetail]
    rfl
  · intro logical_frame
    exact get_media_pointer_atom_no_current env2 _ mt logical_frame
      (base_cleared_current _ hclr mt)
  · exact get_media_pointer_atom_batch_no_current env2 _ mt (base_cleared_current _ hclr mt)

/-- C12 (amended) on S2 after the reader error "Unsupported format": the range request
`[[0,4]]` fails with that message. -/
theorem C12_error_detail_on_range_request_witness :
    get_media_pointers_atom s2_env
        (acquire_detail (failing_env (Error.xstudio "Unsupported format")) ⟨29400000⟩
          s2_fresh).1 MediaType.MT_IMAGE [(0, 4)]
      = Except.error (Error.xstudio
          (acquire_detail (failing_env (Error.xstudio "Unsupported format")) ⟨29400000⟩
            s2_fresh).1.base_.error_detail) ∧
    (acquire_detail (failing_env (Error.xstudio "Unsupported format")) ⟨29400000⟩
      s2_fresh).1.base_.error_detail = "Unsupported format" :=
  ⟨((C12_error_detail_on_range_request (failing_env (Error.xstudio "Unsupported format"))
      ⟨29400000⟩ s2_fresh (by rfl) (by rfl) (by rfl)) s2_env MediaType.MT_IMAGE).1 [(0, 4)],
   by rfl⟩

/-- C13 (as stated) fails: the container of S1 after an audio-only probe has zero
frames, yet the whole-source audio batch delivers an empty list, the image range request
`[[0,0]]` delivers one blank sentinel, and the single audio frame request delivers a
descriptor. -/
theorem C13_zero_frames_not_rejected :
    audio_only_state.base_.media_reference.duration.frames = 0 ∧
    get_media_pointer_atom_batch s2_env audio_only_state MediaType.MT_AUDIO = Except.ok [] ∧
    get_media_pointers_atom s2_env audio_only_state MediaType.MT_IMAGE [(0, 0)]
      = Except.ok [FramePtr.blank MediaType.MT_IMAGE] ∧
    (get_media_pointer_atom s2_env audio_only_state MediaType.MT_AUDIO 0).toOption.isSome
      = true := by
  refine ⟨by rfl, by rfl, by rfl, by rfl⟩

/-- C13 (amended): the frame-request paths reject a source without streams, not a
source with zero frames: on a source with no registered stream every range-list request
fails with the recorded `error_detail`, or with "No MediaStreams" when none is recorded;
every single-frame request and every whole-source batch fail with NoStreams when the
media type has no current stream. -/
theorem C13_no_streams_rejected (env : Env) (s : State) (mt : MediaType) :
    (s.base_.empty = true → ∀ ranges,
      get_media_pointers_atom env s mt ranges
        = Except.error (Error.xstudio
            (if s.base_.error_detail.isEmpty then "No MediaStreams"
              else s.base_.error_detail))) ∧
    ((s.base_.current mt).is_null = true →
      (∀ logical_frame, get_media_pointer_atom env s mt logical_frame = Except.error NoStreams) ∧
      get_media_pointer_atom_batch env s mt = Except.error NoStreams) :=
  ⟨fun h ranges => get_media_pointers_atom_empty env s mt ranges h,
   fun h => ⟨fun lf => get_media_pointer_atom_no_current env s mt lf h,
     get_media_pointer_atom_batch_no_current env s mt h⟩⟩

/-- C13 (amended) on S2 before any stream exists: the range request fails with
"No MediaStreams" and the whole-source batch with NoStreams. -/
theorem C13_no_streams_rejected_witness :
    get_media_pointers_atom s2_env s2_fresh MediaType.MT_IMAGE [(0, 4)]
      = Except.error (Error.xstudio "No MediaStreams") ∧
    get_media_pointer_atom_batch s2_env s2_fresh MediaType.MT_IMAGE = Except.error NoStreams :=
  ⟨(C13_no_streams_rejected s2_env s2_fresh MediaType.MT_IMAGE).1 (by rfl) [(0, 4)],
   ((C13_no_streams_rejected s2_env s2_fresh MediaType.MT_IMAGE).2 (by rfl)).2⟩

/-- C14 (as stated) fails: on S2 with its current image stream registered and logical
frame 0 resolving, a failed fetch of the stream detail makes the single-frame request
fail with the error of that fetch. -/
theorem C14_detail_failure_fails_request :
    (s2_state.base_.current MediaType.MT_IMAGE).is_null = false ∧
    stream_at s2_state.media_streams_ (s2_state.base_.current MediaType.MT_IMAGE)
      = some s2_stream ∧
    (s2_state.base_.media_reference.uri 0).isSome = true ∧
    dead_stream_env.stream_detail s2_stream = Except.error (Error.xstudio "stream down") ∧
    get_media_pointer_atom dead_stream_env s2_state MediaType.MT_IMAGE 0
      = Except.error (Error.xstudio "stream down") := by
  refine ⟨by rfl, by rfl, by rfl, by rfl, by rfl⟩

/-- C14 (amended): on a single frame request whose media type has a registered current
stream, if the fetch of that stream's detail fails, the request fails with the error of
that fetch and delivers no descriptor, whatever the logical frame. -/
theorem C14_detail_failure_propagates (env : Env) (s : State) (mt : MediaType)
    (logical_frame : Int) (stream : MediaStreamActor) (err : Error)
    (hcurrent : (s.base_.current mt).is_null = false)
    (hstream : stream_at s.media_streams_ (s.base_.current mt) = some stream)
    (hdetail : env.stream_detail stream = Except.error err) :
    get_media_pointer_atom env s mt logical_frame = Except.error err := by
  simp [get_media_pointer_atom, hcurrent, hstream, hdetail]

/-- C14 (amended) on S2 with a stream actor that does not answer. -/
theorem C14_detail_failure_propagates_witness :
    get_media_pointer_atom dead_stream_env s2_state MediaType.MT_IMAGE 0
      = Except.error (Error.xstudio "stream down") :=
  C14_detail_failure_propagates dead_stream_env s2_state MediaType.MT_IMAGE 0 s2_stream
    (Error.xstudio "stream down") (by rfl) (by rfl) (by rfl)

/-! ## Colour pipeline and first-frame stamp -/

theorem foldl_append_singleton {α β : Type} (f : α → β) (l : List α) (init : List β) :
    l.foldl (fun acc x => acc ++ [f x]) init = init ++ l.map f := by
  induction l generalizing init with
  | nil => simp
  | cons a rest ih => simp [ih]

theorem batch_results_eq (s : State) (mt : MediaType) (detail : StreamDetail)
    (params : JsonStore) (source_uuid : Uuid) :
    batch_results s mt detail params source_uuid
      = s.base_.media_reference.uris.map (fun i =>
          AVFrameID.make i.1 i.2 (deref (s.base_.media_reference.frame 0))
            s.base_.media_reference.rate detail.name_ detail.key_format_ s.base_.reader
            s.self params source_uuid s.parent_uuid_ mt) := by
  unfold batch_results
  rw [foldl_append_singleton]
  simp

/-- C15: for an image request whose current stream is registered and answers with its
detail, let the colour-pipeline fetch fail. A single-frame request then delivers a
descriptor whenever the same request with a successful colour-pipeline fetch delivers
one, and the whole-source batch always delivers; every delivered descriptor carries an
empty JSON document and a nil stream uuid, and agrees with the descriptor of the
successful fetch in uri, file-frame, first-frame stamp, rate, stream name, key format,
reader tag, parent uuid and media type. -/
theorem C15_colour_pipeline_failure (env : Env) (s : State) (stream : MediaStreamActor)
    (detail : StreamDetail) (e : Error) (cp : JsonStore)
    (hcurrent : (s.base_.current MediaType.MT_IMAGE).is_null = false)
    (hstream : stream_at s.media_streams_ (s.base_.current MediaType.MT_IMAGE) = some stream)
    (hdetail : env.stream_detail stream = Except.ok detail)
    (hcp : env.colour_pipeline = Except.error e) :
    (∀ logical_frame d_ok,
      get_media_pointer_atom { env with colour_pipeline := Except.ok cp } s
          MediaType.MT_IMAGE logical_frame = Except.ok d_ok →
      ∃ d, get_media_pointer_atom env s MediaType.MT_IMAGE logical_frame = Except.ok d ∧
        same_but_colour d d_ok) ∧
    (∃ l l_ok,
      get_media_pointer_atom_batch env s MediaType.MT_IMAGE = Except.ok l ∧
      get_media_pointer_atom_batch { env with colour_pipeline := Except.ok cp } s
          MediaType.MT_IMAGE = Except.ok l_ok ∧
      List.Forall₂ same_but_colour l l_ok) := by
  refine ⟨?_, ?_⟩
  · intro logical_frame d_ok hok
    cases huri : s.base_.media_reference.uri logical_frame with
    | none =>
      simp [get_media_pointer_atom, hcurrent, hstream, hdetail, huri] at hok
    | some p =>
      obtain ⟨u, ff⟩ := p
      simp only [get_media_pointer_atom, hcurrent, hstream, hdetail, huri, if_true,
        Bool.false_eq_true, if_false] at hok
      injection hok with hok
      refine ⟨AVFrameID.make u ff (deref (s.base_.media_reference.frame 0))
        s.base_.media_reference.rate detail.name_ detail.key_format_ s.base_.reader
        s.self JsonStore.empty Uuid.nil s.parent_uuid_ MediaType.MT_IMAGE, ?_, ?_⟩
      · simp [get_media_pointer_atom, hcurrent, hstream, hdetail, huri, hcp]
      · rw [← hok]
        exact ⟨rfl, rfl, rfl, rfl, rfl, rfl, rfl, rfl, rfl, rfl, rfl⟩
  · refine ⟨batch_results s MediaType.MT_IMAGE detail JsonStore.empty Uuid.nil,
      batch_results s MediaType.MT_IMAGE detail cp (s.base_.current MediaType.MT_IMAGE),
      ?_, ?_, ?_⟩
    · simp [get_media_pointer_atom_batch, hcurrent, hstream, hdetail, hcp]
    · simp [get_media_pointer_atom_batch, hcurrent, hstream, hdetail]
    · rw [batch_results_eq, batch_results_eq, List.forall₂_map_left_iff,
        List.forall₂_map_right_iff, List.forall₂_same]
      intro x _
      exact ⟨rfl, rfl, rfl, rfl, rfl, rfl, rfl, rfl, rfl, rfl, rfl⟩

/-- C15 on S2 without a `/colour_pipeline` entry: the single-frame request for logical
frame 0 delivers a descriptor with an empty JSON document, a nil stream uuid and
file-frame 1001. -/
theorem C15_colour_pipeline_failure_witness :
    (get_media_pointer_atom no_colour_env s2_state MediaType.MT_IMAGE 0).toOption.map
        (fun d => (d.params_, d.source_uuid_, d.frame_))
      = some (JsonStore.empty, Uuid.nil, 1001) := by
  obtain ⟨d, hd, h1, h2, _, h4, _⟩ :=
    (C15_colour_pipeline_failure no_colour_env s2_state s2_stream
      ⟨"stream 0", ⟨5, ⟨29400000⟩⟩, MediaType.MT_IMAGE, "key"⟩
      (Error.xstudio "no such path") ⟨some ""⟩ (by rfl) (by rfl) (by rfl) (by rfl)).1 0
      (AVFrameID.make ⟨"file:///s.%04d.exr", some 1001⟩ 1001 1001 ⟨29400000⟩ "stream 0" "key"
        "OpenEXR" 1 ⟨some ""⟩ ⟨7⟩ Uuid.nil MediaType.MT_IMAGE) (by rfl)
  rw [hd]
  simp only [Except.toOption, Option.map_some', h1, h2, h4]
  rfl

theorem get_media_pointer_atom_audio_params (env : Env) (s : State) (logical_frame : Int)
    (d : AVFrameID)
    (h : get_media_pointer_atom env s MediaType.MT_AUDIO logical_frame = Except.ok d) :
    d.params_ = JsonStore.empty := by
  unfold get_media_pointer_atom at h
  split at h
  · cases h
  · split at h
    · cases h
    · split at h
      · cases h
      · split at h
        · cases h
        · simp only [reduceCtorEq, if_false] at h
          injection h with h
          rw [← h]
          rfl

theorem get_media_pointer_atom_batch_audio_params (env : Env) (s : State)
    (l : List AVFrameID)
    (h : get_media_pointer_atom_batch env s MediaType.MT_AUDIO = Except.ok l) :
    ∀ d ∈ l, d.params_ = JsonStore.empty := by
  unfold get_media_pointer_atom_batch at h
  split at h
  · cases h
  · split at h
    · cases h
    · split at h
      · cases h
      · simp only [reduceCtorEq, if_false] at h
        injection h with h
        rw [← h, batch_results_eq]
        intro d hd
        obtain ⟨i, _, hi⟩ := List.mem_map.mp hd
        rw [← hi]
        rfl

/-- C16: on the two-frame movie with a current audio stream and a `/colour_pipeline`
entry holding "view=Rec709", the audio range request `[[0,1]]` delivers two descriptors
that carry that entry, whereas the single audio frame request and the whole-source audio
batch deliver descriptors with an empty JSON document. -/
theorem C16_audio_range_carries_colour_pipeline :
    (get_media_pointers_atom graded_env av_state MediaType.MT_AUDIO [(0, 1)]).toOption.map
        (fun l => l.map (fun p => match p with
          | FramePtr.blank _ => none
          | FramePtr.frame d => some d.params_))
      = some [some ⟨some "view=Rec709"⟩, some ⟨some "view=Rec709"⟩] ∧
    (get_media_pointer_atom graded_env av_state MediaType.MT_AUDIO 0).toOption.map
        (fun d => d.params_) = some JsonStore.empty ∧
    (get_media_pointer_atom_batch graded_env av_state MediaType.MT_AUDIO).toOption.map
        (fun l => l.map (fun d => d.params_)) = some [JsonStore.empty, JsonStore.empty] := by
  refine ⟨by rfl, by rfl, by rfl⟩

theorem get_media_pointer_atom_stamp (env : Env) (s : State) (mt : MediaType)
    (logical_frame : Int) (d : AVFrameID)
    (h : get_media_pointer_atom env s mt logical_frame = Except.ok d) :
    (∃ p, s.base_.media_reference.uri logical_frame = some p) ∧
    d.first_frame_ = deref (s.base_.media_reference.frame 0) := by
  unfold get_media_pointer_atom at h
  split at h
  · cases h
  · split at h
    · cases h
    · split at h
      · cases h
      · split at h
        · cases h
        · rename_i u frame huri
          refine ⟨⟨_, huri⟩, ?_⟩
          split at h
          · split at h <;>
            · injection h with h
              rw [← h]
              rfl
          · injection h with h
            rw [← h]
            rfl

theorem get_media_pointer_atom_batch_stamp (env : Env) (s : State) (mt : MediaType)
    (l : List AVFrameID) (h : get_media_pointer_atom_batch env s mt = Except.ok l) :
    ∀ d ∈ l, (∃ p, p ∈ s.base_.media_reference.uris) ∧
      d.first_frame_ = deref (s.base_.media_reference.frame 0) := by
  unfold get_media_pointer_atom_batch at h
  have key : ∀ (detail : StreamDetail) (params : JsonStore) (u : Uuid),
      ∀ d ∈ batch_results s mt detail params u,
        (∃ p, p ∈ s.base_.media_reference.uris) ∧
        d.first_frame_ = deref (s.base_.media_reference.frame 0) := by
    intro detail params u d hd
    rw [batch_results_eq] at hd
    obtain ⟨i, hi, hd⟩ := List.mem_map.mp hd
    exact ⟨⟨i, hi⟩, by rw [← hd]; rfl⟩
  split at h
  · cases h
  · split at h
    · cases h
    · split at h
      · cases h
      · split at h
        · split at h <;>
          · injection h with h
            rw [← h]
            exact key _ _ _
        · injection h with h
          rw [← h]
          exact key _ _ _

theorem get_media_pointers_atom_shape (env : Env) (s : State) (mt : MediaType)
    (ranges : List (Int × Int)) (res : List FramePtr)
    (hres : get_media_pointers_atom env s mt ranges = Except.ok res) :
    res = (requested_frames ranges).map (fun _ => FramePtr.blank mt) ∨
    ∃ cp detail, res = (requested_frames ranges).map (describe s mt cp detail) := by
  unfold get_media_pointers_atom at hres
  split at hres
  · split at hres <;> cases hres
  · unfold get_media_pointers_for_frames at hres
    split at hres
    · rw [blank_loop_spec] at hres
      injection hres with hres
      left
      simpa using hres.symm
    · split at hres
      · cases hres
      · rename_i cp _
        split at hres
        · cases hres
        · split at hres
          · cases hres
          · rename_i detail _
            injection hres with hres
            rw [(outer_loop_spec s mt cp detail ranges ([], none) (Or.inl rfl)).1] at hres
            right
            exact ⟨cp, detail, by simpa using hres.symm⟩

theorem describe_stamp (s : State) (mt : MediaType) (cp : JsonStore) (detail : StreamDetail)
    (f : Int) (d : AVFrameID) (h : describe s mt cp detail f = FramePtr.frame d) :
    (∃ p, s.base_.media_reference.uri f = some p) ∧
    d.first_frame_ = deref (s.base_.media_reference.frame 0) ∧ d.params_ = cp := by
  unfold describe at h
  split at h
  · cases h
  · rename_i u frame huri
    injection h with h
    exact ⟨⟨_, huri⟩, by rw [← h]; rfl, by rw [← h]; rfl⟩

theorem uris_mem_frame_zero (mr : MediaReference) (p : Uri × Int) (h : p ∈ mr.uris) :
    ∃ f0, mr.frame 0 = some f0 := by
  by_cases hc : mr.container = true
  · exact ⟨0, by simp [MediaReference.frame, hc]⟩
  · have hseq : mr.container = false := by simpa using hc
    apply sequence_frame_zero mr hseq
    intro hnil
    simp [MediaReference.uris, hseq, hnil] at h

/-- C17: every descriptor delivered by a single-frame request, by a whole-source batch,
and every non-blank entry delivered by a range-list request carries as first-frame
stamp the file-frame of logical frame 0, `media_reference.frame(0)`, which is defined
whenever such a descriptor is delivered. -/
theorem C17_first_frame_stamp (env : Env) (s : State) (mt : MediaType) :
    (∀ logical_frame d, get_media_pointer_atom env s mt logical_frame = Except.ok d →
      s.base_.media_reference.frame 0 = some d.first_frame_) ∧
    (∀ l, get_media_pointer_atom_batch env s mt = Except.ok l →
      ∀ d ∈ l, s.base_.media_reference.frame 0 = some d.first_frame_) ∧
    (∀ ranges res, get_media_pointers_atom env s mt ranges = Except.ok res →
      ∀ d, FramePtr.frame d ∈ res →
        s.base_.media_reference.frame 0 = some d.first_frame_) := by
  refine ⟨?_, ?_, ?_⟩
  · intro logical_frame d h
    obtain ⟨⟨p, hp⟩, hstamp⟩ := get_media_pointer_atom_stamp env s mt logical_frame d h
    obtain ⟨f0, hf0⟩ := frame_zero_of_uri _ _ p hp
    rw [hstamp, hf0]
    rfl
  · intro l h d hd
    obtain ⟨⟨p, hp⟩, hstamp⟩ := get_media_pointer_atom_batch_stamp env s mt l h d hd
    obtain ⟨f0, hf0⟩ := uris_mem_frame_zero _ p hp
    rw [hstamp, hf0]
    rfl
  · intro ranges res h d hd
    rcases get_media_pointers_atom_shape env s mt ranges res h with hb | ⟨cp, detail, hr⟩
    · rw [hb] at hd
      obtain ⟨f, _, hf⟩ := List.mem_map.mp hd
      cases hf
    · rw [hr] at hd
      obtain ⟨f, _, hf⟩ := List.mem_map.mp hd
      obtain ⟨⟨p, hp⟩, hstamp, _⟩ := describe_stamp s mt cp detail f d hf
      obtain ⟨f0, hf0⟩ := frame_zero_of_uri _ _ p hp
      rw [hstamp, hf0]
      rfl

/-- C17 on S2: the descriptor of logical frame 4 (file-frame 1005) carries the stamp
1001, the file-frame of logical frame 0. -/
theorem C17_first_frame_stamp_witness :
    s2_state.base_.media_reference.frame 0 = some 1001 ∧
    (get_media_pointer_atom s2_env s2_state MediaType.MT_IMAGE 4).toOption.map
        (fun d => (d.frame_, d.first_frame_)) = some (1005, 1001) :=
  ⟨(C17_first_frame_stamp s2_env s2_state MediaType.MT_IMAGE).1 4
      (AVFrameID.make ⟨"file:///s.%04d.exr", some 1005⟩ 1005 1001 ⟨29400000⟩ "stream 0" "key"
        "OpenEXR" 1 ⟨some ""⟩ ⟨7⟩ Uuid.nil MediaType.MT_IMAGE) (by rfl),
   by rfl⟩

/-! ## Cache keys -/

theorem deliver_frames_media_keys_ok (env : Env) (s : State) (mt : MediaType)
    (logical_frames : List Int) (stream : MediaStreamActor) (detail : StreamDetail)
    (hne : s.base_.empty = false)
    (hcurrent : (s.base_.current mt).is_null = false)
    (hstream : stream_at s.media_streams_ (s.base_.current mt) = some stream)
    (hdetail : env.stream_detail stream = Except.ok detail) :
    deliver_frames_media_keys env s mt logical_frames
      = Except.ok (if logical_frames.isEmpty then
          s.base_.media_reference.uris.map
            (fun u => MediaKey.mk detail.key_format_ u.1 u.2 detail.name_)
        else logical_frames.map (key_for s detail)) := by
  have hloop : ∀ (l : List Int) (init : List MediaKey),
      l.foldl (fun result logical_frame =>
          match s.base_.media_reference.uri logical_frame with
          | some (u, frame) => result ++ [MediaKey.mk detail.key_format_ u frame detail.name_]
          | none => result ++ [MediaKey.empty]) init
        = init ++ l.map (key_for s detail) := by
    intro l
    induction l with
    | nil => intro init; simp
    | cons a rest ih =>
      intro init
      rw [List.foldl_cons, ih]
      cases hu : s.base_.media_reference.uri a with
      | none => simp [key_for, hu]
      | some p => obtain ⟨u, f⟩ := p; simp [key_for, hu]
  simp only [deliver_frames_media_keys, hne, hcurrent, hstream, hdetail, Bool.false_eq_true,
    if_false]
  split_ifs
  · rw [foldl_append_singleton]
    simp
  · rw [hloop]
    simp

theorem uris_getElem_uri (mr : MediaReference) (k : Nat) (p : Uri × Int)
    (h : mr.uris[k]? = some p) : mr.uri (k : Int) = some p := by
  by_cases hc : mr.container = true
  · simp only [MediaReference.uris, hc, if_true, List.getElem?_map] at h
    cases hr : (List.range mr.duration.frames.toNat)[k]? with
    | none => simp [hr] at h
    | some j =>
      rw [hr] at h
      have hj : j = k := by
        have hlt : k < (List.range mr.duration.frames.toNat).length := by
          by_contra hcon
          rw [List.getElem?_eq_none (Nat.le_of_not_lt hcon)] at hr
          cases hr
        rw [List.length_range] at hlt
        rw [List.getElem?_range hlt] at hr
        injection hr with hr
        exact hr.symm
      subst hj
      simp only [Option.map_some', Option.some.injEq] at h
      simp [MediaReference.uri, MediaReference.frame, hc, ← h]
  · have hseq : mr.container = false := by simpa using hc
    simp only [MediaReference.uris, hseq, Bool.false_eq_true, if_false,
      List.getElem?_map] at h
    cases hf : mr.frame_list.frames[k]? with
    | none => simp [hf] at h
    | some f =>
      rw [hf] at h
      simp only [Option.map_some', Option.some.injEq] at h
      have hk : ¬ ((k : Int) < 0) := by omega
      simp [MediaReference.uri, MediaReference.frame, hseq, hf, hk, ← h]

/-- C18 (as stated) fails: on S2 the positional lookup with the empty list of logical
frames delivers five keys, not zero. -/
theorem C18_empty_list_delivers_all_keys :
    s2_state.base_.empty = false ∧
    (s2_state.base_.current MediaType.MT_IMAGE).is_null = false ∧
    (keys_atom_frames s2_env s2_state MediaType.MT_IMAGE []).toOption.map List.length
      = some 5 ∧
    ([] : List Int).length = 0 := by
  refine ⟨by rfl, by rfl, by rfl, by rfl⟩

/-- C18 (amended): on a non-empty source whose media type has a registered current
stream answering with its detail, the positional lookup with a non-empty list of logical
frames delivers a key vector of the same length; its i-th element is
`MediaKey(key_format, uri, file_frame, stream_name)` for the uri and file-frame that
`media_reference.uri(frames[i])` returns, and the empty key when that resolution
fails. -/
theorem C18_positional_keys (env : Env) (s : State) (mt : MediaType)
    (logical_frames : List Int) (stream : MediaStreamActor) (detail : StreamDetail)
    (hne : s.base_.empty = false)
    (hcurrent : (s.base_.current mt).is_null = false)
    (hstream : stream_at s.media_streams_ (s.base_.current mt) = some stream)
    (hdetail : env.stream_detail stream = Except.ok detail)
    (hframes : logical_frames ≠ []) :
    ∃ keys, keys_atom_frames env s mt logical_frames = Except.ok keys ∧
      keys.length = logical_frames.length ∧
      ∀ (i : Nat) (logical_frame : Int), logical_frames[i]? = some logical_frame →
        (∀ u ff, s.base_.media_reference.uri logical_frame = some (u, ff) →
          keys[i]? = some (MediaKey.mk detail.key_format_ u ff detail.name_)) ∧
        (s.base_.media_reference.uri logical_frame = none →
          keys[i]? = some MediaKey.empty) := by
  have hnot : logical_frames.isEmpty = false := by
    cases logical_frames with
    | nil => exact absurd rfl hframes
    | cons a rest => rfl
  refine ⟨logical_frames.map (key_for s detail), ?_, by simp, ?_⟩
  · rw [keys_atom_frames,
      deliver_frames_media_keys_ok env s mt logical_frames stream detail hne hcurrent hstream
        hdetail, hnot]
    rfl
  · intro i logical_frame hi
    rw [List.getElem?_map, hi]
    refine ⟨?_, ?_⟩
    · intro u ff hu
      simp [key_for, hu]
    · intro hu
      simp [key_for, hu]

/-- C18 (amended) on S2: the list `[4, 7, 0]` gives three keys, for file-frames 1005
and 1001 at the ends and the empty key in the middle. -/
theorem C18_positional_keys_witness :
    (keys_atom_frames s2_env s2_state MediaType.MT_IMAGE [4, 7, 0]).toOption.map List.length
      = some 3 ∧
    keys_atom_frames s2_env s2_state MediaType.MT_IMAGE [4, 7, 0]
      = Except.ok [⟨"key", ⟨"file:///s.%04d.exr", some 1005⟩, 1005, "stream 0"⟩,
          MediaKey.empty,
          ⟨"key", ⟨"file:///s.%04d.exr", some 1001⟩, 1001, "stream 0"⟩] := by
  obtain ⟨keys, hk, hlen, _⟩ := C18_positional_keys s2_env s2_state MediaType.MT_IMAGE
    [4, 7, 0] s2_stream ⟨"stream 0", ⟨5, ⟨29400000⟩⟩, MediaType.MT_IMAGE, "key"⟩
    (by rfl) (by rfl) (by rfl) (by rfl) (by decide)
  refine ⟨?_, by rfl⟩
  rw [hk]
  simp only [Except.toOption, Option.map_some', hlen]
  rfl

/-- C19 (as stated) fails: S2 is a non-empty source with a current image stream, yet when
that stream does not answer the request for its detail, Keys(IMAGE) delivers the error
of that request and no key. -/
theorem C19_detail_failure_delivers_no_keys :
    s2_state.base_.empty = false ∧
    (s2_state.base_.current MediaType.MT_IMAGE).is_null = false ∧
    stream_at s2_state.media_streams_ (s2_state.base_.current MediaType.MT_IMAGE)
      = some s2_stream ∧
    s2_state.base_.media_reference.uris.length = 5 ∧
    keys_atom_type dead_stream_env s2_state MediaType.MT_IMAGE
      = Except.error (Error.xstudio "stream down") := by
  refine ⟨by rfl, by rfl, by rfl, by rfl, by rfl⟩

/-- C19 (amended): on a non-empty source whose media type has a registered current stream
answering with its detail, the keys of the whole media type are delivered, one per
element of `media_reference.uris()` and in that order, the k-th being
`MediaKey(key_format, uri_k, file_frame_k, stream_name)`; and whenever
`media_reference.uri(k)` returns the k-th element of `uris()`, the single-key lookup for
logical frame `k` delivers exactly the k-th key. -/
theorem C19_keys_of_media_type (env : Env) (s : State) (mt : MediaType)
    (stream : MediaStreamActor) (detail : StreamDetail)
    (hne : s.base_.empty = false)
    (hcurrent : (s.base_.current mt).is_null = false)
    (hstream : stream_at s.media_streams_ (s.base_.current mt) = some stream)
    (hdetail : env.stream_detail stream = Except.ok detail) :
    ∃ keys, keys_atom_type env s mt = Except.ok keys ∧
      keys.length = s.base_.media_reference.uris.length ∧
      (∀ (k : Nat) (p : Uri × Int), s.base_.media_reference.uris[k]? = some p →
        keys[k]? = some (MediaKey.mk detail.key_format_ p.1 p.2 detail.name_)) ∧
      (∀ (k : Nat) (p : Uri × Int) (key : MediaKey),
        s.base_.media_reference.uris[k]? = some p →
        s.base_.media_reference.uri (k : Int) = some p → keys[k]? = some key →
        keys_atom_frame env s mt (k : Int) = Except.ok key) := by
  refine ⟨s.base_.media_reference.uris.map
      (fun u => MediaKey.mk detail.key_format_ u.1 u.2 detail.name_), ?_, by simp, ?_, ?_⟩
  · rw [keys_atom_type,
      deliver_frames_media_keys_ok env s mt [] stream detail hne hcurrent hstream hdetail]
    rfl
  · intro k p hp
    rw [List.getElem?_map, hp]
    rfl
  · intro k p key hp hu hkey
    rw [List.getElem?_map, hp] at hkey
    simp only [Option.map_some', Option.some.injEq] at hkey
    rw [keys_atom_frame, keys_atom_frames,
      deliver_frames_media_keys_ok env s mt [(k : Int)] stream detail hne hcurrent hstream
        hdetail]
    obtain ⟨u, ff⟩ := p
    simp [key_for, hu, ← hkey]

/-- C19 (amended) on S2: the image keys are those of file-frames 1001..1005, and the single key
of logical frame 2 is the third of them. -/
theorem C19_keys_of_media_type_witness :
    (keys_atom_type s2_env s2_state MediaType.MT_IMAGE).toOption.map
        (fun l => l.map (fun k => k.file_frame)) = some [1001, 1002, 1003, 1004, 1005] ∧
    keys_atom_frame s2_env s2_state MediaType.MT_IMAGE 2
      = Except.ok ⟨"key", ⟨"file:///s.%04d.exr", some 1003⟩, 1003, "stream 0"⟩ := by
  obtain ⟨keys, hk, _, _, hsingle⟩ := C19_keys_of_media_type s2_env s2_state
    MediaType.MT_IMAGE s2_stream ⟨"stream 0", ⟨5, ⟨29400000⟩⟩, MediaType.MT_IMAGE, "key"⟩
    (by rfl) (by rfl) (by rfl) (by rfl)
  refine ⟨by rfl, ?_⟩
  have hall : keys_atom_type s2_env s2_state MediaType.MT_IMAGE
      = Except.ok (s2_state.base_.media_reference.uris.map
          (fun u => MediaKey.mk "key" u.1 u.2 "stream 0")) := by rfl
  rw [hall] at hk
  injection hk with hk
  exact hsingle 2 (⟨"file:///s.%04d.exr", some 1003⟩, 1003) _ (by rfl) (by rfl)
    (by rw [← hk]; rfl)

/-- C20: on the two-frame movie with a current image stream "video" and a current audio
stream "audio" and both caches registered, the key list sent to the caches holds the two
keys of the image stream only; the two keys of the audio stream, which the audio key
lookup delivers, are not in it; the reply is the concatenation of what the caches
report erased. -/
theorem C20_invalidate_cache_sends_image_keys_only :
    (av_state.base_.current MediaType.MT_IMAGE).is_null = false ∧
    (av_state.base_.current MediaType.MT_AUDIO).is_null = false ∧
    (invalidate_cache_atom cache_env av_state).1
      = some [⟨"img", ⟨"file:///m.mov", none⟩, 0, "video"⟩,
          ⟨"img", ⟨"file:///m.mov", none⟩, 1, "video"⟩] ∧
    keys_atom_type cache_env av_state MediaType.MT_AUDIO
      = Except.ok [⟨"aud", ⟨"file:///m.mov", none⟩, 0, "audio"⟩,
          ⟨"aud", ⟨"file:///m.mov", none⟩, 1, "audio"⟩] ∧
    (invalidate_cache_atom cache_env av_state).2
      = Except.ok [⟨"img", ⟨"file:///m.mov", none⟩, 0, "video"⟩,
          ⟨"img", ⟨"file:///m.mov", none⟩, 1, "video"⟩] := by
  refine ⟨by rfl, by rfl, by rfl, by rfl, by rfl⟩

/-! ## Cache invalidation, single keys, thumbnails, single-frame probe -/

/-- C21 (as stated) fails: on S2 before any stream exists and with no cache registered,
invalidate-cache delivers the error "No MediaStreams" of the key request, not an empty
key vector. -/
theorem C21_no_streams_gives_error :
    s2_env.image_cache.isNone = true ∧ s2_env.audio_cache.isNone = true ∧
    s2_fresh.media_streams_ = [] ∧
    (invalidate_cache_atom s2_env s2_fresh).2
      = Except.error (Error.xstudio "No MediaStreams") := by
  refine ⟨by rfl, by rfl, by rfl, by rfl⟩

/-- C21 (amended): with neither the image cache nor the audio cache registered,
invalidate-cache sends no erase request; it delivers an empty key vector whenever the
request for the source's keys is answered with keys, and the error of that request
otherwise. -/
theorem C21_no_cache_registered (env : Env) (s : State)
    (himage : env.image_cache = none) (haudio : env.audio_cache = none) :
    (∀ keys, keys_atom env s = Except.ok keys →
      invalidate_cache_atom env s = (none, Except.ok [])) ∧
    (∀ err, keys_atom env s = Except.error err →
      invalidate_cache_atom env s = (none, Except.error err)) := by
  have hnone : (registered_caches env).isEmpty = true := by
    simp [registered_caches, himage, haudio]
  refine ⟨?_, ?_⟩
  · intro keys hk
    simp [invalidate_cache_atom, hk, hnone]
  · intro err hk
    simp [invalidate_cache_atom, hk]

/-- C21 (amended) on S2 with its stream registered and no cache registered: the reply
is the empty key vector. -/
theorem C21_no_cache_registered_witness :
    invalidate_cache_atom s2_env s2_state = (none, Except.ok []) :=
  (C21_no_cache_registered s2_env s2_state (by rfl) (by rfl)).1
    (s2_state.base_.media_reference.uris.map
      (fun u => MediaKey.mk "key" u.1 u.2 "stream 0")) (by rfl)

theorem sequence_uri_out_of_range (mr : MediaReference) (hseq : mr.container = false)
    (logical_frame : Int)
    (h : logical_frame < 0 ∨ (mr.frame_list.frames.length : Int) ≤ logical_frame) :
    mr.uri logical_frame = none := by
  by_cases hneg : logical_frame < 0
  · simp [MediaReference.uri, MediaReference.frame, hseq, hneg]
  · have hlen : mr.frame_list.frames.length ≤ logical_frame.toNat := by omega
    simp [MediaReference.uri, MediaReference.frame, hseq, hneg,
      List.getElem?_eq_none hlen]

/-- C30 (as stated) fails: on the two-frame movie, a container with a current image
stream, the single-key lookup for the logical frames 999999 and -5, both outside
`[0, 2)`, delivers the key of the container uri at that file-frame, not the empty key;
and on S2, when the current stream does not answer the request for its detail, the
lookup for 999999 fails with the error of that request. -/
theorem C30_container_key_outside_frames :
    av_state.base_.media_reference.container = true ∧
    av_state.base_.media_reference.frame_count = 2 ∧
    keys_atom_frame s2_env av_state MediaType.MT_IMAGE 999999
      = Except.ok ⟨"img", ⟨"file:///m.mov", none⟩, 999999, "video"⟩ ∧
    keys_atom_frame s2_env av_state MediaType.MT_IMAGE (-5)
      = Except.ok ⟨"img", ⟨"file:///m.mov", none⟩, -5, "video"⟩ ∧
    (⟨"img", ⟨"file:///m.mov", none⟩, 999999, "video"⟩ : MediaKey) ≠ MediaKey.empty ∧
    keys_atom_frame dead_stream_env s2_state MediaType.MT_IMAGE 999999
      = Except.error (Error.xstudio "stream down") := by
  refine ⟨by rfl, by rfl, by rfl, by rfl, by decide, by rfl⟩

/-- C30 (amended): on a non-empty source whose media type has a registered current
stream. When the stream answers with its detail, the single-key lookup for any logical
frame delivers a key, the first element of the positional reply to the one-element list:
the key of the uri and file-frame that `media_reference.uri` returns when it resolves the
frame (on a container, the container uri at file-frame `logical_frame`, whatever the
frame), and the empty `MediaKey` when it does not (on a sequence, every logical frame
outside the frame list); the lookup does not fail with InvalidFrameIndex. When the
stream answers with an error, the lookup fails with that error. -/
theorem C30_single_key_never_invalid_index (env : Env) (s : State) (mt : MediaType)
    (logical_frame : Int) (stream : MediaStreamActor)
    (hne : s.base_.empty = false)
    (hcurrent : (s.base_.current mt).is_null = false)
    (hstream : stream_at s.media_streams_ (s.base_.current mt) = some stream) :
    (∀ detail, env.stream_detail stream = Except.ok detail →
      keys_atom_frames env s mt [logical_frame] = Except.ok [key_for s detail logical_frame] ∧
      keys_atom_frame env s mt logical_frame = Except.ok (key_for s detail logical_frame) ∧
      (∀ u ff, s.base_.media_reference.uri logical_frame = some (u, ff) →
        keys_atom_frame env s mt logical_frame
          = Except.ok (MediaKey.mk detail.key_format_ u ff detail.name_)) ∧
      (s.base_.media_reference.container = true →
        keys_atom_frame env s mt logical_frame
          = Except.ok (MediaKey.mk detail.key_format_ s.base_.media_reference.uri_
              logical_frame detail.name_)) ∧
      (s.base_.media_reference.uri logical_frame = none →
        keys_atom_frame env s mt logical_frame = Except.ok MediaKey.empty) ∧
      (s.base_.media_reference.container = false →
        (logical_frame < 0 ∨
          (s.base_.media_reference.frame_list.frames.length : Int) ≤ logical_frame) →
        keys_atom_frame env s mt logical_frame = Except.ok MediaKey.empty) ∧
      keys_atom_frame env s mt logical_frame ≠ Except.error InvalidFrameIndex) ∧
    (∀ err, env.stream_detail stream = Except.error err →
      keys_atom_frame env s mt logical_frame = Except.error err) := by
  refine ⟨?_, ?_⟩
  · intro detail hdetail
    have hlist : keys_atom_frames env s mt [logical_frame]
        = Except.ok [key_for s detail logical_frame] := by
      rw [keys_atom_frames,
        deliver_frames_media_keys_ok env s mt [logical_frame] stream detail hne hcurrent
          hstream hdetail]
      rfl
    have hsingle : keys_atom_frame env s mt logical_frame
        = Except.ok (key_for s detail logical_frame) := by
      rw [keys_atom_frame, hlist]
    have hresolved : ∀ u ff, s.base_.media_reference.uri logical_frame = some (u, ff) →
        keys_atom_frame env s mt logical_frame
          = Except.ok (MediaKey.mk detail.key_format_ u ff detail.name_) := by
      intro u ff hu
      rw [hsingle]
      simp [key_for, hu]
    have hempty : s.base_.media_reference.uri logical_frame = none →
        keys_atom_frame env s mt logical_frame = Except.ok MediaKey.empty := by
      intro hu
      rw [hsingle]
      simp [key_for, hu]
    refine ⟨hlist, hsingle, hresolved, ?_, hempty, ?_, ?_⟩
    · intro hc
      exact hresolved _ _ (by simp [MediaReference.uri, MediaReference.frame, hc])
    · intro hseq hout
      exact hempty (sequence_uri_out_of_range _ hseq logical_frame hout)
    · rw [hsingle]
      intro hcon
      cases hcon
  · intro err herr
    simp [keys_atom_frame, keys_atom_frames, deliver_frames_media_keys, hne, hcurrent,
      hstream, herr]

/-- C30 (amended) on S2: the single-key lookup for logical frame 999999 delivers the
empty key. -/
theorem C30_single_key_never_invalid_index_witness :
    keys_atom_frame s2_env s2_state MediaType.MT_IMAGE 999999 = Except.ok MediaKey.empty :=
  ((C30_single_key_never_invalid_index s2_env s2_state MediaType.MT_IMAGE 999999 s2_stream
    (by rfl) (by rfl) (by rfl)).1
    ⟨"stream 0", ⟨5, ⟨29400000⟩⟩, MediaType.MT_IMAGE, "key"⟩ (by rfl)).2.2.2.2.2.1
    (by rfl) (by decide)

/-- C29 (as stated) fails: the container of S1, which has zero frames, with an image
stream registered through add-stream. The thumbnail handler requests logical frame 0,
the single-frame request resolves it on the container, and the requester receives the
rendered buffer, not an error reply with a null buffer. -/
theorem C29_zero_frames_thumbnail_rendered :
    zero_frame_movie.base_.media_reference.frame_count = 0 ∧
    (get_thumbnail_atom s2_env s2_thumbnails zero_frame_movie 0 ⟨9⟩).1 = 0 ∧
    (get_thumbnail_atom s2_env s2_thumbnails zero_frame_movie 0 ⟨9⟩).2
      = ThumbnailMessage.buffer 1 ⟨9⟩ := by
  decide

/-- C29 (amended): the logical frame the thumbnail handler requests is
`max(0, min(r, n - 1))` for the frame count `n` of the media reference and the rounded
product `r`; for `n ≥ 1` it lies in `[0, n-1]` whatever `r` is, it is the last frame
`n - 1` whenever `r ≥ n - 1`, and for `n = 0` it is 0. The requester is sent a null buffer
with the text of the error when the single-frame request for that frame fails, as it
does with "No streams" on a source without a current image stream, or when the
thumbnail manager answers with an error; it is sent the rendered buffer when both
answer. -/
theorem C29_thumbnail_frame_clamp (env : Env) (thumbnail_manager : AVFrameID → Except Error Nat)
    (s : State) (rounded : Int) (job_uuid : Uuid) :
    (get_thumbnail_atom env thumbnail_manager s rounded job_uuid).1
      = max 0 (min rounded (s.base_.media_reference.frame_count - 1)) ∧
    (∀ n r : Int, 1 ≤ n → 0 ≤ thumbnail_frame n r ∧ thumbnail_frame n r ≤ n - 1) ∧
    (∀ n r : Int, 1 ≤ n → n - 1 ≤ r → thumbnail_frame n r = n - 1) ∧
    (∀ r : Int, thumbnail_frame 0 r = 0) ∧
    (∀ err, get_media_pointer_atom env s MediaType.MT_IMAGE
        (thumbnail_frame s.base_.media_reference.frame_count rounded) = Except.error err →
      (get_thumbnail_atom env thumbnail_manager s rounded job_uuid).2
        = ThumbnailMessage.failed job_uuid err.to_string) ∧
    (∀ mp err, get_media_pointer_atom env s MediaType.MT_IMAGE
        (thumbnail_frame s.base_.media_reference.frame_count rounded) = Except.ok mp →
      thumbnail_manager mp = Except.error err →
      (get_thumbnail_atom env thumbnail_manager s rounded job_uuid).2
        = ThumbnailMessage.failed job_uuid err.to_string) ∧
    (∀ mp buf, get_media_pointer_atom env s MediaType.MT_IMAGE
        (thumbnail_frame s.base_.media_reference.frame_count rounded) = Except.ok mp →
      thumbnail_manager mp = Except.ok buf →
      (get_thumbnail_atom env thumbnail_manager s rounded job_uuid).2
        = ThumbnailMessage.buffer buf job_uuid) ∧
    ((s.base_.current MediaType.MT_IMAGE).is_null = true →
      (get_thumbnail_atom env thumbnail_manager s rounded job_uuid).2
        = ThumbnailMessage.failed job_uuid NoStreams.to_string) := by
  refine ⟨?_, ?_, ?_, ?_, ?_, ?_, ?_, ?_⟩
  · unfold get_thumbnail_atom
    simp only []
    split
    · rfl
    · split <;> rfl
  · intro n r hn
    unfold thumbnail_frame
    omega
  · intro n r hn hr
    unfold thumbnail_frame
    omega
  · intro r
    unfold thumbnail_frame
    omega
  · intro err herr
    simp [get_thumbnail_atom, herr]
  · intro mp err hmp herr
    simp [get_thumbnail_atom, hmp, herr]
  · intro mp buf hmp hbuf
    simp [get_thumbnail_atom, hmp, hbuf]
  · intro hnull
    simp [get_thumbnail_atom, get_media_pointer_atom_no_current env s MediaType.MT_IMAGE _ hnull]

/-- C29 (amended) on S2 (five frames): position 1 rounds to 5 and requests logical frame
4; a product rounded to 12 or to -3 is clamped to 4 and to 0. -/
theorem C29_thumbnail_frame_clamp_witness :
    (get_thumbnail_atom s2_env s2_thumbnails s2_state 5 ⟨9⟩).1 = 4 ∧
    thumbnail_frame 5 12 = 4 ∧ thumbnail_frame 5 (-3) = 0 :=
  ⟨by
    rw [(C29_thumbnail_frame_clamp s2_env s2_thumbnails s2_state 5 ⟨9⟩).1]
    decide,
   (C29_thumbnail_frame_clamp s2_env s2_thumbnails s2_state 5 ⟨9⟩).2.2.1 5 12
      (by decide) (by decide),
   by decide⟩

/-- C24: the single-frame metadata probe on a container fails with NoFrames ("Media has
no frames"), and on a sequence whose file-frame does not resolve to a uri it fails with
"Invalid frame index"; in both cases nothing is sent to the metadata plugin or to the
metadata store and the state of the source is the one before the request. -/
theorem C24_single_frame_probe_errors (menv : MetadataEnv) (frame_text : Int → String)
    (s : State) (sequence_frame : Int) :
    (s.base_.media_reference.container = true →
      get_metadata_atom_frame menv frame_text s sequence_frame
        = (s, [], Except.error NoFrames)) ∧
    (s.base_.media_reference.container = false →
      s.base_.media_reference.uri_from_frame sequence_frame = none →
      get_metadata_atom_frame menv frame_text s sequence_frame
        = (s, [], Except.error InvalidFrameIndex)) := by
  refine ⟨?_, ?_⟩
  · intro hc
    simp [get_metadata_atom_frame, hc, NoFrames]
  · intro hc hu
    simp [get_metadata_atom_frame, hc, hu, InvalidFrameIndex]

/-- C24 on S1 and S2: the container answers NoFrames; the sequence 1001..1005 answers
"Invalid frame index" for file-frame 2000. -/
theorem C24_single_frame_probe_errors_witness :
    get_metadata_atom_frame s2_metadata (fun _ => "") s1_state 3
      = (s1_state, [], Except.error NoFrames) ∧
    get_metadata_atom_frame s2_metadata (fun _ => "") s2_state 2000
      = (s2_state, [], Except.error InvalidFrameIndex) :=
  ⟨(C24_single_frame_probe_errors s2_metadata (fun _ => "") s1_state 3).1 (by rfl),
   (C24_single_frame_probe_errors s2_metadata (fun _ => "") s2_state 2000).2 (by rfl)
     (by decide)⟩

/-! ## Stream registry: properties -/

theorem find_map_replace_other (m : List (Uuid × MediaStreamActor)) (u v : Uuid)
    (a : MediaStreamActor) (hv : v ≠ u)
    (h : (m.find? (fun p => p.1 == v)).isSome = true) :
    ((m.map (fun p => if p.1 == u then (u, a) else p)).find? (fun p => p.1 == v)).isSome
      = true := by
  induction m with
  | nil => simp at h
  | cons q rest ih =>
    by_cases hq : q.1 = v
    · have hqu : (q.1 == u) = false := by
        simp only [beq_eq_false_iff_ne, ne_eq]
        rw [hq]
        exact hv
      have hqv : (q.1 == v) = true := by simp [hq]
      simp only [List.map_cons, hqu, Bool.false_eq_true, if_false, List.find?_cons, hqv]
      rfl
    · have hqv : (q.1 == v) = false := by simpa using hq
      have hrest : (rest.find? (fun p => p.1 == v)).isSome = true := by
        simpa only [List.find?_cons, hqv] using h
      by_cases hqu : (q.1 == u) = true
      · have huv : (u == v) = false := by
          simp only [beq_eq_false_iff_ne, ne_eq]
          exact fun h => hv h.symm
        simp only [List.map_cons, hqu, if_true, List.find?_cons, huv]
        exact ih hrest
      · have hqu2 : (q.1 == u) = false := by simpa using hqu
        simp only [List.map_cons, hqu2, Bool.false_eq_true, if_false, List.find?_cons, hqv]
        exact ih hrest

theorem stream_at_isSome (m : List (Uuid × MediaStreamActor)) (v : Uuid) :
    (stream_at m v).isSome = (m.find? (fun p => p.1 == v)).isSome := by
  unfold stream_at
  cases m.find? (fun p => p.1 == v) <;> rfl

theorem stream_at_insert_isSome (m : List (Uuid × MediaStreamActor)) (u v : Uuid)
    (a : MediaStreamActor) (h : v = u ∨ (stream_at m v).isSome = true) :
    (stream_at (stream_insert m u a) v).isSome = true := by
  by_cases hv : v = u
  · rw [hv, stream_at_insert]
    rfl
  · rcases h with h | h
    · exact absurd h hv
    · rw [stream_at_isSome] at h ⊢
      unfold stream_insert
      by_cases hany : m.any (fun p => p.1 == u) = true
      · rw [if_pos hany]
        exact find_map_replace_other m u v a hv h
      · rw [if_neg hany, List.find?_append]
        cases hf : m.find? (fun p => p.1 == v) with
        | none => rw [hf] at h; cases h
        | some x => rfl

theorem add_media_stream_streams (b : MediaSource) (mt mt2 : MediaType) (u v : Uuid)
    (h : v ∈ (b.add_media_stream mt u).streams mt2) : v = u ∨ v ∈ b.streams mt2 := by
  cases mt <;> cases mt2 <;>
    simp only [MediaSource.add_media_stream, MediaSource.streams, List.mem_append,
      List.mem_singleton] at h ⊢ <;> tauto

theorem add_media_stream_current (b : MediaSource) (mt mt2 : MediaType) (u : Uuid) :
    (b.add_media_stream mt u).current mt2 = u ∨
    (b.add_media_stream mt u).current mt2 = b.current mt2 := by
  cases mt
  · cases mt2
    · simp only [MediaSource.add_media_stream, MediaSource.current]
      by_cases hn : b.current_image.is_null = true
      · left; rw [if_pos hn]
      · right; rw [if_neg hn]
    · right; rfl
  · cases mt2
    · right; rfl
    · simp only [MediaSource.add_media_stream, MediaSource.current]
      by_cases hn : b.current_audio.is_null = true
      · left; rw [if_pos hn]
      · right; rw [if_neg hn]

/-- Registering a stream in the map and in the base keeps the registry invariant. -/
theorem register_consistent (s : State) (mt : MediaType) (u : Uuid) (a : MediaStreamActor)
    (mr : MediaReference) (h : registry_consistent s) :
    registry_consistent
      { s with media_streams_ := stream_insert s.media_streams_ u a,
               base_ := (s.base_.set_media_reference mr).add_media_stream mt u } := by
  obtain ⟨h1, h2⟩ := h
  refine ⟨?_, ?_⟩
  · intro mt2 v hv
    apply stream_at_insert_isSome
    rcases add_media_stream_streams _ mt mt2 u v hv with hvu | hvm
    · exact Or.inl hvu
    · exact Or.inr (h1 mt2 v (by cases mt2 <;> exact hvm))
  · intro mt2 hnull
    apply stream_at_insert_isSome
    rcases add_media_stream_current (s.base_.set_media_reference mr) mt mt2 u with hc | hc
    · exact Or.inl hc
    · right
      simp only [] at hnull ⊢
      rw [hc] at hnull ⊢
      have hcur : (s.base_.set_media_reference mr).current mt2 = s.base_.current mt2 := by
        cases mt2 <;> rfl
      rw [hcur] at hnull ⊢
      exact h2 mt2 hnull

theorem registry_consistent_congr (s t : State)
    (hm : t.media_streams_ = s.media_streams_)
    (hi : t.base_.image_streams = s.base_.image_streams)
    (ha : t.base_.audio_streams = s.base_.audio_streams)
    (hci : t.base_.current_image = s.base_.current_image)
    (hca : t.base_.current_audio = s.base_.current_audio)
    (h : registry_consistent s) : registry_consistent t := by
  obtain ⟨h1, h2⟩ := h
  refine ⟨?_, ?_⟩
  · intro mt u hu
    rw [hm]
    apply h1 mt u
    cases mt
    · simp only [MediaSource.streams] at hu ⊢; rw [← hi]; exact hu
    · simp only [MediaSource.streams] at hu ⊢; rw [← ha]; exact hu
  · intro mt hnull
    have hcur : t.base_.current mt = s.base_.current mt := by
      cases mt
      · exact hci
      · exact hca
    rw [hm, hcur]
    rw [hcur] at hnull
    exact h2 mt hnull

theorem registry_consistent_cleared (s : State) (h : base_cleared s.base_) :
    registry_consistent s := by
  obtain ⟨h1, h2, h3, h4⟩ := h
  refine ⟨?_, ?_⟩
  · intro mt u hu
    cases mt
    · simp [MediaSource.streams, h3] at hu
    · simp [MediaSource.streams, h4] at hu
  · intro mt hnull
    have := base_cleared_current s.base_ ⟨h1, h2, h3, h4⟩ mt
    rw [this] at hnull
    cases hnull

theorem process_stream_consistent (rate : FrameRate) (uuid : Uuid)
    (acc : State × List Effect) (i : StreamDetail) (h : registry_consistent acc.1) :
    registry_consistent (process_stream rate uuid acc i).1 :=
  register_consistent acc.1 _ uuid _ _ h

theorem stream_loop_consistent (env : Env) (rate : FrameRate) (l : List StreamDetail) :
    ∀ (k : Nat) (acc : State × List Effect), registry_consistent acc.1 →
      registry_consistent (stream_loop env rate k l acc).1 := by
  induction l with
  | nil => intro k acc h; simpa [stream_loop] using h
  | cons i rest ih =>
    intro k acc h
    rw [stream_loop]
    exact ih _ _ (process_stream_consistent rate _ acc i h)

theorem on_media_detail_consistent (env : Env) (rate : FrameRate) (md : MediaDetail)
    (s : State) (h : base_cleared s.base_) :
    registry_consistent (on_media_detail env rate md s).1 := by
  have hstart : registry_consistent (adopt_probed md s) :=
    registry_consistent_congr s _ rfl rfl rfl rfl rfl (registry_consistent_cleared s h)
  have hloop := stream_loop_consistent env rate md.streams_ 0 (adopt_probed md s, []) hstart
  exact registry_consistent_congr _ _ rfl rfl rfl rfl rfl hloop

theorem acquire_detail_consistent (env : Env) (rate : FrameRate) (s : State)
    (h : registry_consistent s) : registry_consistent (acquire_detail env rate s).1 := by
  rcases acquire_detail_cases env rate s with ⟨_, h1⟩ | ⟨hz, s1, fx, h1, _⟩ |
    ⟨_, _, reader, u, f0, md, _, _, _, h1⟩
  · rw [h1]; exact h
  · by_cases honline : s.base_.online = true
    · have hfalse : (acquire_detail env rate s).2.2 = false := by rw [h1]
      exact registry_consistent_cleared _ (acquire_detail_failed env rate s honline hfalse).2.1
    · have hsame : acquire_detail env rate s = (s, [], false) := by
        simp [acquire_detail, hz, honline]
      rw [hsame]; exact h
  · rw [h1]
    exact on_media_detail_consistent env rate md _ (base_cleared_clear _)

theorem add_media_stream_atom_consistent (media_type : Except Error MediaType) (s : State)
    (media_stream : Uuid × MediaStreamActor) (h : registry_consistent s) :
    registry_consistent (add_media_stream_atom media_type s media_stream).1 := by
  cases media_type with
  | error err => exact h
  | ok mt =>
    have := register_consistent s mt media_stream.1 media_stream.2
      s.base_.media_reference h
    exact registry_consistent_congr _ _ rfl
      (by cases mt <;> rfl) (by cases mt <;> rfl) (by cases mt <;> rfl) (by cases mt <;> rfl)
      this

theorem apply_op_consistent (s : State) (op : RegistryOp) (h : registry_consistent s) :
    registry_consistent (apply_op s op) := by
  cases op with
  | acquire env rate => exact acquire_detail_consistent env rate s h
  | add_stream media_type media_stream =>
    exact add_media_stream_atom_consistent media_type s media_stream h
  | add_stream_actor uuid media_type media_stream =>
    cases uuid with
    | error err => exact h
    | ok u => exact add_media_stream_atom_consistent media_type s (u, media_stream) h

theorem run_ops_consistent (ops : List RegistryOp) :
    ∀ s : State, registry_consistent s → registry_consistent (run_ops s ops) := by
  induction ops with
  | nil => intro s h; exact h
  | cons op rest ih =>
    intro s h
    exact ih _ (apply_op_consistent s op h)

theorem get_media_stream_loop_ok (m : List (Uuid × MediaStreamActor)) (l : List Uuid)
    (h : ∀ i ∈ l, (stream_at m i).isSome = true) :
    ∀ init : List (Uuid × MediaStreamActor), ∃ r,
      l.foldl (fun sm i =>
        match sm with
        | Except.error err => Except.error err
        | Except.ok acc =>
          match stream_at m i with
          | none => Except.error (Error.unhandled "map::at")
          | some a => Except.ok (acc ++ [(i, a)])) (Except.ok init) = Except.ok r := by
  induction l with
  | nil => intro init; exact ⟨init, rfl⟩
  | cons i rest ih =>
    intro init
    have hi := h i (List.mem_cons_self _ _)
    cases hs : stream_at m i with
    | none => rw [hs] at hi; cases hi
    | some a =>
      rw [List.foldl_cons]
      simp only [hs]
      exact ih (fun j hj => h j (List.mem_cons_of_mem _ hj)) _

/-- C28: starting from a source whose base lists no stream and no current stream (in
particular from a source with no streams), after any sequence of acquire-detail and add-stream operations (by address or by uuid and
address, whatever their outcome) every uuid the base lists as a stream of some media
type is a key of the stream map, every non-nil current stream is a key of the stream
map, and the lookups of the get-streams handler all succeed. -/
theorem C28_stream_registry_consistent (s0 : State) (ops : List RegistryOp)
    (hbase : base_cleared s0.base_) :
    (∀ mt u, u ∈ (run_ops s0 ops).base_.streams mt →
      (stream_at (run_ops s0 ops).media_streams_ u).isSome = true) ∧
    (∀ mt, ((run_ops s0 ops).base_.current mt).is_null = false →
      (stream_at (run_ops s0 ops).media_streams_
        ((run_ops s0 ops).base_.current mt)).isSome = true) ∧
    (∀ mt, ∃ l, get_media_stream_atom (run_ops s0 ops) mt = Except.ok l) := by
  obtain ⟨h1, h2⟩ := run_ops_consistent ops s0 (registry_consistent_cleared s0 hbase)
  refine ⟨h1, h2, ?_⟩
  intro mt
  exact get_media_stream_loop_ok _ _ (fun i hi => h1 mt i hi) []

/-- C28 on S1: after acquiring the movie detail and adding a further audio stream, the
current image stream and the added stream are keys of the stream map. -/
theorem C28_stream_registry_consistent_witness :
    (stream_at (run_ops s1_state s1_ops).media_streams_
      ((run_ops s1_state s1_ops).base_.current MediaType.MT_IMAGE)).isSome = true ∧
    (stream_at (run_ops s1_state s1_ops).media_streams_ ⟨55⟩).isSome = true :=
  ⟨(C28_stream_registry_consistent s1_state s1_ops ⟨rfl, rfl, rfl, rfl⟩).2.1
      MediaType.MT_IMAGE (by rfl),
   (C28_stream_registry_consistent s1_state s1_ops ⟨rfl, rfl, rfl, rfl⟩).1
      MediaType.MT_AUDIO ⟨55⟩ (by decide)⟩

/-! ## Duplication: properties -/

theorem same_identity_refl (a : MediaSource) : same_identity a a := ⟨rfl, rfl, rfl, rfl⟩

theorem same_identity_trans (a b c : MediaSource) (h1 : same_identity a b)
    (h2 : same_identity b c) : same_identity a c := by
  obtain ⟨a1, a2, a3, a4⟩ := h1
  obtain ⟨b1, b2, b3, b4⟩ := h2
  exact ⟨a1.trans b1, a2.trans b2, a3.trans b3, a4.trans b4⟩

theorem add_media_stream_identity (b : MediaSource) (mt : MediaType) (u : Uuid) :
    same_identity (b.add_media_stream mt u) b := by
  cases mt <;> exact ⟨rfl, rfl, rfl, rfl⟩

theorem set_current_identity (b : MediaSource) (mt : MediaType) (u : Uuid) :
    same_identity (b.set_current mt u).1 b := by
  unfold MediaSource.set_current
  split_ifs
  · cases mt <;> exact ⟨rfl, rfl, rfl, rfl⟩
  · exact ⟨rfl, rfl, rfl, rfl⟩

theorem add_media_stream_atom_identity (media_type : Except Error MediaType) (s : State)
    (media_stream : Uuid × MediaStreamActor) :
    same_identity (add_media_stream_atom media_type s media_stream).1.base_ s.base_ := by
  cases media_type with
  | error err => exact same_identity_refl _
  | ok mt => exact add_media_stream_identity _ _ _

theorem duplicate_step_identity (env : DuplicateEnv) (s : State) (d : Duplication)
    (p : Uuid × MediaStreamActor) :
    same_identity (duplicate_step env s d p).duplicate.base_ d.duplicate.base_ := by
  unfold duplicate_step
  cases hdup : env.duplicate_stream p.2 with
  | error err => exact same_identity_refl _
  | ok stream =>
    simp only []
    cases hmt : env.media_type_of stream.2 with
    | error err => exact same_identity_refl _
    | ok mt =>
      have hadd := add_media_stream_identity d.duplicate.base_ mt stream.1
      simp only [add_media_stream_atom]
      split_ifs <;> simp only [copy_metadata] <;>
        first
          | exact same_identity_trans _ _ _ (set_current_identity _ _ _) hadd
          | exact hadd

theorem duplicate_loop_identity (env : DuplicateEnv) (s : State)
    (l : List (Uuid × MediaStreamActor)) :
    ∀ d : Duplication,
      same_identity (l.foldl (duplicate_step env s) d).duplicate.base_ d.duplicate.base_ := by
  induction l with
  | nil => intro d; exact same_identity_refl _
  | cons p rest ih =>
    intro d
    exact same_identity_trans _ _ _ (ih _) (duplicate_step_identity env s d p)

theorem duplicate_atom_identity (env : DuplicateEnv) (s : State)
    (order : List (Uuid × MediaStreamActor)) :
    same_identity (duplicate_atom env s order).duplicate.base_
      (construct_preconfigured s.base_.name s.base_.reader s.base_.media_reference
        (generated_uuid env s) env.default_uuid env.address).base_ := by
  unfold duplicate_atom
  simp only []
  split_ifs
  · exact duplicate_loop_identity env s order _
  · exact same_identity_refl _

theorem set_timecode_from_frames_fields (mr : MediaReference) :
    mr.set_timecode_from_frames.container = mr.container ∧
    mr.set_timecode_from_frames.uri_ = mr.uri_ ∧
    mr.set_timecode_from_frames.frame_list = mr.frame_list ∧
    mr.set_timecode_from_frames.duration = mr.duration := by
  unfold MediaReference.set_timecode_from_frames
  cases mr.frame 0 <;> exact ⟨rfl, rfl, rfl, rfl⟩

theorem set_timecode_from_frames_same (mr : MediaReference)
    (h : mr.frame 0 = some mr.timecode.total_frames) : mr.set_timecode_from_frames = mr := by
  unfold MediaReference.set_timecode_from_frames
  rw [h]

theorem construct_preconfigured_fields (name reader : String) (mr : MediaReference)
    (uuid default_uuid : Uuid) (self : Nat) :
    (construct_preconfigured name reader mr uuid default_uuid self).base_.name = name ∧
    (construct_preconfigured name reader mr uuid default_uuid self).base_.reader = reader ∧
    (construct_preconfigured name reader mr uuid default_uuid self).base_.media_reference
      = mr.set_timecode_from_frames ∧
    (uuid.is_null = false →
      (construct_preconfigured name reader mr uuid default_uuid self).base_.uuid = uuid) := by
  unfold construct_preconfigured
  by_cases h : uuid.is_null = true
  · simp [h, MediaSource.make, MediaSource.set_reader, MediaSource.set_media_reference]
  · simp [h, MediaSource.make, MediaSource.set_reader, MediaSource.set_media_reference,
      MediaSource.set_uuid]

theorem set_timecode_from_frames_unresolved (mr : MediaReference) (h : mr.frame 0 = none) :
    mr.set_timecode_from_frames = mr := by
  unfold MediaReference.set_timecode_from_frames
  rw [h]

theorem set_timecode_from_frames_fixed (mr : MediaReference)
    (h : mr.set_timecode_from_frames = mr) :
    mr.frame 0 = none ∨ mr.frame 0 = some mr.timecode.total_frames := by
  unfold MediaReference.set_timecode_from_frames at h
  cases hf : mr.frame 0 with
  | none => exact Or.inl rfl
  | some f =>
    right
    rw [hf] at h
    have htc := congrArg (fun m => m.timecode.total_frames) h
    simp only [] at htc
    rw [htc]

theorem val_le_sum (l : List Uuid) (u : Uuid) (h : u ∈ l) :
    u.val ≤ (l.map Uuid.val).sum := by
  induction l with
  | nil => cases h
  | cons x xs ih =>
    rcases List.mem_cons.mp h with hx | hm
    · subst hx
      simp
    · have hle := ih hm
      simp only [List.map_cons, List.sum_cons]
      omega

theorem generate_fresh (in_use : List Uuid) (draw : Nat) (u : Uuid) (h : u ∈ in_use) :
    Uuid.generate in_use draw ≠ u := by
  intro heq
  have hle := val_le_sum in_use u h
  have hval := congrArg Uuid.val heq
  simp only [Uuid.generate] at hval
  omega

theorem generate_not_null (in_use : List Uuid) (draw : Nat) :
    (Uuid.generate in_use draw).is_null = false := by
  simp [Uuid.generate, Uuid.is_null]

/-- C22 (as stated) fails: the zero-based sequence carries the embedded timecode 86400;
its duplicate, delivered as (602, 50), carries the timecode 0 derived from the first
file-frame. -/
theorem C22_duplicate_timecode_differs :
    zero_based_state.base_.media_reference.timecode = ⟨86400⟩ ∧
    (duplicate_atom healthy_duplication zero_based_state
      zero_based_state.media_streams_).reply = some (Except.ok (⟨602⟩, 50)) ∧
    (duplicate_atom healthy_duplication zero_based_state
      zero_based_state.media_streams_).duplicate.base_.media_reference.timecode = ⟨0⟩ ∧
    (duplicate_atom healthy_duplication zero_based_state
      zero_based_state.media_streams_).duplicate.base_.media_reference
        ≠ zero_based_state.base_.media_reference := by
  refine ⟨by rfl, by rfl, by rfl, ?_⟩
  decide

/-- C22 (amended): the source created by duplicate carries the freshly generated uuid,
which is not nil and differs from the uuid of the original and from the uuids of its
streams, the name and the reader tag of the original, and a media reference equal to the
original's in container flag, uri, frame list, duration and rate; its timecode is the
original's timecode reset from the frame numbers, so the whole reference is identical
exactly when the original's timecode-as-frames already is the file-frame of logical
frame 0 or logical frame 0 does not resolve. -/
theorem C22_duplicate_reference (env : DuplicateEnv) (s : State)
    (order : List (Uuid × MediaStreamActor)) :
    (duplicate_atom env s order).duplicate.base_.uuid = generated_uuid env s ∧
    (duplicate_atom env s order).duplicate.base_.uuid.is_null = false ∧
    (duplicate_atom env s order).duplicate.base_.uuid ≠ s.base_.uuid ∧
    (∀ p ∈ s.media_streams_, (duplicate_atom env s order).duplicate.base_.uuid ≠ p.1) ∧
    (duplicate_atom env s order).duplicate.base_.name = s.base_.name ∧
    (duplicate_atom env s order).duplicate.base_.reader = s.base_.reader ∧
    (duplicate_atom env s order).duplicate.base_.media_reference.container
      = s.base_.media_reference.container ∧
    (duplicate_atom env s order).duplicate.base_.media_reference.uri_
      = s.base_.media_reference.uri_ ∧
    (duplicate_atom env s order).duplicate.base_.media_reference.frame_list
      = s.base_.media_reference.frame_list ∧
    (duplicate_atom env s order).duplicate.base_.media_reference.duration
      = s.base_.media_reference.duration ∧
    (duplicate_atom env s order).duplicate.base_.media_reference.rate
      = s.base_.media_reference.rate ∧
    (duplicate_atom env s order).duplicate.base_.media_reference
      = s.base_.media_reference.set_timecode_from_frames ∧
    ((duplicate_atom env s order).duplicate.base_.media_reference = s.base_.media_reference
      ↔ (s.base_.media_reference.frame 0 = none ∨
          s.base_.media_reference.frame 0
            = some s.base_.media_reference.timecode.total_frames)) := by
  obtain ⟨h1, h2, h3, h4⟩ := duplicate_atom_identity env s order
  obtain ⟨c1, c2, c3, c4⟩ := construct_preconfigured_fields s.base_.name s.base_.reader
    s.base_.media_reference (generated_uuid env s) env.default_uuid env.address
  have hmr : (duplicate_atom env s order).duplicate.base_.media_reference
      = s.base_.media_reference.set_timecode_from_frames := h4.trans c3
  have hnot_null : (generated_uuid env s).is_null = false := generate_not_null _ _
  have huuid : (duplicate_atom env s order).duplicate.base_.uuid = generated_uuid env s :=
    h2.trans (c4 hnot_null)
  obtain ⟨f1, f2, f3, f4⟩ := set_timecode_from_frames_fields s.base_.media_reference
  refine ⟨huuid, by rw [huuid]; exact hnot_null, ?_, ?_, h1.trans c1, h3.trans c2,
    by rw [hmr, f1], by rw [hmr, f2], by rw [hmr, f3], by rw [hmr, f4],
    by rw [MediaReference.rate, MediaReference.rate, hmr, f4], hmr, ?_⟩
  · rw [huuid]
    exact generate_fresh _ _ _ (List.mem_cons_self _ _)
  · intro p hp
    rw [huuid]
    exact generate_fresh _ _ _
      (List.mem_cons_of_mem _ (List.mem_map_of_mem (fun q => q.1) hp))
  · rw [hmr]
    constructor
    · exact set_timecode_from_frames_fixed _
    · intro h
      rcases h with h | h
      · exact set_timecode_from_frames_unresolved _ h
      · exact set_timecode_from_frames_same _ h

/-- C22 (amended) on S2, whose timecode is 1001: the duplicate has the uuid 509, the
name "seq" and the media reference of the original. -/
theorem C22_duplicate_reference_witness :
    (duplicate_atom healthy_duplication s2_state s2_state.media_streams_).duplicate.base_.uuid
      = ⟨509⟩ ∧
    (duplicate_atom healthy_duplication s2_state s2_state.media_streams_).duplicate.base_.name
      = s2_state.base_.name ∧
    (duplicate_atom healthy_duplication s2_state
      s2_state.media_streams_).duplicate.base_.media_reference
        = s2_state.base_.media_reference :=
  ⟨(C22_duplicate_reference healthy_duplication s2_state s2_state.media_streams_).1,
   (C22_duplicate_reference healthy_duplication s2_state s2_state.media_streams_).2.2.2.2.1,
   (C22_duplicate_reference healthy_duplication s2_state
      s2_state.media_streams_).2.2.2.2.2.2.2.2.2.2.2.2.mpr (Or.inr (by rfl))⟩

/-! ### The countdown -/

theorem duplicate_step_failed (env : DuplicateEnv) (s : State) (d : Duplication)
    (p : Uuid × MediaStreamActor) (err : Error) (h : stream_error env p = some err) :
    (duplicate_step env s d p).source_count = d.source_count ∧
    (DuplicateEffect.copy_metadata ∈ (duplicate_step env s d p).steps →
      DuplicateEffect.copy_metadata ∈ d.steps) ∧
    (duplicate_step env s d p).reply = deliver d.reply (Except.error err) := by
  cases hdup : env.duplicate_stream p.2 with
  | error e =>
    simp only [stream_error, hdup, Option.some.injEq] at h
    subst h
    simp [duplicate_step, hdup]
  | ok stream =>
    cases hmt : env.media_type_of stream.2 with
    | error e =>
      simp only [stream_error, hdup, hmt, Option.some.injEq] at h
      subst h
      simp [duplicate_step, hdup, hmt, add_media_stream_atom]
    | ok mt =>
      simp [stream_error, hdup, hmt] at h

theorem duplicate_step_copied (env : DuplicateEnv) (s : State) (d : Duplication)
    (p : Uuid × MediaStreamActor) (stream : Uuid × MediaStreamActor)
    (hdup : env.duplicate_stream p.2 = Except.ok stream)
    (h : stream_copied env p = true) :
    (duplicate_step env s d p).source_count = d.source_count - 1 ∧
    (duplicate_step env s d p).steps
      = d.steps ++ [DuplicateEffect.stream_duplicated p.1,
          DuplicateEffect.stream_added stream.1]
        ++ (if d.source_count - 1 = 0 then [DuplicateEffect.copy_metadata] else []) ∧
    (d.source_count - 1 ≠ 0 → (duplicate_step env s d p).reply = d.reply) := by
  cases hmt : env.media_type_of stream.2 with
  | error e => simp [stream_copied, hdup, hmt] at h
  | ok mt =>
    by_cases hz : d.source_count - 1 = 0
    · simp [duplicate_step, hdup, hmt, add_media_stream_atom, hz, copy_metadata]
    · simp [duplicate_step, hdup, hmt, add_media_stream_atom, hz]

theorem stream_copied_or_error (env : DuplicateEnv) (p : Uuid × MediaStreamActor) :
    (stream_copied env p = true ∧ ∃ stream, env.duplicate_stream p.2 = Except.ok stream) ∨
    (stream_copied env p = false ∧ ∃ err, stream_error env p = some err) := by
  cases hdup : env.duplicate_stream p.2 with
  | error e => right; simp [stream_copied, stream_error, hdup]
  | ok stream =>
    cases hmt : env.media_type_of stream.2 with
    | error e => right; simp [stream_copied, stream_error, hdup, hmt]
    | ok mt => left; simp [stream_copied, hdup, hmt]

theorem stream_error_of_copied (env : DuplicateEnv) (p : Uuid × MediaStreamActor)
    (h : stream_copied env p = true) : stream_error env p = none := by
  rcases stream_copied_or_error env p with ⟨_, _⟩ | ⟨hf, _⟩
  · cases hdup : env.duplicate_stream p.2 with
    | error e => simp [stream_copied, hdup] at h
    | ok stream =>
      cases hmt : env.media_type_of stream.2 with
      | error e => simp [stream_copied, hdup, hmt] at h
      | ok mt => simp [stream_error, hdup, hmt]
  · rw [hf] at h; cases h

/-- While fewer streams succeed than the counter holds, the metadata copy is not
started, and the promise receives the error of the first failing stream. -/
theorem duplicate_loop_above (env : DuplicateEnv) (s : State)
    (l : List (Uuid × MediaStreamActor)) :
    ∀ d : Duplication, ((l.filter (stream_copied env)).length : Int) < d.source_count →
      (DuplicateEffect.copy_metadata ∈ (l.foldl (duplicate_step env s) d).steps →
        DuplicateEffect.copy_metadata ∈ d.steps) ∧
      (l.foldl (duplicate_step env s) d).reply
        = (match d.reply with
            | some r => some r
            | none => (first_error env l).map Except.error) := by
  induction l with
  | nil =>
    intro d _
    refine ⟨fun h => h, ?_⟩
    simp only [List.foldl_nil]
    cases d.reply <;> simp [first_error]
  | cons p rest ih =>
    intro d hlt
    rw [List.foldl_cons]
    rcases stream_copied_or_error env p with ⟨hc, stream, hdup⟩ | ⟨hf, err, herr⟩
    · obtain ⟨h1, h2, h3⟩ := duplicate_step_copied env s d p stream hdup hc
      have hlen : ((rest.filter (stream_copied env)).length : Int) + 1 < d.source_count := by
        simp only [List.filter_cons, hc, if_true, List.length_cons, Nat.cast_add,
          Nat.cast_one] at hlt
        exact hlt
      have hnz : d.source_count - 1 ≠ 0 := by omega
      obtain ⟨i1, i2⟩ := ih (duplicate_step env s d p) (by rw [h1]; omega)
      refine ⟨?_, ?_⟩
      · intro hmem
        have := i1 hmem
        rw [h2, if_neg hnz] at this
        simpa using this
      · rw [i2, h3 hnz]
        simp only [first_error, List.findSome?_cons, stream_error_of_copied env p hc]
    · obtain ⟨h1, h2, h3⟩ := duplicate_step_failed env s d p err herr
      have hlen : ((rest.filter (stream_copied env)).length : Int) < d.source_count := by
        simp only [List.filter_cons, hf, Bool.false_eq_true, if_false] at hlt
        exact hlt
      obtain ⟨i1, i2⟩ := ih (duplicate_step env s d p) (by rw [h1]; exact hlen)
      refine ⟨fun hmem => h2 (i1 hmem), ?_⟩
      rw [i2, h3]
      simp only [first_error, List.findSome?_cons, herr]
      cases d.reply <;> simp [deliver]

/-- When every stream succeeds and the counter starts at their number, the metadata copy
is the last step, started once, after the duplication and the registration of every
stream. -/
theorem duplicate_loop_all (env : DuplicateEnv) (s : State)
    (l : List (Uuid × MediaStreamActor)) :
    ∀ d : Duplication, l ≠ [] → (∀ p ∈ l, stream_copied env p = true) →
      d.source_count = (l.length : Int) →
      ∃ E, (l.foldl (duplicate_step env s) d).steps
          = d.steps ++ E ++ [DuplicateEffect.copy_metadata] ∧
        DuplicateEffect.copy_metadata ∉ E ∧
        ∀ p ∈ l, DuplicateEffect.stream_duplicated p.1 ∈ E ∧
          ∀ stream, env.duplicate_stream p.2 = Except.ok stream →
            DuplicateEffect.stream_added stream.1 ∈ E := by
  induction l with
  | nil => intro d h; exact absurd rfl h
  | cons p rest ih =>
    intro d _ hall hcount
    rw [List.foldl_cons]
    have hc := hall p (List.mem_cons_self _ _)
    rcases stream_copied_or_error env p with ⟨_, stream, hdup⟩ | ⟨hf, _⟩
    · obtain ⟨h1, h2, _⟩ := duplicate_step_copied env s d p stream hdup hc
      have hhead : ∀ st, env.duplicate_stream p.2 = Except.ok st → st = stream := by
        intro st hst
        rw [hdup] at hst
        injection hst with hst
        exact hst.symm
      cases rest with
      | nil =>
        have hz : d.source_count - 1 = 0 := by
          rw [hcount]; simp
        refine ⟨[DuplicateEffect.stream_duplicated p.1,
          DuplicateEffect.stream_added stream.1], ?_, by simp, ?_⟩
        · simp only [List.foldl_nil]
          rw [h2, if_pos hz]
        · intro q hq
          rw [List.mem_singleton] at hq
          subst hq
          refine ⟨by simp, ?_⟩
          intro st hst
          rw [hhead st hst]
          simp
      | cons q rest2 =>
        have hnz : d.source_count - 1 ≠ 0 := by
          rw [hcount]
          simp only [List.length_cons, Nat.cast_add, Nat.cast_one]
          omega
        obtain ⟨E, hE, hnot, hin⟩ := ih (duplicate_step env s d p) (by simp)
          (fun r hr => hall r (List.mem_cons_of_mem _ hr))
          (by rw [h1, hcount]; simp)
        refine ⟨[DuplicateEffect.stream_duplicated p.1,
          DuplicateEffect.stream_added stream.1] ++ E, ?_, ?_, ?_⟩
        · rw [hE, h2, if_neg hnz]
          simp
        · simpa using hnot
        · intro r hr
          rcases List.mem_cons.mp hr with hrp | hrr
          · subst hrp
            refine ⟨by simp, ?_⟩
            intro st hst
            rw [hhead st hst]
            simp
          · obtain ⟨a1, a2⟩ := hin r hrr
            exact ⟨by simp [a1], fun st hst => by simp [a2 st hst]⟩
    · rw [hf] at hc; cases hc

theorem first_error_of_failure (env : DuplicateEnv) (l : List (Uuid × MediaStreamActor))
    (h : ∃ p ∈ l, stream_copied env p = false) :
    ∃ p ∈ l, ∃ err, stream_error env p = some err ∧ first_error env l = some err := by
  induction l with
  | nil => obtain ⟨p, hp, _⟩ := h; simp at hp
  | cons q rest ih =>
    rcases stream_copied_or_error env q with ⟨hc, _⟩ | ⟨_, err, herr⟩
    · obtain ⟨p, hp, hpf⟩ := h
      rcases List.mem_cons.mp hp with hpq | hpr
      · subst hpq; rw [hc] at hpf; cases hpf
      · obtain ⟨r, hr, e, he1, he2⟩ := ih ⟨p, hpr, hpf⟩
        refine ⟨r, List.mem_cons_of_mem _ hr, e, he1, ?_⟩
        simp only [first_error, List.findSome?_cons, stream_error_of_copied env q hc]
        exact he2
    · refine ⟨q, List.mem_cons_self _ _, err, herr, ?_⟩
      simp only [first_error, List.findSome?_cons, herr]

theorem duplicate_atom_streams (env : DuplicateEnv) (s : State)
    (order : List (Uuid × MediaStreamActor)) (h : s.media_streams_ ≠ []) :
    duplicate_atom env s order
      = order.foldl (duplicate_step env s) (duplicate_start env s) := by
  have hlen : s.media_streams_.length ≠ 0 := by
    intro hz
    exact h (List.length_eq_zero.mp hz)
  simp only [duplicate_atom, duplicate_start, hlen, ne_eq, not_false_eq_true, if_true]

/-- C27: let the replies for the streams of the original be handled in any order. With
no stream the metadata copy is the only step. With `n ≥ 1` streams that are all
duplicated and registered with the duplicate, the metadata copy is started exactly once,
as the last step, after the duplication and the registration of every stream. If the
duplication or the registration of some stream fails, the metadata copy is never
started and the caller receives the error of a failing stream (the first one
handled). -/
theorem C27_duplicate_countdown (env : DuplicateEnv) (s : State)
    (order : List (Uuid × MediaStreamActor)) (horder : order.Perm s.media_streams_) :
    (s.media_streams_ = [] →
      (duplicate_atom env s order).steps = [DuplicateEffect.copy_metadata]) ∧
    (s.media_streams_ ≠ [] → (∀ p ∈ s.media_streams_, stream_copied env p = true) →
      (duplicate_atom env s order).steps.count DuplicateEffect.copy_metadata = 1 ∧
      ∃ E, (duplicate_atom env s order).steps = E ++ [DuplicateEffect.copy_metadata] ∧
        DuplicateEffect.copy_metadata ∉ E ∧
        ∀ p ∈ s.media_streams_, DuplicateEffect.stream_duplicated p.1 ∈ E ∧
          ∀ stream, env.duplicate_stream p.2 = Except.ok stream →
            DuplicateEffect.stream_added stream.1 ∈ E) ∧
    ((∃ p ∈ s.media_streams_, stream_copied env p = false) →
      DuplicateEffect.copy_metadata ∉ (duplicate_atom env s order).steps ∧
      ∃ p ∈ s.media_streams_, ∃ err, stream_error env p = some err ∧
        (duplicate_atom env s order).reply = some (Except.error err)) := by
  refine ⟨?_, ?_, ?_⟩
  · intro hnil
    simp [duplicate_atom, hnil, copy_metadata]
  · intro hne hall
    have hone : order ≠ [] := by
      intro hz
      rw [hz] at horder
      exact hne (List.Perm.nil_eq horder).symm
    rw [duplicate_atom_streams env s order hne]
    obtain ⟨E, hE, hnot, hin⟩ := duplicate_loop_all env s order (duplicate_start env s) hone
      (fun p hp => hall p (horder.mem_iff.mp hp))
      (by simp only [duplicate_start]; rw [horder.length_eq])
    have hstart : (duplicate_start env s).steps = [] := rfl
    rw [hstart, List.nil_append] at hE
    refine ⟨?_, E, hE, hnot, fun p hp => hin p (horder.mem_iff.mpr hp)⟩
    rw [hE, List.count_append, List.count_eq_zero.mpr hnot]
    simp
  · intro hfail
    obtain ⟨p, hp, hpf⟩ := hfail
    have hne : s.media_streams_ ≠ [] := by
      intro hz
      rw [hz] at hp
      simp at hp
    have hfail2 : ∃ q ∈ order, stream_copied env q = false :=
      ⟨p, horder.mem_iff.mpr hp, hpf⟩
    have hlt : ((order.filter (stream_copied env)).length : Int)
        < (s.media_streams_.length : Int) := by
      rw [← horder.length_eq]
      have : (order.filter (stream_copied env)).length < order.length := by
        rw [List.length_filter_lt_length_iff_exists]
        obtain ⟨q, hq, hqf⟩ := hfail2
        exact ⟨q, hq, by simp [hqf]⟩
      exact_mod_cast this
    rw [duplicate_atom_streams env s order hne]
    obtain ⟨h1, h2⟩ := duplicate_loop_above env s order (duplicate_start env s) hlt
    have hstart : (duplicate_start env s).steps = [] := rfl
    have hreply : (duplicate_start env s).reply = none := rfl
    rw [hstart] at h1
    rw [hreply] at h2
    refine ⟨fun hmem => by simpa using h1 hmem, ?_⟩
    obtain ⟨q, hq, err, he1, he2⟩ := first_error_of_failure env order hfail2
    refine ⟨q, horder.mem_iff.mp hq, err, he1, ?_⟩
    rw [h2]
    simp only [he2, Option.map_some']

/-- C27 on the two-frame movie with its image and audio stream: with healthy replies the
metadata copy is the fifth and last step; when the audio stream fails to duplicate the
copy is not started. -/
theorem C27_duplicate_countdown_witness :
    (duplicate_atom healthy_duplication av_state av_state.media_streams_).steps.count
        DuplicateEffect.copy_metadata = 1 ∧
    (duplicate_atom healthy_duplication av_state av_state.media_streams_).steps
      = [DuplicateEffect.stream_duplicated ⟨100⟩, DuplicateEffect.stream_added ⟨1100⟩,
         DuplicateEffect.stream_duplicated ⟨101⟩, DuplicateEffect.stream_added ⟨1101⟩,
         DuplicateEffect.copy_metadata] ∧
    DuplicateEffect.copy_metadata
      ∉ (duplicate_atom failing_duplication av_state av_state.media_streams_).steps :=
  ⟨((C27_duplicate_countdown healthy_duplication av_state av_state.media_streams_
      (List.Perm.refl _)).2.1 (by decide) (by decide)).1,
   by rfl,
   ((C27_duplicate_countdown failing_duplication av_state av_state.media_streams_
      (List.Perm.refl _)).2.2 (by decide)).1⟩

/-! ## The fps string -/

theorem cut_trailing (s : List Char) (c : Char) :
    substr s 0 (index_succ (find_last_not_of s c))
      = (s.reverse.dropWhile (fun x => x == c)).reverse := by
  have hsplit : s = (s.reverse.dropWhile (fun x => x == c)).reverse
      ++ (s.reverse.takeWhile (fun x => x == c)).reverse := by
    rw [← List.reverse_append, List.takeWhile_append_dropWhile, List.reverse_reverse]
  have hlen : index_succ (find_last_not_of s c)
      = (s.reverse.dropWhile (fun x => x == c)).reverse.length := by
    unfold find_last_not_of
    rw [List.length_reverse]
    cases (s.reverse.dropWhile (fun x => x == c)).length <;> rfl
  unfold substr
  rw [List.drop_zero, hlen]
  have htake := @List.take_left' Char
    (s.reverse.dropWhile (fun x => x == c)).reverse
    (s.reverse.takeWhile (fun x => x == c)).reverse
    (s.reverse.dropWhile (fun x => x == c)).reverse.length rfl
  rw [← hsplit] at htake
  exact htake

theorem find_char_append (ip rest : List Char) (c : Char) (h : c ∉ ip) :
    find_char (ip ++ c :: rest) c = some ip.length := by
  induction ip with
  | nil => simp [find_char]
  | cons x xs ih =>
    have hx : x ≠ c := fun hxc => h (by simp [hxc])
    have hxs : c ∉ xs := fun hm => h (List.mem_cons_of_mem _ hm)
    simp [find_char, hx, ih hxs]

theorem last_index_append (ip rest : List Char) (x : Char) :
    last_index (ip ++ x :: rest) = some (ip.length + rest.length) := by
  unfold last_index
  simp only [List.length_append, List.length_cons]
  rfl

theorem cut_rendering (ip : List Char) (a b c : Char) :
    substr (ip ++ ['.', a, b, c]) 0 (index_succ (find_last_not_of (ip ++ ['.', a, b, c]) '0'))
      = ip ++ '.' :: (if c ≠ '0' then [a, b, c] else if b ≠ '0' then [a, b]
          else if a ≠ '0' then [a] else []) := by
  rw [cut_trailing]
  by_cases hc : c = '0'
  · by_cases hb : b = '0'
    · by_cases ha : a = '0'
      · subst hc hb ha
        simp [List.dropWhile_cons]
      · subst hc hb
        simp [List.dropWhile_cons, ha]
    · subst hc
      simp [List.dropWhile_cons, hb]
  · simp [List.dropWhile_cons, hc]

theorem fps_string_rendering (ip : List Char) (a b c : Char) (hip : '.' ∉ ip) :
    fps_string (ip ++ ['.', a, b, c]) = ip ++ '.' :: shown_fraction a b c := by
  unfold fps_string
  simp only []
  rw [cut_rendering]
  by_cases hc : c = '0'
  · by_cases hb : b = '0'
    · by_cases ha : a = '0'
      · subst hc hb ha
        simp [shown_fraction, find_char_append _ _ _ hip, last_index_append]
      · subst hc hb
        simp [shown_fraction, ha, find_char_append _ _ _ hip, last_index_append]
    · subst hc
      simp [shown_fraction, hb, find_char_append _ _ _ hip, last_index_append]
  · simp [shown_fraction, hc, find_char_append _ _ _ hip, last_index_append]

/-- C26: for a rendering made of an integer part without ".", a "." and three further
characters `a b c`, the fps string is the integer part, the "." and the fraction with its
trailing zeros removed, a single "0" standing in when all three were zeros. The shown
fraction is never empty, padding it with zeros back to three characters gives `a b c`
again (the same number), and it ends in "0" only when it is exactly "0". -/
theorem C26_fps_string_trimmed (ip : List Char) (a b c : Char) (hip : '.' ∉ ip) :
    fps_string (ip ++ ['.', a, b, c]) = ip ++ '.' :: shown_fraction a b c
    ∧ shown_fraction a b c ≠ []
    ∧ shown_fraction a b c
        ++ List.replicate (3 - (shown_fraction a b c).length) '0' = [a, b, c]
    ∧ ((shown_fraction a b c).getLast? = some '0' → shown_fraction a b c = ['0']) := by
  refine ⟨fps_string_rendering ip a b c hip, ?_, ?_, ?_⟩
  · unfold shown_fraction
    split_ifs <;> simp
  · unfold shown_fraction
    split_ifs with hc hb ha
    · simp
    · simp only [ne_eq, not_not] at hc
      simp [hc, List.replicate]
    · simp only [ne_eq, not_not] at hc hb
      simp [hc, hb, List.replicate]
    · simp only [ne_eq, not_not] at hc hb ha
      simp [hc, hb, ha, List.replicate]
  · unfold shown_fraction
    split_ifs with hc hb ha
    · intro h
      simp at h
      exact absurd h hc
    · intro h
      simp at h
      exact absurd h hb
    · intro h
      simp at h
      exact absurd h ha
    · intro _
      rfl

theorem C26_fps_string_trimmed_witness :
    '.' ∉ ['2', '4']
    ∧ fps_string "24.000".toList = "24.0".toList
    ∧ fps_string "29.970".toList = "29.97".toList
    ∧ fps_string "23.976".toList = "23.976".toList
    ∧ shown_fraction '0' '0' '0' = ['0'] :=
  ⟨by decide, (C26_fps_string_trimmed ['2', '4'] '0' '0' '0' (by decide)).1,
    (C26_fps_string_trimmed ['2', '9'] '9' '7' '0' (by decide)).1,
    (C26_fps_string_trimmed ['2', '3'] '9' '7' '6' (by decide)).1, by decide⟩

/-! ## The display filename -/

theorem match_hash_pad_other (x : Char) (xs : List Char) (hx : x ≠ lbrace) :
    match_hash_pad (x :: xs) = none := by
  cases xs with
  | nil => rfl
  | cons c t =>
    cases t with
    | nil => rfl
    | cons z rest => simp [match_hash_pad, hx]

theorem regex_replace_from_cons (sub : List Char → List Char) (x : Char) (xs : List Char) :
    regex_replace_from sub 0 (x :: xs)
      = match match_hash_pad (x :: xs) with
        | some ds => sub ds ++ regex_replace_from sub (ds.length + 4) xs
        | none => x :: regex_replace_from sub 0 xs := rfl

theorem regex_replace_from_succ (sub : List Char → List Char) (n : Nat) (x : Char)
    (xs : List Char) :
    regex_replace_from sub (n + 1) (x :: xs) = regex_replace_from sub n xs := rfl

theorem format_from_text_cons (idx : Indexing) (x : Char) (xs : List Char) :
    format_from idx Scan.text (x :: xs)
      = if x = lbrace then format_from idx Scan.opened xs
        else if x = rbrace then format_from idx Scan.closed xs
        else (format_from idx Scan.text xs).map (fun r => x :: r) := rfl

theorem format_from_opened_cons (idx : Indexing) (x : Char) (xs : List Char) :
    format_from idx Scan.opened (x :: xs)
      = if x = lbrace then (format_from idx Scan.text xs).map (fun r => lbrace :: r)
        else if x = rbrace then
          close_field idx [] (fun idx2 => format_from idx2 Scan.text xs)
        else format_from idx (Scan.field [x]) xs := rfl

theorem format_from_field_cons (idx : Indexing) (acc : List Char) (x : Char)
    (xs : List Char) :
    format_from idx (Scan.field acc) (x :: xs)
      = if x = rbrace then
          close_field idx acc.reverse (fun idx2 => format_from idx2 Scan.text xs)
        else format_from idx (Scan.field (x :: acc)) xs := rfl

theorem regex_replace_from_text (sub : List Char → List Char) (pre rest : List Char)
    (hpre : lbrace ∉ pre) :
    regex_replace_from sub 0 (pre ++ rest) = pre ++ regex_replace_from sub 0 rest := by
  induction pre with
  | nil => rfl
  | cons x xs ih =>
    have hx : x ≠ lbrace := fun h => hpre (by simp [h])
    have hxs : lbrace ∉ xs := fun h => hpre (List.mem_cons_of_mem _ h)
    rw [List.cons_append, regex_replace_from_cons, match_hash_pad_other x (xs ++ rest) hx]
    simp only [ih hxs, List.cons_append]

theorem regex_replace_from_skip (sub : List Char → List Char) (l rest : List Char) :
    regex_replace_from sub l.length (l ++ rest) = regex_replace_from sub 0 rest := by
  induction l with
  | nil => rfl
  | cons x xs ih =>
    rw [List.cons_append, List.length_cons, regex_replace_from_succ]
    exact ih

theorem regex_replace_from_plain (sub : List Char → List Char) (post : List Char)
    (hpost : lbrace ∉ post) : regex_replace_from sub 0 post = post := by
  have h := regex_replace_from_text sub post [] hpost
  have hnil : regex_replace_from sub 0 [] = [] := rfl
  rw [hnil, List.append_nil] at h
  exact h

theorem digits_run (p : Char → Bool) (ds : List Char) (d : Char) (r : List Char)
    (hds : ∀ c ∈ ds, p c = true) (hd : p d = false) :
    (ds ++ d :: r).takeWhile p = ds ∧ (ds ++ d :: r).dropWhile p = d :: r := by
  induction ds with
  | nil => simp [List.takeWhile_cons, List.dropWhile_cons, hd]
  | cons x xs ih =>
    have hx : p x = true := hds x (by simp)
    have hxs : ∀ c ∈ xs, p c = true := fun c hc => hds c (List.mem_cons_of_mem _ hc)
    simp [List.takeWhile_cons, List.dropWhile_cons, hx, ih hxs]

theorem match_hash_pad_token (ds post : List Char) (hne : ds ≠ [])
    (hds : ∀ c ∈ ds, c.isDigit = true) :
    match_hash_pad (pad_token ds ++ post) = some ds := by
  have hrun := digits_run Char.isDigit ds 'd' (rbrace :: post) hds (by decide)
  have hshape : pad_token ds ++ post
      = lbrace :: ':' :: '0' :: (ds ++ 'd' :: rbrace :: post) := by
    simp [pad_token]
  rw [hshape]
  simp only [match_hash_pad, hrun.1, hrun.2]
  simp [hne]

theorem regex_replace_single (sub : List Char → List Char) (pre post ds : List Char)
    (hpre : lbrace ∉ pre) (hpost : lbrace ∉ post) (hne : ds ≠ [])
    (hds : ∀ c ∈ ds, c.isDigit = true) :
    regex_replace (pre ++ pad_token ds ++ post) sub = pre ++ sub ds ++ post := by
  unfold regex_replace
  rw [List.append_assoc, regex_replace_from_text sub pre _ hpre]
  have hm := match_hash_pad_token ds post hne hds
  have hshape : pad_token ds ++ post
      = lbrace :: ((':' :: '0' :: (ds ++ ['d', rbrace])) ++ post) := by
    simp [pad_token]
  have hlen : (':' :: '0' :: (ds ++ ['d', rbrace])).length = ds.length + 4 := by
    simp
  rw [hshape] at hm
  rw [hshape, regex_replace_from_cons, hm]
  simp only []
  rw [← hlen, regex_replace_from_skip, regex_replace_from_plain sub post hpost]
  simp

theorem format_from_text (idx : Indexing) (pre rest : List Char)
    (hl : lbrace ∉ pre) (hr : rbrace ∉ pre) :
    format_from idx Scan.text (pre ++ rest)
      = (format_from idx Scan.text rest).map (fun r => pre ++ r) := by
  induction pre with
  | nil => simp
  | cons x xs ih =>
    have hxl : x ≠ lbrace := fun h => hl (by simp [h])
    have hxr : x ≠ rbrace := fun h => hr (by simp [h])
    have hxsl : lbrace ∉ xs := fun h => hl (List.mem_cons_of_mem _ h)
    have hxsr : rbrace ∉ xs := fun h => hr (List.mem_cons_of_mem _ h)
    rw [List.cons_append, format_from_text_cons, if_neg hxl, if_neg hxr, ih hxsl hxsr,
      Option.map_map]
    rfl

theorem format_from_plain (idx : Indexing) (post : List Char)
    (hl : lbrace ∉ post) (hr : rbrace ∉ post) :
    format_from idx Scan.text post = some post := by
  have h := format_from_text idx post [] hl hr
  have hnil : format_from idx Scan.text [] = some [] := rfl
  rw [hnil, List.append_nil] at h
  simpa using h

theorem format_from_field (idx : Indexing) (acc c rest : List Char) (hc : rbrace ∉ c) :
    format_from idx (Scan.field acc) (c ++ rbrace :: rest)
      = close_field idx (acc.reverse ++ c) (fun idx2 => format_from idx2 Scan.text rest) := by
  induction c generalizing acc with
  | nil =>
    rw [List.nil_append, format_from_field_cons, if_pos rfl, List.append_nil]
  | cons x xs ih =>
    have hx : x ≠ rbrace := fun h => hc (by simp [h])
    have hxs : rbrace ∉ xs := fun h => hc (List.mem_cons_of_mem _ h)
    rw [List.cons_append, format_from_field_cons, if_neg hx, ih (x :: acc) hxs]
    simp

theorem digit_not_rbrace (ds : List Char) (hds : ∀ c ∈ ds, c.isDigit = true) :
    rbrace ∉ ds := by
  intro h
  have := hds rbrace h
  revert this
  decide

theorem parse_width_digits (ds : List Char) (hne : ds ≠ [])
    (hds : ∀ c ∈ ds, c.isDigit = true) (hlead : ds.head? ≠ some '0')
    (hfit : digits_value ds ≤ 2147483647) : parse_width ds = some (digits_value ds) := by
  unfold parse_width
  rw [if_neg hne, if_pos]
  refine ⟨?_, hlead, hfit⟩
  rw [List.all_eq_true]
  exact hds

theorem fmt_format_single (pre post ds : List Char)
    (hprel : lbrace ∉ pre) (hprer : rbrace ∉ pre)
    (hpostl : lbrace ∉ post) (hpostr : rbrace ∉ post) (hne : ds ≠ [])
    (hds : ∀ c ∈ ds, c.isDigit = true) (hlead : ds.head? ≠ some '0')
    (hfit : digits_value ds ≤ 2147483647) :
    fmt_format (pre ++ hash_field ds ++ post)
      = some (pre ++ List.replicate (digits_value ds) '#' ++ post) := by
  unfold fmt_format
  rw [List.append_assoc, format_from_text _ pre _ hprel hprer]
  have hshape : hash_field ds ++ post
      = lbrace :: ':' :: (('#' :: '<' :: ds) ++ rbrace :: post) := by
    simp [hash_field]
  have hc : rbrace ∉ '#' :: '<' :: ds := by
    intro h
    rcases List.mem_cons.1 h with h1 | h1
    · revert h1
      decide
    · rcases List.mem_cons.1 h1 with h2 | h2
      · revert h2
        decide
      · exact digit_not_rbrace ds hds h2
  have hcl : (':' : Char) ≠ lbrace := by decide
  have hcr : (':' : Char) ≠ rbrace := by decide
  rw [hshape, format_from_text_cons, if_pos rfl, format_from_opened_cons, if_neg hcl,
    if_neg hcr, format_from_field _ _ _ _ hc]
  have hfield : format_field Indexing.unset ([':'].reverse ++ '#' :: '<' :: ds)
      = some (Indexing.automatic 1, List.replicate (digits_value ds) '#') := by
    have hal : is_align '<' = true := by decide
    have hfl : ('#' : Char) ≠ lbrace := by decide
    simp [format_field, arg_index, format_spec, List.takeWhile_cons, List.dropWhile_cons,
      hal, hfl, parse_width_digits ds hne hds hlead hfit]
  simp only [close_field, hfield, format_from_plain _ post hpostl hpostr]
  simp

theorem regex_replace_from_token (sub : List Char → List Char) (ds post : List Char)
    (hne : ds ≠ []) (hds : ∀ c ∈ ds, c.isDigit = true) :
    regex_replace_from sub 0 (pad_token ds ++ post)
      = sub ds ++ regex_replace_from sub 0 post := by
  have hm := match_hash_pad_token ds post hne hds
  have hshape : pad_token ds ++ post
      = lbrace :: ((':' :: '0' :: (ds ++ ['d', rbrace])) ++ post) := by
    simp [pad_token]
  have hlen : (':' :: '0' :: (ds ++ ['d', rbrace])).length = ds.length + 4 := by
    simp
  rw [hshape] at hm
  rw [hshape, regex_replace_from_cons, hm]
  simp only []
  rw [← hlen, regex_replace_from_skip]

theorem regex_replace_from_segments (sub : List Char → List Char)
    (segs : List (List Char × List Char))
    (hsegs : ∀ sg ∈ segs, sg.1 ≠ [] ∧ (∀ c ∈ sg.1, c.isDigit = true) ∧ lbrace ∉ sg.2) :
    regex_replace_from sub 0 (segments_text pad_token segs) = segments_text sub segs := by
  induction segs with
  | nil => rfl
  | cons sg rest ih =>
    obtain ⟨hne, hds, htext⟩ := hsegs sg (List.mem_cons_self _ _)
    have hrest := ih (fun q hq => hsegs q (List.mem_cons_of_mem _ hq))
    simp only [segments_text]
    rw [List.append_assoc, regex_replace_from_token sub sg.1 _ hne hds,
      regex_replace_from_text sub sg.2 _ htext, hrest, List.append_assoc]

theorem regex_replace_segments (sub : List Char → List Char) (pre : List Char)
    (segs : List (List Char × List Char)) (hpre : lbrace ∉ pre)
    (hsegs : ∀ sg ∈ segs, sg.1 ≠ [] ∧ (∀ c ∈ sg.1, c.isDigit = true) ∧ lbrace ∉ sg.2) :
    regex_replace (pre ++ segments_text pad_token segs) sub
      = pre ++ segments_text sub segs := by
  unfold regex_replace
  rw [regex_replace_from_text sub pre _ hpre, regex_replace_from_segments sub segs hsegs]

theorem segments_hash_plain (segs : List (List Char × List Char))
    (hsegs : ∀ sg ∈ segs, lbrace ∉ sg.2 ∧ rbrace ∉ sg.2) :
    lbrace ∉ segments_text (fun _ => ['#']) segs
    ∧ rbrace ∉ segments_text (fun _ => ['#']) segs := by
  induction segs with
  | nil => simp [segments_text]
  | cons sg rest ih =>
    obtain ⟨h1, h2⟩ := hsegs sg (List.mem_cons_self _ _)
    obtain ⟨i1, i2⟩ := ih (fun q hq => hsegs q (List.mem_cons_of_mem _ hq))
    have hl : lbrace ≠ '#' := by decide
    have hr : rbrace ≠ '#' := by decide
    simp only [segments_text, List.mem_append, List.mem_singleton, not_or]
    exact ⟨⟨⟨hl, h1⟩, i1⟩, ⟨⟨hr, h2⟩, i2⟩⟩

theorem format_from_hash_field (idx : Indexing) (ds rest : List Char)
    (hds : ∀ c ∈ ds, c.isDigit = true) :
    format_from idx Scan.text (hash_field ds ++ rest)
      = close_field idx (':' :: '#' :: '<' :: ds)
          (fun idx2 => format_from idx2 Scan.text rest) := by
  have hshape : hash_field ds ++ rest
      = lbrace :: ':' :: (('#' :: '<' :: ds) ++ rbrace :: rest) := by
    simp [hash_field]
  have hc : rbrace ∉ '#' :: '<' :: ds := by
    intro h
    rcases List.mem_cons.1 h with h1 | h1
    · revert h1
      decide
    · rcases List.mem_cons.1 h1 with h2 | h2
      · revert h2
        decide
      · exact digit_not_rbrace ds hds h2
  have hcl : (':' : Char) ≠ lbrace := by decide
  have hcr : (':' : Char) ≠ rbrace := by decide
  rw [hshape, format_from_text_cons, if_pos rfl, format_from_opened_cons, if_neg hcl,
    if_neg hcr, format_from_field _ _ _ _ hc]
  rfl

theorem format_field_hash (idx : Indexing) (ds : List Char) :
    format_field idx (':' :: '#' :: '<' :: ds)
      = match arg_index idx [] with
        | none => none
        | some idx2 => (parse_width ds).map (fun w => (idx2, List.replicate w '#')) := by
  have hal : is_align '<' = true := by decide
  have hfl : ('#' : Char) ≠ lbrace := by decide
  simp only [format_field, List.takeWhile_cons, List.dropWhile_cons, ne_eq, not_true_eq_false,
    decide_False, Bool.false_eq_true, if_false, List.drop_succ_cons, List.drop_zero]
  cases arg_index idx [] with
  | none => rfl
  | some idx2 =>
    simp only [format_spec, hal, if_true, hfl, if_false, Option.map_map]
    rfl

theorem format_from_second_field (k : Nat) (ds rest : List Char)
    (hds : ∀ c ∈ ds, c.isDigit = true) :
    format_from (Indexing.automatic k) Scan.text (hash_field ds ++ rest) = none := by
  rw [format_from_hash_field _ ds rest hds]
  simp only [close_field, format_field_hash]
  rfl

theorem format_from_bad_width (ds rest : List Char) (hne : ds ≠ [])
    (hds : ∀ c ∈ ds, c.isDigit = true)
    (hbad : ¬ (ds.head? ≠ some '0' ∧ digits_value ds ≤ 2147483647)) :
    format_from Indexing.unset Scan.text (hash_field ds ++ rest) = none := by
  have hw : parse_width ds = none := by
    unfold parse_width
    rw [if_neg hne, if_neg]
    intro h
    exact hbad ⟨h.2.1, h.2.2⟩
  rw [format_from_hash_field _ ds rest hds]
  simp only [close_field, format_field_hash, hw]
  rfl

theorem format_from_two_fields (ds1 text1 ds2 rest : List Char)
    (hds1 : ∀ c ∈ ds1, c.isDigit = true) (hds2 : ∀ c ∈ ds2, c.isDigit = true)
    (hl : lbrace ∉ text1) (hr : rbrace ∉ text1) :
    format_from Indexing.unset Scan.text (hash_field ds1 ++ (text1 ++ (hash_field ds2 ++ rest)))
      = none := by
  rw [format_from_hash_field _ ds1 _ hds1]
  simp only [close_field, format_field_hash]
  cases hw : parse_width ds1 with
  | none => rfl
  | some w =>
    have harg : arg_index Indexing.unset [] = some (Indexing.automatic 1) := rfl
    simp only [harg, Option.map_some']
    rw [format_from_text _ text1 _ hl hr, format_from_second_field 1 ds2 rest hds2]
    rfl

theorem fmt_format_none (pre rest : List Char) (hl : lbrace ∉ pre) (hr : rbrace ∉ pre)
    (h : format_from Indexing.unset Scan.text rest = none) :
    fmt_format (pre ++ rest) = none := by
  unfold fmt_format
  rw [format_from_text _ pre _ hl hr, h]
  rfl

theorem display_filename_fallback (pre : List Char) (segs : List (List Char × List Char))
    (hprel : lbrace ∉ pre) (hprer : rbrace ∉ pre)
    (hsegs : ∀ sg ∈ segs, sg.1 ≠ [] ∧ (∀ c ∈ sg.1, c.isDigit = true)
      ∧ lbrace ∉ sg.2 ∧ rbrace ∉ sg.2)
    (hfirst : fmt_format (pre ++ segments_text hash_field segs) = none) :
    display_filename false (pre ++ segments_text pad_token segs)
      = some (pre ++ segments_text (fun _ => ['#']) segs) := by
  have hreg : ∀ sub : List Char → List Char,
      regex_replace (pre ++ segments_text pad_token segs) sub
        = pre ++ segments_text sub segs :=
    fun sub => regex_replace_segments sub pre segs hprel
      (fun sg hsg => ⟨(hsegs sg hsg).1, (hsegs sg hsg).2.1, (hsegs sg hsg).2.2.1⟩)
  obtain ⟨pl, pr⟩ := segments_hash_plain segs
    (fun sg hsg => ⟨(hsegs sg hsg).2.2.1, (hsegs sg hsg).2.2.2⟩)
  have hplain : fmt_format (pre ++ segments_text (fun _ => ['#']) segs)
      = some (pre ++ segments_text (fun _ => ['#']) segs) := by
    unfold fmt_format
    apply format_from_plain
    · simp only [List.mem_append, not_or]
      exact ⟨hprel, pl⟩
    · simp only [List.mem_append, not_or]
      exact ⟨hprer, pr⟩
  unfold display_filename
  rw [if_neg (by simp), hreg, hfirst]
  simp only []
  rw [hreg, hplain]

theorem segments_text_congr (f g : List Char → List Char)
    (segs : List (List Char × List Char)) (h : ∀ sg ∈ segs, f sg.1 = g sg.1) :
    segments_text f segs = segments_text g segs := by
  induction segs with
  | nil => rfl
  | cons sg rest ih =>
    simp only [segments_text]
    rw [h sg (List.mem_cons_self _ _), ih (fun q hq => h q (List.mem_cons_of_mem _ hq))]

/-- C25 (as stated, refuted): a sequence filename with two pad tokens, of widths 4 and
2. The first formatting finds two automatically indexed fields for its single argument
and throws, so the fallback replaces every token by one "#": the result is `shot.#.#.exr`
and not `shot.####.##.exr`. -/
theorem C25_two_tokens_single_hash :
    display_filename false
        ("shot.".toList ++ pad_token ['4'] ++ ['.'] ++ pad_token ['2'] ++ ".exr".toList)
      = some "shot.#.#.exr".toList
    ∧ display_filename false
        ("shot.".toList ++ pad_token ['4'] ++ ['.'] ++ pad_token ['2'] ++ ".exr".toList)
      ≠ some "shot.####.##.exr".toList := by
  decide

/-- C25 (amended): a sequence filename without braces outside its pad tokens, written as
the text `pre` followed by the tokens, each with its digits (at least one) and the text
behind it. When the filename holds exactly one token and its width `N` has no leading
zero and is not above 2147483647, the token is rewritten to exactly `N` characters "#";
in every other case (several tokens, a leading zero, a larger width) every token is
rewritten to a single "#". The text outside the tokens is unchanged, and for a container
every filename is left untouched. -/
theorem C25_token_padding (pre : List Char) (segs : List (List Char × List Char))
    (hprel : lbrace ∉ pre) (hprer : rbrace ∉ pre)
    (hsegs : ∀ sg ∈ segs, sg.1 ≠ [] ∧ (∀ c ∈ sg.1, c.isDigit = true)
      ∧ lbrace ∉ sg.2 ∧ rbrace ∉ sg.2) :
    display_filename false (pre ++ segments_text pad_token segs)
      = some (pre ++ segments_text (shown_token segs.length) segs)
    ∧ ∀ filename : List Char, display_filename true filename = some filename := by
  refine ⟨?_, fun filename => rfl⟩
  cases segs with
  | nil =>
    have hreg : regex_replace (pre ++ segments_text pad_token []) hash_field = pre := by
      rw [regex_replace_segments hash_field pre [] hprel (by simp)]
      simp [segments_text]
    have hfmt : fmt_format pre = some pre := format_from_plain _ pre hprel hprer
    unfold display_filename
    rw [if_neg (by simp), hreg, hfmt]
    simp [segments_text]
  | cons sg rest =>
    obtain ⟨hne, hds, htl, htr⟩ := hsegs sg (List.mem_cons_self _ _)
    cases rest with
    | nil =>
      by_cases hvalid : sg.1.head? ≠ some '0' ∧ digits_value sg.1 ≤ 2147483647
      · have hreg : regex_replace (pre ++ segments_text pad_token [sg]) hash_field
            = pre ++ hash_field sg.1 ++ sg.2 := by
          rw [regex_replace_segments hash_field pre [sg] hprel
            (fun q hq => ⟨(hsegs q hq).1, (hsegs q hq).2.1, (hsegs q hq).2.2.1⟩)]
          simp [segments_text]
        have hshown : shown_token [sg].length sg.1
            = List.replicate (digits_value sg.1) '#' := by
          simp only [shown_token, List.length_singleton, true_and]
          rw [if_pos hvalid]
        unfold display_filename
        rw [if_neg (by simp), hreg,
          fmt_format_single pre sg.2 sg.1 hprel hprer htl htr hne hds hvalid.1 hvalid.2]
        simp only [segments_text, hshown, List.append_nil, List.append_assoc]
      · have hfirst : fmt_format (pre ++ segments_text hash_field [sg]) = none := by
          apply fmt_format_none pre _ hprel hprer
          simp only [segments_text, List.append_assoc]
          exact format_from_bad_width sg.1 _ hne hds hvalid
        have hshown : ∀ q ∈ [sg], shown_token [sg].length q.1 = (fun _ => ['#']) q.1 := by
          intro q hq
          rw [List.mem_singleton] at hq
          subst hq
          simp only [shown_token, List.length_singleton, true_and]
          rw [if_neg hvalid]
        rw [display_filename_fallback pre [sg] hprel hprer hsegs hfirst,
          segments_text_congr (shown_token [sg].length) (fun _ => ['#']) [sg] hshown]
    | cons sg2 rest2 =>
      obtain ⟨_, hds2, _, _⟩ := hsegs sg2 (List.mem_cons_of_mem _ (List.mem_cons_self _ _))
      have hfirst : fmt_format (pre ++ segments_text hash_field (sg :: sg2 :: rest2))
          = none := by
        apply fmt_format_none pre _ hprel hprer
        simp only [segments_text, List.append_assoc]
        exact format_from_two_fields sg.1 sg.2 sg2.1 _ hds hds2 htl htr
      have hshown : ∀ q ∈ sg :: sg2 :: rest2,
          shown_token (sg :: sg2 :: rest2).length q.1 = (fun _ => ['#']) q.1 := by
        intro q _
        have hlen : ¬ (sg :: sg2 :: rest2).length = 1 := by simp
        simp only [shown_token]
        rw [if_neg (fun h => hlen h.1)]
      rw [display_filename_fallback pre (sg :: sg2 :: rest2) hprel hprer hsegs hfirst,
        segments_text_congr (shown_token (sg :: sg2 :: rest2).length) (fun _ => ['#']) _
          hshown]

theorem C25_token_padding_witness :
    digits_value ['4'] = 4
    ∧ display_filename false ("shot.".toList ++ pad_token ['4'] ++ ".exr".toList)
        = some "shot.####.exr".toList
    ∧ display_filename true ("shot.".toList ++ pad_token ['4'] ++ ".exr".toList)
        = some ("shot.".toList ++ pad_token ['4'] ++ ".exr".toList) :=
  ⟨by decide,
    (C25_token_padding "shot.".toList [(['4'], ".exr".toList)] (by decide) (by decide)
      (by decide)).1,
    (C25_token_padding "shot.".toList [(['4'], ".exr".toList)] (by decide) (by decide)
      (by decide)).2 _⟩

/-! ## Serialisation and rehydration: properties -/

theorem json_set_new {κ α : Type} [DecidableEq κ] (o : List (κ × α)) (k : κ) (v : α)
    (h : k ∉ o.map Prod.fst) : json_set o k v = o ++ [(k, v)] := by
  unfold json_set
  rw [if_neg]
  intro hany
  rw [List.any_eq_true] at hany
  obtain ⟨p, hp, hk⟩ := hany
  have hpk : p.1 = k := of_decide_eq_true hk
  exact h (hpk ▸ List.mem_map_of_mem _ hp)

theorem stream_insert_new (m : List (Uuid × MediaStreamActor)) (u : Uuid)
    (a : MediaStreamActor) (h : u ∉ m.map Prod.fst) :
    stream_insert m u a = m ++ [(u, a)] := by
  unfold stream_insert
  rw [if_neg]
  intro hany
  rw [List.any_eq_true] at hany
  obtain ⟨p, hp, hk⟩ := hany
  have hpk : p.1 = u := by simpa using hk
  exact h (hpk ▸ List.mem_map_of_mem _ hp)

theorem fan_out_serialise_all (env : SerialiseEnv) (json : MediaStreamActor → StreamJson)
    (m : List (Uuid × MediaStreamActor))
    (h : ∀ p ∈ m, env.serialise_stream p.2 = Except.ok (json p.2)) :
    fan_out_serialise env (m.map (fun i => i.2)) = Except.ok (m.map (fun p => json p.2)) := by
  induction m with
  | nil => rfl
  | cons p rest ih =>
    have hp := h p (List.mem_cons_self _ _)
    have hrest := ih (fun q hq => h q (List.mem_cons_of_mem _ hq))
    simp only [List.map_cons, fan_out_serialise, hp, hrest]

theorem actors_fold (json : MediaStreamActor → StreamJson)
    (m : List (Uuid × MediaStreamActor)) (acc : List (Uuid × StreamJson))
    (hkeys : (acc.map Prod.fst ++ m.map Prod.fst).Nodup)
    (h : ∀ p ∈ m, (json p.2).container_uuid = p.1) :
    (m.map (fun p => json p.2)).foldl (fun a j => json_set a j.container_uuid j) acc
      = acc ++ m.map (fun p => (p.1, json p.2)) := by
  induction m generalizing acc with
  | nil => simp
  | cons p rest ih =>
    have hp := h p (List.mem_cons_self _ _)
    have hnew : p.1 ∉ acc.map Prod.fst := by
      intro hmem
      have hd := List.disjoint_of_nodup_append hkeys
      exact hd hmem (by simp)
    have hkeys2 : ((acc ++ [(p.1, json p.2)]).map Prod.fst ++ rest.map Prod.fst).Nodup := by
      simpa using hkeys
    simp only [List.map_cons, List.foldl_cons, hp]
    rw [json_set_new acc p.1 (json p.2) hnew,
      ih (acc ++ [(p.1, json p.2)]) hkeys2 (fun q hq => h q (List.mem_cons_of_mem _ hq))]
    simp

theorem spawn_streams_all (spawn : StreamJson → Option MediaStreamActor)
    (json : MediaStreamActor → StreamJson)
    (m acc : List (Uuid × MediaStreamActor))
    (hkeys : (acc.map Prod.fst ++ m.map Prod.fst).Nodup)
    (h : ∀ p ∈ m, (json p.2).container_type = "MediaStream") :
    spawn_streams spawn (m.map (fun p => (p.1, json p.2))) acc
      = acc ++ m.filterMap (fun p => (spawn (json p.2)).map (fun a => (p.1, a))) := by
  induction m generalizing acc with
  | nil => simp [spawn_streams]
  | cons p rest ih =>
    have hp := h p (List.mem_cons_self _ _)
    have hrest : ∀ q ∈ rest, (json q.2).container_type = "MediaStream" :=
      fun q hq => h q (List.mem_cons_of_mem _ hq)
    have hnew : p.1 ∉ acc.map Prod.fst := by
      intro hmem
      have hd := List.disjoint_of_nodup_append hkeys
      exact hd hmem (by simp)
    cases hs : spawn (json p.2) with
    | none =>
      have hkeys2 : (acc.map Prod.fst ++ rest.map Prod.fst).Nodup := by
        refine List.Nodup.sublist ?_ hkeys
        exact List.Sublist.append_left (List.sublist_cons_self _ _) _
      simp only [List.map_cons, spawn_streams, hp, hs, if_true, List.filterMap_cons,
        Option.map_none']
      exact ih acc hkeys2 hrest
    | some a =>
      have hkeys2 : ((acc ++ [(p.1, a)]).map Prod.fst ++ rest.map Prod.fst).Nodup := by
        simpa using hkeys
      simp only [List.map_cons, spawn_streams, hp, hs, if_true, List.filterMap_cons,
        Option.map_some']
      rw [stream_insert_new acc p.1 a hnew, ih (acc ++ [(p.1, a)]) hkeys2 hrest]
      simp

theorem filterMap_rebuilt (spawn : StreamJson → Option MediaStreamActor)
    (json : MediaStreamActor → StreamJson) (m : List (Uuid × MediaStreamActor))
    (h : ∀ p ∈ m, spawn (json p.2) = some p.2) :
    m.filterMap (fun p => (spawn (json p.2)).map (fun a => (p.1, a))) = m := by
  induction m with
  | nil => rfl
  | cons p rest ih =>
    have hp := h p (List.mem_cons_self _ _)
    simp only [List.filterMap_cons, hp, Option.map_some']
    rw [ih (fun q hq => h q (List.mem_cons_of_mem _ hq))]

theorem set_actor_fold (b : BaseJson) (t : MetadataTree) (js : List StreamJson)
    (a : List (Uuid × StreamJson)) :
    js.foldl set_actor
        [("base", JsonValue.base b), ("store", JsonValue.store t), ("actors", JsonValue.actors a)]
      = [("base", JsonValue.base b), ("store", JsonValue.store t),
          ("actors", JsonValue.actors
            (js.foldl (fun a j => json_set a j.container_uuid j) a))] := by
  induction js generalizing a with
  | nil => rfl
  | cons j rest ih =>
    have hstep : set_actor
        [("base", JsonValue.base b), ("store", JsonValue.store t), ("actors", JsonValue.actors a)] j
        = [("base", JsonValue.base b), ("store", JsonValue.store t),
            ("actors", JsonValue.actors (json_set a j.container_uuid j))] := rfl
    rw [List.foldl_cons, hstep, ih]
    rfl

theorem store_content_of (t : MetadataTree) : (if t.is_null then MetadataTree.empty else t) = t := by
  cases t with
  | mk documents =>
    cases documents with
    | nil => rfl
    | cons d rest => rfl

theorem init_store_kept (t : MetadataTree) (doc : JsonStore)
    (h : t.get_json "/colour_pipeline" = Except.ok doc) : init_store t = t := by
  unfold init_store
  rw [h]

theorem init_store_placeholder (t : MetadataTree) (err : Error)
    (h : t.get_json "/colour_pipeline" = Except.error err) :
    init_store t = t.set_json JsonStore.empty "/colour_pipeline" := by
  unfold init_store
  rw [h]

theorem serialise_atom_shape (env : SerialiseEnv) (json : MediaStreamActor → StreamJson)
    (s : State) (tree : MetadataTree)
    (hstore : env.get_json = Except.ok tree)
    (hkeys : (s.media_streams_.map Prod.fst).Nodup)
    (hstreams : ∀ p ∈ s.media_streams_,
      env.serialise_stream p.2 = Except.ok (json p.2) ∧ (json p.2).container_uuid = p.1) :
    serialise_atom env s
        = Except.ok [("base", JsonValue.base s.base_.serialise), ("store", JsonValue.store tree),
            ("actors", JsonValue.actors (s.media_streams_.map (fun p => (p.1, json p.2))))]
    ∨ (s.media_streams_ = [] ∧ serialise_atom env s
        = Except.ok [("store", JsonValue.store tree), ("base", JsonValue.base s.base_.serialise),
            ("actors", JsonValue.actors [])]) := by
  cases hm : s.media_streams_ with
  | nil =>
    right
    refine ⟨rfl, ?_⟩
    simp only [serialise_atom, hstore, hm]
    rfl
  | cons p rest =>
    left
    have hfan := fan_out_serialise_all env json s.media_streams_ (fun q hq => (hstreams q hq).1)
    have hfold := actors_fold json s.media_streams_ [] (by simpa using hkeys)
      (fun q hq => (hstreams q hq).2)
    have hne : ¬ ((s.media_streams_.map (fun i => i.2)).isEmpty = true) := by
      rw [hm]
      simp
    have hinit : json_set (json_set (json_set ([] : SourceJson) "base"
          (JsonValue.base s.base_.serialise)) "store" (JsonValue.store tree)) "actors"
          (JsonValue.actors [])
        = [("base", JsonValue.base s.base_.serialise), ("store", JsonValue.store tree),
            ("actors", JsonValue.actors [])] := rfl
    unfold serialise_atom
    simp only [hstore]
    rw [if_pos hne, hfan]
    simp only []
    rw [hinit, set_actor_fold, hfold, ← hm]
    rfl

/-- C23 (as stated, refuted): a source with two streams whose metadata tree holds no
document (the tree was replaced as a whole through the handler for `set_json_atom`
without path). Its serialisation carries the empty tree; the source constructed from it
asks its store for `/colour_pipeline` in `init`, gets the error and sets an empty
document there, so its metadata tree is not the serialised one. -/
theorem C23_round_trip_adds_colour_pipeline :
    (round_trip (serialise_env MetadataTree.empty) (spawn_known av_state.media_streams_)
        av_state.self av_state).map (fun r => r.json_store_)
      = some ⟨[("/colour_pipeline", JsonStore.empty)]⟩
    ∧ (round_trip (serialise_env MetadataTree.empty) (spawn_known av_state.media_streams_)
        av_state.self av_state).map (fun r => r.json_store_)
      ≠ some MetadataTree.empty := by
  decide

/-- C23 (amended). Modelled from the spec: the base state is read back from "base" as it
was written. The stream map is a `std::map`, so its keys are distinct. When the store
answers with the tree and every stream answers with a document of type "MediaStream"
that carries the uuid it is registered under, serialise yields an object with exactly
the keys base, store and actors, actors holding one entry per registered stream under
that stream's uuid. The source constructed from it has the same base state (uuid, media
reference, reader, current streams); its stream map holds, under the key of actors, the
stream rebuilt from each entry whose constructor does not throw, so it has the key set
of actors, and is the original stream map, when every stream is rebuilt from its own
document. Its metadata tree is the serialised tree when that tree holds a document at
`/colour_pipeline`, and otherwise the serialised tree with an empty document set at
`/colour_pipeline`. -/
theorem C23_round_trip_with_placeholder (env : SerialiseEnv)
    (spawn : StreamJson → Option MediaStreamActor) (json : MediaStreamActor → StreamJson)
    (self : Nat) (s : State) (tree : MetadataTree)
    (hstore : env.get_json = Except.ok tree)
    (hkeys : (s.media_streams_.map Prod.fst).Nodup)
    (hstreams : ∀ p ∈ s.media_streams_,
      env.serialise_stream p.2 = Except.ok (json p.2)
      ∧ (json p.2).container_type = "MediaStream"
      ∧ (json p.2).container_uuid = p.1) :
    ∃ jsn, serialise_atom env s = Except.ok jsn
      ∧ (jsn.map Prod.fst).Perm ["base", "store", "actors"]
      ∧ json_get jsn "base" = some (JsonValue.base s.base_.serialise)
      ∧ json_get jsn "store" = some (JsonValue.store tree)
      ∧ json_get jsn "actors"
          = some (JsonValue.actors (s.media_streams_.map (fun p => (p.1, json p.2))))
      ∧ construct_from_json spawn self jsn
          = some ⟨{ base_ := s.base_,
                    media_streams_ := s.media_streams_.filterMap
                      (fun p => (spawn (json p.2)).map (fun a => (p.1, a))),
                    parent_uuid_ := Uuid.nil, self := self }, init_store tree⟩
      ∧ ((∀ p ∈ s.media_streams_, spawn (json p.2) = some p.2) →
          construct_from_json spawn self jsn
            = some ⟨{ base_ := s.base_, media_streams_ := s.media_streams_,
                      parent_uuid_ := Uuid.nil, self := self }, init_store tree⟩)
      ∧ (∀ doc, tree.get_json "/colour_pipeline" = Except.ok doc → init_store tree = tree)
      ∧ (∀ err, tree.get_json "/colour_pipeline" = Except.error err →
          init_store tree = tree.set_json JsonStore.empty "/colour_pipeline") := by
  have hspawn := spawn_streams_all spawn json s.media_streams_ [] (by simpa using hkeys)
    (fun q hq => (hstreams q hq).2.1)
  rw [List.nil_append] at hspawn
  have hall : ∀ jsn : SourceJson,
      construct_from_json spawn self jsn
          = some ⟨{ base_ := s.base_,
                    media_streams_ := s.media_streams_.filterMap
                      (fun p => (spawn (json p.2)).map (fun a => (p.1, a))),
                    parent_uuid_ := Uuid.nil, self := self }, init_store tree⟩ →
      (∀ p ∈ s.media_streams_, spawn (json p.2) = some p.2) →
      construct_from_json spawn self jsn
        = some ⟨{ base_ := s.base_, media_streams_ := s.media_streams_,
                  parent_uuid_ := Uuid.nil, self := self }, init_store tree⟩ := by
    intro jsn hc hs
    rw [hc, filterMap_rebuilt spawn json s.media_streams_ hs]
  rcases serialise_atom_shape env json s tree hstore hkeys
      (fun q hq => ⟨(hstreams q hq).1, (hstreams q hq).2.2⟩) with h | ⟨hnil, h⟩
  · have hstore_content : store_content
        [("base", JsonValue.base s.base_.serialise), ("store", JsonValue.store tree),
          ("actors", JsonValue.actors (s.media_streams_.map (fun p => (p.1, json p.2))))]
        = tree := store_content_of tree
    have hcons : construct_from_json spawn self
        [("base", JsonValue.base s.base_.serialise), ("store", JsonValue.store tree),
          ("actors", JsonValue.actors (s.media_streams_.map (fun p => (p.1, json p.2))))]
        = some ⟨{ base_ := MediaSource.of_json s.base_.serialise,
                  media_streams_ := spawn_streams spawn
                    (s.media_streams_.map (fun p => (p.1, json p.2))) [],
                  parent_uuid_ := Uuid.nil, self := self },
                init_store (store_content
                  [("base", JsonValue.base s.base_.serialise), ("store", JsonValue.store tree),
                    ("actors", JsonValue.actors
                      (s.media_streams_.map (fun p => (p.1, json p.2))))])⟩ := rfl
    have hc : construct_from_json spawn self
        [("base", JsonValue.base s.base_.serialise), ("store", JsonValue.store tree),
          ("actors", JsonValue.actors (s.media_streams_.map (fun p => (p.1, json p.2))))]
        = some ⟨{ base_ := s.base_,
                  media_streams_ := s.media_streams_.filterMap
                    (fun p => (spawn (json p.2)).map (fun a => (p.1, a))),
                  parent_uuid_ := Uuid.nil, self := self }, init_store tree⟩ := by
      rw [hcons, hstore_content, hspawn]
      rfl
    exact ⟨_, h, List.Perm.refl _, rfl, rfl, rfl, hc, hall _ hc, init_store_kept tree,
      init_store_placeholder tree⟩
  · have hstore_content : store_content
        [("store", JsonValue.store tree), ("base", JsonValue.base s.base_.serialise),
          ("actors", JsonValue.actors [])]
        = tree := store_content_of tree
    have hcons : construct_from_json spawn self
        [("store", JsonValue.store tree), ("base", JsonValue.base s.base_.serialise),
          ("actors", JsonValue.actors [])]
        = some ⟨{ base_ := MediaSource.of_json s.base_.serialise,
                  media_streams_ := [],
                  parent_uuid_ := Uuid.nil, self := self },
                init_store (store_content
                  [("store", JsonValue.store tree), ("base", JsonValue.base s.base_.serialise),
                    ("actors", JsonValue.actors [])])⟩ := rfl
    have hc : construct_from_json spawn self
        [("store", JsonValue.store tree), ("base", JsonValue.base s.base_.serialise),
          ("actors", JsonValue.actors [])]
        = some ⟨{ base_ := s.base_,
                  media_streams_ := s.media_streams_.filterMap
                    (fun p => (spawn (json p.2)).map (fun a => (p.1, a))),
                  parent_uuid_ := Uuid.nil, self := self }, init_store tree⟩ := by
      rw [hcons, hstore_content, hnil]
      rfl
    refine ⟨_, h, List.Perm.swap _ _ _, rfl, rfl, ?_, hc, hall _ hc, init_store_kept tree,
      init_store_placeholder tree⟩
    rw [hnil]
    rfl

theorem C23_round_trip_with_placeholder_witness :
    (av_state.media_streams_.map Prod.fst).Nodup
    ∧ round_trip (serialise_env graded_tree) (spawn_known av_state.media_streams_)
        av_state.self av_state = some ⟨av_state, graded_tree⟩ := by
  refine ⟨by decide, ?_⟩
  obtain ⟨jsn, h1, _, _, _, _, _, h6, h7, _⟩ :=
    C23_round_trip_with_placeholder (serialise_env graded_tree)
      (spawn_known av_state.media_streams_) stream_json av_state.self av_state graded_tree
      rfl (by decide)
      (by
        intro p hp
        have hm : av_state.media_streams_
            = [(⟨100⟩, ⟨"video", ⟨2, ⟨29400000⟩⟩, MediaType.MT_IMAGE, "img", ⟨100⟩⟩),
                (⟨101⟩, ⟨"audio", ⟨2, ⟨29400000⟩⟩, MediaType.MT_AUDIO, "aud", ⟨101⟩⟩)] := by
          decide
        have hp2 : p = (⟨100⟩, ⟨"video", ⟨2, ⟨29400000⟩⟩, MediaType.MT_IMAGE, "img", ⟨100⟩⟩)
            ∨ p = (⟨101⟩, ⟨"audio", ⟨2, ⟨29400000⟩⟩, MediaType.MT_AUDIO, "aud", ⟨101⟩⟩) := by
          rw [hm] at hp
          simpa using hp
        rcases hp2 with rfl | rfl
        · exact ⟨rfl, rfl, rfl⟩
        · exact ⟨rfl, rfl, rfl⟩)
  have hrebuilt : ∀ p ∈ av_state.media_streams_,
      spawn_known av_state.media_streams_ (stream_json p.2) = some p.2 := by
    decide
  unfold round_trip
  rw [h1]
  simp only []
  rw [h6 hrebuilt, h7 _ rfl]
  rfl

end MediaSourceActor
